import Mathlib

/-!
Verification of the placement-assist engine of the dune-builder repository.

The definitions below are a shallow embedding of `src/types.ts`,
`src/utils/geometry.ts` (the registry-based version of the file) and the
building registry (`getBuildingDef` and the per-kind `BuildingDef` records).
JavaScript numbers are modelled as real numbers; `THREE.Vector3` becomes
`Vec3`; `THREE.Euler` triples become `Vec3` as well (applied in the
`XYZ` order used by three.js).  A thrown exception (the registry lookup
that can throw for an unregistered kind) is modelled by `Option`
propagation: `none` is the exceptional result.
-/

set_option maxHeartbeats 1000000

noncomputable section

open Classical Real

/-- A 3-component vector (`THREE.Vector3`, and also Euler angle triples). -/
@[ext] structure Vec3 where
  x : ℝ
  y : ℝ
  z : ℝ

namespace Vec3

def vadd (a b : Vec3) : Vec3 := ⟨a.x + b.x, a.y + b.y, a.z + b.z⟩

def vsub (a b : Vec3) : Vec3 := ⟨a.x - b.x, a.y - b.y, a.z - b.z⟩

def vneg (a : Vec3) : Vec3 := ⟨-a.x, -a.y, -a.z⟩

def smul (r : ℝ) (a : Vec3) : Vec3 := ⟨r * a.x, r * a.y, r * a.z⟩

/-- Embeds `THREE.Vector3.length()`. -/
def vlen (a : Vec3) : ℝ := Real.sqrt (a.x ^ 2 + a.y ^ 2 + a.z ^ 2)

/-- Embeds `THREE.Vector3.distanceTo`. -/
def dist3 (a b : Vec3) : ℝ :=
  Real.sqrt ((a.x - b.x) ^ 2 + (a.y - b.y) ^ 2 + (a.z - b.z) ^ 2)

/-- Embeds `THREE.Vector3.normalize()`: divides by `length() || 1`, so the zero
vector is left unchanged. -/
def vnormalize (a : Vec3) : Vec3 :=
  smul (1 / (if vlen a = 0 then 1 else vlen a)) a

/-- Rotation about the X axis by `t` (three.js convention). -/
def rotXv (t : ℝ) (v : Vec3) : Vec3 :=
  ⟨v.x, v.y * Real.cos t - v.z * Real.sin t, v.y * Real.sin t + v.z * Real.cos t⟩

/-- Rotation about the Y axis by `t` (three.js convention):
`x' = x cos t + z sin t`, `z' = -x sin t + z cos t`. -/
def rotYv (t : ℝ) (v : Vec3) : Vec3 :=
  ⟨v.x * Real.cos t + v.z * Real.sin t, v.y, -v.x * Real.sin t + v.z * Real.cos t⟩

/-- Rotation about the Z axis by `t` (three.js convention). -/
def rotZv (t : ℝ) (v : Vec3) : Vec3 :=
  ⟨v.x * Real.cos t - v.y * Real.sin t, v.x * Real.sin t + v.y * Real.cos t, v.z⟩

/-- Embeds `THREE.Vector3.applyEuler` with the default `XYZ` order: the quaternion
is `qx * qy * qz`, so the vector is rotated about Z, then Y, then X. -/
def applyEuler (e : Vec3) (v : Vec3) : Vec3 :=
  rotXv e.x (rotYv e.y (rotZv e.z v))

end Vec3

open Vec3

/-- Embeds `Math.atan2 y x` (JavaScript), as the argument of the complex number
`x + y i`; both have range `(-π, π]` and send `(0, 0)` to `0`. -/
def atan2 (y x : ℝ) : ℝ := Complex.arg ⟨x, y⟩

-- ===========================================================================
-- Data model (`src/types.ts`)
-- ===========================================================================

inductive BuildingType where
  | SQUARE_FOUNDATION
  | TRIANGLE_FOUNDATION
  | TRIANGLE_FOUNDATION_2
  | CURVED_FOUNDATION
  | SQUARE_STRUCTURE
  | TRIANGLE_STRUCTURE
  | CURVED_STRUCTURE
  | WALL
  | HALF_WALL
  | WINDOW_WALL
  | DOORWAY
  | CURVED_WALL
  | CURVED_HALF_WALL
  | SQUARE_ROOF
  | TRIANGLE_ROOF
  | STAIRS
  | STAIRS_2
  | RAMP
deriving DecidableEq, Repr

inductive SocketType where
  | FOUNDATION_EDGE
  | FOUNDATION_TOP
  | WALL_BOTTOM
  | WALL_SIDE
  | WALL_TOP
  | ROOF_EDGE
  | INCLINE_BOTTOM
  | INCLINE_TOP
deriving DecidableEq, Repr

inductive EdgeRole where
  | BASE
  | RIGHT
  | LEFT
  | SIDE
deriving DecidableEq, Repr

structure BuildingData where
  id : String
  type : BuildingType
  position : Vec3
  rotation : Vec3

/-- Dimensions from `src/types.ts`. -/
def UNIT_SIZE : ℝ := 4

def WALL_HEIGHT : ℝ := 3

def HALF_WALL_HEIGHT : ℝ := 1.5

def FOUNDATION_HEIGHT : ℝ := 0.2

def TRIANGLE_APOTHEM : ℝ := UNIT_SIZE / (2 * Real.sqrt 3)

def TRIANGLE_RADIUS : ℝ := UNIT_SIZE / Real.sqrt 3

/-- Legacy single-point socket in world space. -/
structure Socket where
  position : Vec3
  normal : Vec3
  id : String
  socketType : SocketType

/-- Edge socket with three points, world space (`src/types.ts EdgeSocket`). -/
structure EdgeSocket where
  start : Vec3
  center : Vec3
  «end» : Vec3
  id : String
  socketType : SocketType
  edgeLength : ℝ
  edgeRole : EdgeRole

/-- Embeds `SOCKET_COMPATIBILITY` from `src/types.ts`: the socket types that can
connect to a given socket type. -/
def SOCKET_COMPATIBILITY : SocketType → List SocketType
  | .FOUNDATION_EDGE => [.FOUNDATION_EDGE]
  | .FOUNDATION_TOP => [.WALL_BOTTOM, .INCLINE_BOTTOM, .INCLINE_TOP]
  | .WALL_BOTTOM => [.FOUNDATION_TOP, .WALL_TOP, .INCLINE_TOP]
  | .WALL_SIDE => [.WALL_SIDE]
  | .WALL_TOP => [.WALL_BOTTOM, .ROOF_EDGE, .INCLINE_BOTTOM, .INCLINE_TOP]
  | .ROOF_EDGE => [.ROOF_EDGE, .WALL_TOP]
  | .INCLINE_BOTTOM => [.FOUNDATION_TOP, .WALL_TOP, .INCLINE_TOP]
  | .INCLINE_TOP => [.FOUNDATION_TOP, .WALL_TOP, .WALL_BOTTOM, .INCLINE_BOTTOM]


-- ===========================================================================
-- Local / world point sockets (`src/utils/geometry.ts`)
-- ===========================================================================

/-- Local point socket (before world transform). -/
structure LocalSocket where
  position : Vec3
  normal : Vec3
  socketType : SocketType

/-- Embeds `getLocalSockets` from `src/utils/geometry.ts`: the local connection
points for a given building type (the registry-era version of the switch). -/
def getLocalSockets : BuildingType → List LocalSocket
  | .SQUARE_FOUNDATION =>
    [ ⟨⟨0, 0, UNIT_SIZE / 2⟩, ⟨0, 0, 1⟩, .FOUNDATION_EDGE⟩,
      ⟨⟨UNIT_SIZE / 2, 0, 0⟩, ⟨1, 0, 0⟩, .FOUNDATION_EDGE⟩,
      ⟨⟨0, 0, -(UNIT_SIZE / 2)⟩, ⟨0, 0, -1⟩, .FOUNDATION_EDGE⟩,
      ⟨⟨-(UNIT_SIZE / 2), 0, 0⟩, ⟨-1, 0, 0⟩, .FOUNDATION_EDGE⟩,
      ⟨⟨0, FOUNDATION_HEIGHT, UNIT_SIZE / 2⟩, ⟨0, 0, 1⟩, .FOUNDATION_TOP⟩,
      ⟨⟨UNIT_SIZE / 2, FOUNDATION_HEIGHT, 0⟩, ⟨1, 0, 0⟩, .FOUNDATION_TOP⟩,
      ⟨⟨0, FOUNDATION_HEIGHT, -(UNIT_SIZE / 2)⟩, ⟨0, 0, -1⟩, .FOUNDATION_TOP⟩,
      ⟨⟨-(UNIT_SIZE / 2), FOUNDATION_HEIGHT, 0⟩, ⟨-1, 0, 0⟩, .FOUNDATION_TOP⟩ ]
  | .TRIANGLE_FOUNDATION =>
    -- edges (vLeft,vRight), (vRight,vApex), (vApex,vLeft); per edge the
    -- midpoint, its outward normal, and a FOUNDATION_TOP copy at
    -- FOUNDATION_HEIGHT.
    let vApex : Vec3 := ⟨0, 0, -TRIANGLE_RADIUS⟩
    let vLeft : Vec3 := ⟨-(UNIT_SIZE / 2), 0, TRIANGLE_APOTHEM⟩
    let vRight : Vec3 := ⟨UNIT_SIZE / 2, 0, TRIANGLE_APOTHEM⟩
    let p1 := smul 0.5 (vadd vLeft vRight)
    let n1 := vnormalize ⟨p1.x, 0, p1.z⟩
    let p2 := smul 0.5 (vadd vRight vApex)
    let n2 := vnormalize ⟨p2.x, 0, p2.z⟩
    let p3 := smul 0.5 (vadd vApex vLeft)
    let n3 := vnormalize ⟨p3.x, 0, p3.z⟩
    [ ⟨p1, n1, .FOUNDATION_EDGE⟩, ⟨⟨p1.x, FOUNDATION_HEIGHT, p1.z⟩, n1, .FOUNDATION_TOP⟩,
      ⟨p2, n2, .FOUNDATION_EDGE⟩, ⟨⟨p2.x, FOUNDATION_HEIGHT, p2.z⟩, n2, .FOUNDATION_TOP⟩,
      ⟨p3, n3, .FOUNDATION_EDGE⟩, ⟨⟨p3.x, FOUNDATION_HEIGHT, p3.z⟩, n3, .FOUNDATION_TOP⟩ ]
  | .TRIANGLE_FOUNDATION_2 =>
    let normRight : Vec3 := ⟨Real.cos (π / 6), 0, -Real.sin (π / 6)⟩
    let posRight := smul TRIANGLE_APOTHEM normRight
    let normLeft : Vec3 := ⟨Real.cos (5 * π / 6), 0, -Real.sin (5 * π / 6)⟩
    let posLeft := smul TRIANGLE_APOTHEM normLeft
    [ ⟨⟨0, 0, TRIANGLE_APOTHEM⟩, ⟨0, 0, 1⟩, .FOUNDATION_EDGE⟩,
      ⟨⟨0, FOUNDATION_HEIGHT, TRIANGLE_APOTHEM⟩, ⟨0, 0, 1⟩, .FOUNDATION_TOP⟩,
      ⟨posRight, normRight, .FOUNDATION_EDGE⟩,
      ⟨⟨posRight.x, FOUNDATION_HEIGHT, posRight.z⟩, normRight, .FOUNDATION_TOP⟩,
      ⟨posLeft, normLeft, .FOUNDATION_EDGE⟩,
      ⟨⟨posLeft.x, FOUNDATION_HEIGHT, posLeft.z⟩, normLeft, .FOUNDATION_TOP⟩ ]
  | .CURVED_FOUNDATION =>
    [ ⟨⟨0, 0, -(UNIT_SIZE / 2)⟩, ⟨0, 0, -1⟩, .FOUNDATION_EDGE⟩,
      ⟨⟨-(UNIT_SIZE / 2), 0, 0⟩, ⟨-1, 0, 0⟩, .FOUNDATION_EDGE⟩,
      ⟨⟨0, FOUNDATION_HEIGHT, -(UNIT_SIZE / 2)⟩, ⟨0, 0, -1⟩, .FOUNDATION_TOP⟩,
      ⟨⟨-(UNIT_SIZE / 2), FOUNDATION_HEIGHT, 0⟩, ⟨-1, 0, 0⟩, .FOUNDATION_TOP⟩ ]
  | .SQUARE_STRUCTURE =>
    [ ⟨⟨0, 0, UNIT_SIZE / 2⟩, ⟨0, 0, 1⟩, .FOUNDATION_EDGE⟩,
      ⟨⟨UNIT_SIZE / 2, 0, 0⟩, ⟨1, 0, 0⟩, .FOUNDATION_EDGE⟩,
      ⟨⟨0, 0, -(UNIT_SIZE / 2)⟩, ⟨0, 0, -1⟩, .FOUNDATION_EDGE⟩,
      ⟨⟨-(UNIT_SIZE / 2), 0, 0⟩, ⟨-1, 0, 0⟩, .FOUNDATION_EDGE⟩,
      ⟨⟨0, WALL_HEIGHT, UNIT_SIZE / 2⟩, ⟨0, 0, 1⟩, .FOUNDATION_TOP⟩,
      ⟨⟨UNIT_SIZE / 2, WALL_HEIGHT, 0⟩, ⟨1, 0, 0⟩, .FOUNDATION_TOP⟩,
      ⟨⟨0, WALL_HEIGHT, -(UNIT_SIZE / 2)⟩, ⟨0, 0, -1⟩, .FOUNDATION_TOP⟩,
      ⟨⟨-(UNIT_SIZE / 2), WALL_HEIGHT, 0⟩, ⟨-1, 0, 0⟩, .FOUNDATION_TOP⟩ ]
  | .TRIANGLE_STRUCTURE =>
    let vApex : Vec3 := ⟨0, 0, -TRIANGLE_RADIUS⟩
    let vLeft : Vec3 := ⟨-(UNIT_SIZE / 2), 0, TRIANGLE_APOTHEM⟩
    let vRight : Vec3 := ⟨UNIT_SIZE / 2, 0, TRIANGLE_APOTHEM⟩
    let p1 := smul 0.5 (vadd vLeft vRight)
    let n1 := vnormalize ⟨p1.x, 0, p1.z⟩
    let p2 := smul 0.5 (vadd vRight vApex)
    let n2 := vnormalize ⟨p2.x, 0, p2.z⟩
    let p3 := smul 0.5 (vadd vApex vLeft)
    let n3 := vnormalize ⟨p3.x, 0, p3.z⟩
    [ ⟨p1, n1, .FOUNDATION_EDGE⟩, ⟨⟨p1.x, WALL_HEIGHT, p1.z⟩, n1, .FOUNDATION_TOP⟩,
      ⟨p2, n2, .FOUNDATION_EDGE⟩, ⟨⟨p2.x, WALL_HEIGHT, p2.z⟩, n2, .FOUNDATION_TOP⟩,
      ⟨p3, n3, .FOUNDATION_EDGE⟩, ⟨⟨p3.x, WALL_HEIGHT, p3.z⟩, n3, .FOUNDATION_TOP⟩ ]
  | .CURVED_STRUCTURE =>
    [ ⟨⟨0, 0, -(UNIT_SIZE / 2)⟩, ⟨0, 0, -1⟩, .FOUNDATION_EDGE⟩,
      ⟨⟨-(UNIT_SIZE / 2), 0, 0⟩, ⟨-1, 0, 0⟩, .FOUNDATION_EDGE⟩,
      ⟨⟨0, WALL_HEIGHT, -(UNIT_SIZE / 2)⟩, ⟨0, 0, -1⟩, .FOUNDATION_TOP⟩,
      ⟨⟨-(UNIT_SIZE / 2), WALL_HEIGHT, 0⟩, ⟨-1, 0, 0⟩, .FOUNDATION_TOP⟩ ]
  | .WALL | .WINDOW_WALL | .DOORWAY =>
    [ ⟨⟨0, 0, 0⟩, ⟨0, 0, 1⟩, .WALL_BOTTOM⟩,
      ⟨⟨0, 0, 0⟩, ⟨0, 0, -1⟩, .WALL_BOTTOM⟩,
      ⟨⟨-(UNIT_SIZE / 2), WALL_HEIGHT / 2, 0⟩, ⟨-1, 0, 0⟩, .WALL_SIDE⟩,
      ⟨⟨UNIT_SIZE / 2, WALL_HEIGHT / 2, 0⟩, ⟨1, 0, 0⟩, .WALL_SIDE⟩,
      ⟨⟨0, WALL_HEIGHT, 0⟩, ⟨0, 0, 1⟩, .WALL_TOP⟩,
      ⟨⟨0, WALL_HEIGHT, 0⟩, ⟨0, 0, -1⟩, .WALL_TOP⟩ ]
  | .HALF_WALL =>
    [ ⟨⟨0, 0, 0⟩, ⟨0, 0, 1⟩, .WALL_BOTTOM⟩,
      ⟨⟨0, 0, 0⟩, ⟨0, 0, -1⟩, .WALL_BOTTOM⟩,
      ⟨⟨-(UNIT_SIZE / 2), HALF_WALL_HEIGHT / 2, 0⟩, ⟨-1, 0, 0⟩, .WALL_SIDE⟩,
      ⟨⟨UNIT_SIZE / 2, HALF_WALL_HEIGHT / 2, 0⟩, ⟨1, 0, 0⟩, .WALL_SIDE⟩,
      ⟨⟨0, HALF_WALL_HEIGHT, 0⟩, ⟨0, 0, 1⟩, .WALL_TOP⟩,
      ⟨⟨0, HALF_WALL_HEIGHT, 0⟩, ⟨0, 0, -1⟩, .WALL_TOP⟩ ]
  | .SQUARE_ROOF =>
    [ ⟨⟨0, 0, UNIT_SIZE / 2⟩, ⟨0, 0, 1⟩, .ROOF_EDGE⟩,
      ⟨⟨UNIT_SIZE / 2, 0, 0⟩, ⟨1, 0, 0⟩, .ROOF_EDGE⟩,
      ⟨⟨0, 0, -(UNIT_SIZE / 2)⟩, ⟨0, 0, -1⟩, .ROOF_EDGE⟩,
      ⟨⟨-(UNIT_SIZE / 2), 0, 0⟩, ⟨-1, 0, 0⟩, .ROOF_EDGE⟩ ]
  | .TRIANGLE_ROOF =>
    [ ⟨rotYv (-(0 * (2 * π) / 3)) ⟨0, 0, TRIANGLE_APOTHEM⟩,
        rotYv (-(0 * (2 * π) / 3)) ⟨0, 0, 1⟩, .ROOF_EDGE⟩,
      ⟨rotYv (-(1 * (2 * π) / 3)) ⟨0, 0, TRIANGLE_APOTHEM⟩,
        rotYv (-(1 * (2 * π) / 3)) ⟨0, 0, 1⟩, .ROOF_EDGE⟩,
      ⟨rotYv (-(2 * (2 * π) / 3)) ⟨0, 0, TRIANGLE_APOTHEM⟩,
        rotYv (-(2 * (2 * π) / 3)) ⟨0, 0, 1⟩, .ROOF_EDGE⟩ ]
  | .STAIRS =>
    [ ⟨⟨0, 0, -(UNIT_SIZE / 2)⟩, ⟨0, 0, -1⟩, .INCLINE_BOTTOM⟩,
      ⟨⟨0, 0, UNIT_SIZE / 2⟩, ⟨0, 0, 1⟩, .INCLINE_BOTTOM⟩,
      ⟨⟨0, WALL_HEIGHT, UNIT_SIZE / 2⟩, ⟨0, 0, 1⟩, .INCLINE_TOP⟩ ]
  | .RAMP =>
    [ ⟨⟨0, 0, -(UNIT_SIZE / 2)⟩, ⟨0, 0, -1⟩, .INCLINE_BOTTOM⟩,
      ⟨⟨0, 0, UNIT_SIZE / 2⟩, ⟨0, 0, 1⟩, .INCLINE_BOTTOM⟩,
      ⟨⟨0, WALL_HEIGHT, UNIT_SIZE / 2⟩, ⟨0, 0, 1⟩, .INCLINE_TOP⟩ ]
  | _ => []

/-- Embeds `getWorldSockets`: apply the piece's Euler rotation and translation to
each local socket, stamping the piece id. -/
def getWorldSockets (building : BuildingData) : List Socket :=
  (getLocalSockets building.type).map fun s =>
    ⟨vadd (applyEuler building.rotation s.position) building.position,
      applyEuler building.rotation s.normal, building.id, s.socketType⟩

-- ===========================================================================
-- Local / world edge sockets (`src/utils/geometry.ts`)
-- ===========================================================================

/-- Local edge socket with three points (before world transform). -/
structure LocalEdgeSocket where
  start : Vec3
  center : Vec3
  «end» : Vec3
  socketType : SocketType
  edgeLength : ℝ
  edgeRole : EdgeRole

/-- Embeds `createEdge`: an edge from `start` to `end`; the center is the midpoint
and the edge length is the start-to-end distance. -/
def createEdge (start «end» : Vec3) (edgeRole : EdgeRole) : LocalEdgeSocket :=
  ⟨start, smul 0.5 (vadd start «end»), «end», .FOUNDATION_EDGE,
    dist3 start «end», edgeRole⟩

/-- Embeds `getLocalEdgeSockets`: the three-point local edges per building type. -/
def getLocalEdgeSockets : BuildingType → List LocalEdgeSocket
  | .SQUARE_FOUNDATION =>
    [ createEdge ⟨-(UNIT_SIZE / 2), 0, UNIT_SIZE / 2⟩ ⟨UNIT_SIZE / 2, 0, UNIT_SIZE / 2⟩ .SIDE,
      createEdge ⟨UNIT_SIZE / 2, 0, UNIT_SIZE / 2⟩ ⟨UNIT_SIZE / 2, 0, -(UNIT_SIZE / 2)⟩ .SIDE,
      createEdge ⟨UNIT_SIZE / 2, 0, -(UNIT_SIZE / 2)⟩ ⟨-(UNIT_SIZE / 2), 0, -(UNIT_SIZE / 2)⟩ .SIDE,
      createEdge ⟨-(UNIT_SIZE / 2), 0, -(UNIT_SIZE / 2)⟩ ⟨-(UNIT_SIZE / 2), 0, UNIT_SIZE / 2⟩ .SIDE ]
  | .TRIANGLE_FOUNDATION =>
    [ createEdge ⟨-(UNIT_SIZE / 2), 0, TRIANGLE_APOTHEM⟩ ⟨UNIT_SIZE / 2, 0, TRIANGLE_APOTHEM⟩ .BASE,
      createEdge ⟨UNIT_SIZE / 2, 0, TRIANGLE_APOTHEM⟩ ⟨0, 0, -TRIANGLE_RADIUS⟩ .RIGHT,
      createEdge ⟨0, 0, -TRIANGLE_RADIUS⟩ ⟨-(UNIT_SIZE / 2), 0, TRIANGLE_APOTHEM⟩ .LEFT ]
  | .TRIANGLE_FOUNDATION_2 =>
    [ createEdge ⟨-(UNIT_SIZE / 2), 0, TRIANGLE_APOTHEM⟩ ⟨UNIT_SIZE / 2, 0, TRIANGLE_APOTHEM⟩ .SIDE,
      createEdge ⟨UNIT_SIZE / 2, 0, TRIANGLE_APOTHEM⟩ ⟨0, 0, -TRIANGLE_RADIUS⟩ .SIDE,
      createEdge ⟨0, 0, -TRIANGLE_RADIUS⟩ ⟨-(UNIT_SIZE / 2), 0, TRIANGLE_APOTHEM⟩ .SIDE ]
  | .CURVED_FOUNDATION =>
    [ createEdge ⟨-(UNIT_SIZE / 2), 0, UNIT_SIZE / 2⟩ ⟨UNIT_SIZE / 2, 0, UNIT_SIZE / 2⟩ .SIDE,
      createEdge ⟨-(UNIT_SIZE / 2), 0, -(UNIT_SIZE / 2)⟩ ⟨-(UNIT_SIZE / 2), 0, UNIT_SIZE / 2⟩ .SIDE ]
  | .SQUARE_STRUCTURE =>
    [ createEdge ⟨-(UNIT_SIZE / 2), 0, UNIT_SIZE / 2⟩ ⟨UNIT_SIZE / 2, 0, UNIT_SIZE / 2⟩ .SIDE,
      createEdge ⟨UNIT_SIZE / 2, 0, UNIT_SIZE / 2⟩ ⟨UNIT_SIZE / 2, 0, -(UNIT_SIZE / 2)⟩ .SIDE,
      createEdge ⟨UNIT_SIZE / 2, 0, -(UNIT_SIZE / 2)⟩ ⟨-(UNIT_SIZE / 2), 0, -(UNIT_SIZE / 2)⟩ .SIDE,
      createEdge ⟨-(UNIT_SIZE / 2), 0, -(UNIT_SIZE / 2)⟩ ⟨-(UNIT_SIZE / 2), 0, UNIT_SIZE / 2⟩ .SIDE ]
  | .TRIANGLE_STRUCTURE =>
    [ createEdge ⟨-(UNIT_SIZE / 2), 0, TRIANGLE_APOTHEM⟩ ⟨UNIT_SIZE / 2, 0, TRIANGLE_APOTHEM⟩ .BASE,
      createEdge ⟨UNIT_SIZE / 2, 0, TRIANGLE_APOTHEM⟩ ⟨0, 0, -TRIANGLE_RADIUS⟩ .RIGHT,
      createEdge ⟨0, 0, -TRIANGLE_RADIUS⟩ ⟨-(UNIT_SIZE / 2), 0, TRIANGLE_APOTHEM⟩ .LEFT ]
  | .CURVED_STRUCTURE =>
    [ createEdge ⟨-(UNIT_SIZE / 2), 0, UNIT_SIZE / 2⟩ ⟨UNIT_SIZE / 2, 0, UNIT_SIZE / 2⟩ .SIDE,
      createEdge ⟨-(UNIT_SIZE / 2), 0, -(UNIT_SIZE / 2)⟩ ⟨-(UNIT_SIZE / 2), 0, UNIT_SIZE / 2⟩ .SIDE ]
  | .WALL | .WINDOW_WALL | .DOORWAY =>
    [ createEdge ⟨-(UNIT_SIZE / 2), WALL_HEIGHT, 0⟩ ⟨UNIT_SIZE / 2, WALL_HEIGHT, 0⟩ .SIDE,
      createEdge ⟨UNIT_SIZE / 2, WALL_HEIGHT, 0⟩ ⟨-(UNIT_SIZE / 2), WALL_HEIGHT, 0⟩ .SIDE ]
  | .HALF_WALL =>
    [ createEdge ⟨-(UNIT_SIZE / 2), HALF_WALL_HEIGHT, 0⟩ ⟨UNIT_SIZE / 2, HALF_WALL_HEIGHT, 0⟩ .SIDE,
      createEdge ⟨UNIT_SIZE / 2, HALF_WALL_HEIGHT, 0⟩ ⟨-(UNIT_SIZE / 2), HALF_WALL_HEIGHT, 0⟩ .SIDE ]
  | .RAMP | .STAIRS =>
    [ createEdge ⟨-(UNIT_SIZE / 2), 0, UNIT_SIZE / 2⟩ ⟨UNIT_SIZE / 2, 0, UNIT_SIZE / 2⟩ .SIDE,
      createEdge ⟨-(UNIT_SIZE / 2), WALL_HEIGHT, -(UNIT_SIZE / 2)⟩ ⟨UNIT_SIZE / 2, WALL_HEIGHT, -(UNIT_SIZE / 2)⟩ .SIDE ]
  | _ => []

/-- Embeds `getWorldEdgeSockets`: transform a piece's local edges to world space
(start, center and end each rotated then translated); the edge length and
role are copied unchanged. -/
def getWorldEdgeSockets (building : BuildingData) : List EdgeSocket :=
  (getLocalEdgeSockets building.type).map fun e =>
    ⟨vadd (applyEuler building.rotation e.start) building.position,
      vadd (applyEuler building.rotation e.center) building.position,
      vadd (applyEuler building.rotation e.«end») building.position,
      building.id, e.socketType, e.edgeLength, e.edgeRole⟩


-- ===========================================================================
-- Building registry (`src/data/BuildingRegistry.ts`)
-- ===========================================================================

inductive BuildingCategory where
  | foundation
  | wall
  | roof
  | incline
deriving DecidableEq, Repr

/-- Point socket definition in local space (registry data). -/
structure SocketDef where
  position : Vec3
  normal : Vec3
  socketType : SocketType

/-- Edge socket definition in local space (registry data). -/
structure EdgeDef where
  start : Vec3
  «end» : Vec3
  edgeRole : EdgeRole
  socketType : SocketType

/-- Complete registry definition for a building type. -/
structure BuildingDef where
  type : BuildingType
  category : BuildingCategory
  yOffset : ℝ
  usesEdgeSockets : Bool
  rotationIncrement : ℝ
  sockets : List SocketDef
  edges : List EdgeDef
  compatibleWith : List SocketType

def SQUARE_FOUNDATION_DEF : BuildingDef :=
  { type := .SQUARE_FOUNDATION
    category := .foundation
    yOffset := FOUNDATION_HEIGHT / 2
    usesEdgeSockets := true
    rotationIncrement := π / 2
    sockets :=
      [ ⟨⟨0, 0, UNIT_SIZE / 2⟩, ⟨0, 0, 1⟩, .FOUNDATION_EDGE⟩,
        ⟨⟨UNIT_SIZE / 2, 0, 0⟩, ⟨1, 0, 0⟩, .FOUNDATION_EDGE⟩,
        ⟨⟨0, 0, -(UNIT_SIZE / 2)⟩, ⟨0, 0, -1⟩, .FOUNDATION_EDGE⟩,
        ⟨⟨-(UNIT_SIZE / 2), 0, 0⟩, ⟨-1, 0, 0⟩, .FOUNDATION_EDGE⟩,
        ⟨⟨0, FOUNDATION_HEIGHT, UNIT_SIZE / 2⟩, ⟨0, 0, 1⟩, .FOUNDATION_TOP⟩,
        ⟨⟨UNIT_SIZE / 2, FOUNDATION_HEIGHT, 0⟩, ⟨1, 0, 0⟩, .FOUNDATION_TOP⟩,
        ⟨⟨0, FOUNDATION_HEIGHT, -(UNIT_SIZE / 2)⟩, ⟨0, 0, -1⟩, .FOUNDATION_TOP⟩,
        ⟨⟨-(UNIT_SIZE / 2), FOUNDATION_HEIGHT, 0⟩, ⟨-1, 0, 0⟩, .FOUNDATION_TOP⟩ ]
    edges :=
      [ ⟨⟨-(UNIT_SIZE / 2), 0, UNIT_SIZE / 2⟩, ⟨UNIT_SIZE / 2, 0, UNIT_SIZE / 2⟩, .SIDE, .FOUNDATION_EDGE⟩,
        ⟨⟨UNIT_SIZE / 2, 0, UNIT_SIZE / 2⟩, ⟨UNIT_SIZE / 2, 0, -(UNIT_SIZE / 2)⟩, .SIDE, .FOUNDATION_EDGE⟩,
        ⟨⟨UNIT_SIZE / 2, 0, -(UNIT_SIZE / 2)⟩, ⟨-(UNIT_SIZE / 2), 0, -(UNIT_SIZE / 2)⟩, .SIDE, .FOUNDATION_EDGE⟩,
        ⟨⟨-(UNIT_SIZE / 2), 0, -(UNIT_SIZE / 2)⟩, ⟨-(UNIT_SIZE / 2), 0, UNIT_SIZE / 2⟩, .SIDE, .FOUNDATION_EDGE⟩ ]
    compatibleWith := [.FOUNDATION_EDGE] }

/-- The three socket angles used by the triangle foundation/structure defs:
150 deg, 270 deg, 30 deg. -/
def triSocketAt (angle : ℝ) (topY : ℝ) : List SocketDef :=
  [ ⟨⟨Real.cos angle * TRIANGLE_APOTHEM, 0, Real.sin angle * TRIANGLE_APOTHEM⟩,
      ⟨Real.cos angle, 0, Real.sin angle⟩, .FOUNDATION_EDGE⟩,
    ⟨⟨Real.cos angle * TRIANGLE_APOTHEM, topY, Real.sin angle * TRIANGLE_APOTHEM⟩,
      ⟨Real.cos angle, 0, Real.sin angle⟩, .FOUNDATION_TOP⟩ ]

def TRIANGLE_FOUNDATION_DEF : BuildingDef :=
  { type := .TRIANGLE_FOUNDATION
    category := .foundation
    yOffset := FOUNDATION_HEIGHT / 2
    usesEdgeSockets := true
    rotationIncrement := π / 3
    sockets :=
      triSocketAt (5 * π / 6) FOUNDATION_HEIGHT ++
      triSocketAt (3 * π / 2) FOUNDATION_HEIGHT ++
      triSocketAt (π / 6) FOUNDATION_HEIGHT
    edges :=
      [ ⟨⟨-(UNIT_SIZE / 2), 0, TRIANGLE_APOTHEM⟩, ⟨UNIT_SIZE / 2, 0, TRIANGLE_APOTHEM⟩, .BASE, .FOUNDATION_EDGE⟩,
        ⟨⟨UNIT_SIZE / 2, 0, TRIANGLE_APOTHEM⟩, ⟨0, 0, -TRIANGLE_RADIUS⟩, .RIGHT, .FOUNDATION_EDGE⟩,
        ⟨⟨0, 0, -TRIANGLE_RADIUS⟩, ⟨-(UNIT_SIZE / 2), 0, TRIANGLE_APOTHEM⟩, .LEFT, .FOUNDATION_EDGE⟩ ]
    compatibleWith := [.FOUNDATION_EDGE] }

def TRIANGLE_FOUNDATION_2_DEF : BuildingDef :=
  { type := .TRIANGLE_FOUNDATION_2
    category := .foundation
    yOffset := FOUNDATION_HEIGHT / 2
    usesEdgeSockets := true
    rotationIncrement := π / 3
    sockets :=
      [ ⟨⟨0, 0, TRIANGLE_APOTHEM⟩, ⟨0, 0, 1⟩, .FOUNDATION_EDGE⟩,
        ⟨⟨0, FOUNDATION_HEIGHT, TRIANGLE_APOTHEM⟩, ⟨0, 0, 1⟩, .FOUNDATION_TOP⟩,
        ⟨⟨TRIANGLE_APOTHEM * Real.cos (π / 6), 0, -(TRIANGLE_APOTHEM * Real.sin (π / 6))⟩,
          ⟨Real.cos (-(π / 6)), 0, Real.sin (-(π / 6))⟩, .FOUNDATION_EDGE⟩,
        ⟨⟨TRIANGLE_APOTHEM * Real.cos (π / 6), FOUNDATION_HEIGHT, -(TRIANGLE_APOTHEM * Real.sin (π / 6))⟩,
          ⟨Real.cos (-(π / 6)), 0, Real.sin (-(π / 6))⟩, .FOUNDATION_TOP⟩,
        ⟨⟨-(TRIANGLE_APOTHEM * Real.cos (π / 6)), 0, -(TRIANGLE_APOTHEM * Real.sin (π / 6))⟩,
          ⟨-Real.cos (-(π / 6)), 0, Real.sin (-(π / 6))⟩, .FOUNDATION_EDGE⟩,
        ⟨⟨-(TRIANGLE_APOTHEM * Real.cos (π / 6)), FOUNDATION_HEIGHT, -(TRIANGLE_APOTHEM * Real.sin (π / 6))⟩,
          ⟨-Real.cos (-(π / 6)), 0, Real.sin (-(π / 6))⟩, .FOUNDATION_TOP⟩ ]
    edges :=
      [ ⟨⟨-(UNIT_SIZE / 2), 0, TRIANGLE_APOTHEM⟩, ⟨UNIT_SIZE / 2, 0, TRIANGLE_APOTHEM⟩, .SIDE, .FOUNDATION_EDGE⟩,
        ⟨⟨UNIT_SIZE / 2, 0, TRIANGLE_APOTHEM⟩, ⟨0, 0, -TRIANGLE_RADIUS⟩, .SIDE, .FOUNDATION_EDGE⟩,
        ⟨⟨0, 0, -TRIANGLE_RADIUS⟩, ⟨-(UNIT_SIZE / 2), 0, TRIANGLE_APOTHEM⟩, .SIDE, .FOUNDATION_EDGE⟩ ]
    compatibleWith := [.FOUNDATION_EDGE] }

def CURVED_FOUNDATION_DEF : BuildingDef :=
  { type := .CURVED_FOUNDATION
    category := .foundation
    yOffset := FOUNDATION_HEIGHT / 2
    usesEdgeSockets := true
    rotationIncrement := π / 2
    sockets :=
      [ ⟨⟨0, 0, UNIT_SIZE / 2⟩, ⟨0, 0, 1⟩, .FOUNDATION_EDGE⟩,
        ⟨⟨UNIT_SIZE / 2, 0, 0⟩, ⟨1, 0, 0⟩, .FOUNDATION_EDGE⟩,
        ⟨⟨-(UNIT_SIZE * 0.35), 0, -(UNIT_SIZE * 0.35)⟩, ⟨-0.707, 0, -0.707⟩, .FOUNDATION_EDGE⟩,
        ⟨⟨0, FOUNDATION_HEIGHT, UNIT_SIZE / 2⟩, ⟨0, 0, 1⟩, .FOUNDATION_TOP⟩,
        ⟨⟨UNIT_SIZE / 2, FOUNDATION_HEIGHT, 0⟩, ⟨1, 0, 0⟩, .FOUNDATION_TOP⟩ ]
    edges :=
      [ ⟨⟨-(UNIT_SIZE / 2), 0, UNIT_SIZE / 2⟩, ⟨UNIT_SIZE / 2, 0, UNIT_SIZE / 2⟩, .SIDE, .FOUNDATION_EDGE⟩,
        ⟨⟨UNIT_SIZE / 2, 0, UNIT_SIZE / 2⟩, ⟨UNIT_SIZE / 2, 0, -(UNIT_SIZE / 2)⟩, .SIDE, .FOUNDATION_EDGE⟩ ]
    compatibleWith := [.FOUNDATION_EDGE] }

def SQUARE_STRUCTURE_DEF : BuildingDef :=
  { type := .SQUARE_STRUCTURE
    category := .foundation
    yOffset := WALL_HEIGHT / 2
    usesEdgeSockets := true
    rotationIncrement := π / 2
    sockets :=
      [ ⟨⟨0, 0, UNIT_SIZE / 2⟩, ⟨0, 0, 1⟩, .FOUNDATION_EDGE⟩,
        ⟨⟨UNIT_SIZE / 2, 0, 0⟩, ⟨1, 0, 0⟩, .FOUNDATION_EDGE⟩,
        ⟨⟨0, 0, -(UNIT_SIZE / 2)⟩, ⟨0, 0, -1⟩, .FOUNDATION_EDGE⟩,
        ⟨⟨-(UNIT_SIZE / 2), 0, 0⟩, ⟨-1, 0, 0⟩, .FOUNDATION_EDGE⟩,
        ⟨⟨0, WALL_HEIGHT, UNIT_SIZE / 2⟩, ⟨0, 0, 1⟩, .FOUNDATION_TOP⟩,
        ⟨⟨UNIT_SIZE / 2, WALL_HEIGHT, 0⟩, ⟨1, 0, 0⟩, .FOUNDATION_TOP⟩,
        ⟨⟨0, WALL_HEIGHT, -(UNIT_SIZE / 2)⟩, ⟨0, 0, -1⟩, .FOUNDATION_TOP⟩,
        ⟨⟨-(UNIT_SIZE / 2), WALL_HEIGHT, 0⟩, ⟨-1, 0, 0⟩, .FOUNDATION_TOP⟩ ]
    edges :=
      [ ⟨⟨-(UNIT_SIZE / 2), 0, UNIT_SIZE / 2⟩, ⟨UNIT_SIZE / 2, 0, UNIT_SIZE / 2⟩, .SIDE, .FOUNDATION_EDGE⟩,
        ⟨⟨UNIT_SIZE / 2, 0, UNIT_SIZE / 2⟩, ⟨UNIT_SIZE / 2, 0, -(UNIT_SIZE / 2)⟩, .SIDE, .FOUNDATION_EDGE⟩,
        ⟨⟨UNIT_SIZE / 2, 0, -(UNIT_SIZE / 2)⟩, ⟨-(UNIT_SIZE / 2), 0, -(UNIT_SIZE / 2)⟩, .SIDE, .FOUNDATION_EDGE⟩,
        ⟨⟨-(UNIT_SIZE / 2), 0, -(UNIT_SIZE / 2)⟩, ⟨-(UNIT_SIZE / 2), 0, UNIT_SIZE / 2⟩, .SIDE, .FOUNDATION_EDGE⟩ ]
    compatibleWith := [.FOUNDATION_EDGE] }

def TRIANGLE_STRUCTURE_DEF : BuildingDef :=
  { type := .TRIANGLE_STRUCTURE
    category := .foundation
    yOffset := WALL_HEIGHT / 2
    usesEdgeSockets := true
    rotationIncrement := π / 3
    sockets :=
      triSocketAt (5 * π / 6) WALL_HEIGHT ++
      triSocketAt (3 * π / 2) WALL_HEIGHT ++
      triSocketAt (π / 6) WALL_HEIGHT
    edges :=
      [ ⟨⟨-(UNIT_SIZE / 2), 0, TRIANGLE_APOTHEM⟩, ⟨UNIT_SIZE / 2, 0, TRIANGLE_APOTHEM⟩, .BASE, .FOUNDATION_EDGE⟩,
        ⟨⟨UNIT_SIZE / 2, 0, TRIANGLE_APOTHEM⟩, ⟨0, 0, -TRIANGLE_RADIUS⟩, .RIGHT, .FOUNDATION_EDGE⟩,
        ⟨⟨0, 0, -TRIANGLE_RADIUS⟩, ⟨-(UNIT_SIZE / 2), 0, TRIANGLE_APOTHEM⟩, .LEFT, .FOUNDATION_EDGE⟩ ]
    compatibleWith := [.FOUNDATION_EDGE] }

def CURVED_STRUCTURE_DEF : BuildingDef :=
  { type := .CURVED_STRUCTURE
    category := .foundation
    yOffset := WALL_HEIGHT / 2
    usesEdgeSockets := true
    rotationIncrement := π / 2
    sockets :=
      [ ⟨⟨0, 0, UNIT_SIZE / 2⟩, ⟨0, 0, 1⟩, .FOUNDATION_EDGE⟩,
        ⟨⟨UNIT_SIZE / 2, 0, 0⟩, ⟨1, 0, 0⟩, .FOUNDATION_EDGE⟩,
        ⟨⟨-(UNIT_SIZE * 0.35), 0, -(UNIT_SIZE * 0.35)⟩, ⟨-0.707, 0, -0.707⟩, .FOUNDATION_EDGE⟩,
        ⟨⟨0, WALL_HEIGHT, UNIT_SIZE / 2⟩, ⟨0, 0, 1⟩, .FOUNDATION_TOP⟩,
        ⟨⟨UNIT_SIZE / 2, WALL_HEIGHT, 0⟩, ⟨1, 0, 0⟩, .FOUNDATION_TOP⟩ ]
    edges :=
      [ ⟨⟨-(UNIT_SIZE / 2), 0, UNIT_SIZE / 2⟩, ⟨UNIT_SIZE / 2, 0, UNIT_SIZE / 2⟩, .SIDE, .FOUNDATION_EDGE⟩,
        ⟨⟨UNIT_SIZE / 2, 0, UNIT_SIZE / 2⟩, ⟨UNIT_SIZE / 2, 0, -(UNIT_SIZE / 2)⟩, .SIDE, .FOUNDATION_EDGE⟩ ]
    compatibleWith := [.FOUNDATION_EDGE] }

/-- Shared shape of the four wall defs (they differ in type and height). -/
def wallDefOf (t : BuildingType) (h : ℝ) : BuildingDef :=
  { type := t
    category := .wall
    yOffset := h / 2
    usesEdgeSockets := true
    rotationIncrement := π / 2
    sockets :=
      [ ⟨⟨0, 0, 0⟩, ⟨0, -1, 0⟩, .WALL_BOTTOM⟩,
        ⟨⟨0, h, 0⟩, ⟨0, 1, 0⟩, .WALL_TOP⟩,
        ⟨⟨-(UNIT_SIZE / 2), h / 2, 0⟩, ⟨-1, 0, 0⟩, .WALL_SIDE⟩,
        ⟨⟨UNIT_SIZE / 2, h / 2, 0⟩, ⟨1, 0, 0⟩, .WALL_SIDE⟩ ]
    edges :=
      [ ⟨⟨-(UNIT_SIZE / 2), h, 0⟩, ⟨UNIT_SIZE / 2, h, 0⟩, .SIDE, .WALL_TOP⟩,
        ⟨⟨UNIT_SIZE / 2, h, 0⟩, ⟨-(UNIT_SIZE / 2), h, 0⟩, .SIDE, .WALL_TOP⟩ ]
    compatibleWith := [.FOUNDATION_TOP, .WALL_TOP, .INCLINE_TOP] }

def WALL_DEF : BuildingDef := wallDefOf .WALL WALL_HEIGHT

def HALF_WALL_DEF : BuildingDef := wallDefOf .HALF_WALL HALF_WALL_HEIGHT

def WINDOW_WALL_DEF : BuildingDef := wallDefOf .WINDOW_WALL WALL_HEIGHT

def DOORWAY_DEF : BuildingDef := wallDefOf .DOORWAY WALL_HEIGHT

def SQUARE_ROOF_DEF : BuildingDef :=
  { type := .SQUARE_ROOF
    category := .roof
    yOffset := 0.25
    usesEdgeSockets := false
    rotationIncrement := π / 2
    sockets :=
      [ ⟨⟨0, 0, UNIT_SIZE / 2⟩, ⟨0, 0, 1⟩, .ROOF_EDGE⟩,
        ⟨⟨UNIT_SIZE / 2, 0, 0⟩, ⟨1, 0, 0⟩, .ROOF_EDGE⟩,
        ⟨⟨0, 0, -(UNIT_SIZE / 2)⟩, ⟨0, 0, -1⟩, .ROOF_EDGE⟩,
        ⟨⟨-(UNIT_SIZE / 2), 0, 0⟩, ⟨-1, 0, 0⟩, .ROOF_EDGE⟩ ]
    edges := []
    compatibleWith := [.WALL_TOP, .ROOF_EDGE] }

def roofSocketAt (angle : ℝ) : SocketDef :=
  ⟨⟨Real.cos angle * TRIANGLE_APOTHEM, 0, Real.sin angle * TRIANGLE_APOTHEM⟩,
    ⟨Real.cos angle, 0, Real.sin angle⟩, .ROOF_EDGE⟩

def TRIANGLE_ROOF_DEF : BuildingDef :=
  { type := .TRIANGLE_ROOF
    category := .roof
    yOffset := 0.25
    usesEdgeSockets := false
    rotationIncrement := π / 3
    sockets := [roofSocketAt (5 * π / 6), roofSocketAt (3 * π / 2), roofSocketAt (π / 6)]
    edges := []
    compatibleWith := [.WALL_TOP, .ROOF_EDGE] }

/-- Shared shape of the stairs and ramp defs. -/
def inclineDefOf (t : BuildingType) : BuildingDef :=
  { type := t
    category := .incline
    yOffset := WALL_HEIGHT / 2
    usesEdgeSockets := true
    rotationIncrement := π / 2
    sockets :=
      [ ⟨⟨0, 0, UNIT_SIZE / 2⟩, ⟨0, 0, 1⟩, .INCLINE_BOTTOM⟩,
        ⟨⟨0, WALL_HEIGHT, -(UNIT_SIZE / 2)⟩, ⟨0, 0, -1⟩, .INCLINE_TOP⟩ ]
    edges :=
      [ ⟨⟨-(UNIT_SIZE / 2), 0, UNIT_SIZE / 2⟩, ⟨UNIT_SIZE / 2, 0, UNIT_SIZE / 2⟩, .SIDE, .INCLINE_BOTTOM⟩,
        ⟨⟨UNIT_SIZE / 2, 0, UNIT_SIZE / 2⟩, ⟨-(UNIT_SIZE / 2), 0, UNIT_SIZE / 2⟩, .SIDE, .INCLINE_BOTTOM⟩,
        ⟨⟨-(UNIT_SIZE / 2), WALL_HEIGHT, -(UNIT_SIZE / 2)⟩, ⟨UNIT_SIZE / 2, WALL_HEIGHT, -(UNIT_SIZE / 2)⟩, .SIDE, .INCLINE_TOP⟩,
        ⟨⟨UNIT_SIZE / 2, WALL_HEIGHT, -(UNIT_SIZE / 2)⟩, ⟨-(UNIT_SIZE / 2), WALL_HEIGHT, -(UNIT_SIZE / 2)⟩, .SIDE, .INCLINE_TOP⟩ ]
    compatibleWith := [.FOUNDATION_TOP, .WALL_TOP] }

def STAIRS_DEF : BuildingDef := inclineDefOf .STAIRS

def RAMP_DEF : BuildingDef := inclineDefOf .RAMP

/-- Embeds `BuildingRegistry`: record lookup; the enum members `CURVED_WALL`,
`CURVED_HALF_WALL` and `STAIRS_2` have no entry (lookup yields
`undefined`, modelled as `none`). -/
def BuildingRegistry : BuildingType → Option BuildingDef
  | .SQUARE_FOUNDATION => some SQUARE_FOUNDATION_DEF
  | .TRIANGLE_FOUNDATION => some TRIANGLE_FOUNDATION_DEF
  | .TRIANGLE_FOUNDATION_2 => some TRIANGLE_FOUNDATION_2_DEF
  | .CURVED_FOUNDATION => some CURVED_FOUNDATION_DEF
  | .SQUARE_STRUCTURE => some SQUARE_STRUCTURE_DEF
  | .TRIANGLE_STRUCTURE => some TRIANGLE_STRUCTURE_DEF
  | .CURVED_STRUCTURE => some CURVED_STRUCTURE_DEF
  | .WALL => some WALL_DEF
  | .HALF_WALL => some HALF_WALL_DEF
  | .WINDOW_WALL => some WINDOW_WALL_DEF
  | .DOORWAY => some DOORWAY_DEF
  | .SQUARE_ROOF => some SQUARE_ROOF_DEF
  | .TRIANGLE_ROOF => some TRIANGLE_ROOF_DEF
  | .STAIRS => some STAIRS_DEF
  | .RAMP => some RAMP_DEF
  | .CURVED_WALL => none
  | .CURVED_HALF_WALL => none
  | .STAIRS_2 => none

/-- Embeds `getBuildingDef`: returns the registry entry, or throws when the type
has no entry (`Except.error` models the thrown `Error`). -/
def getBuildingDef (type : BuildingType) : Except String BuildingDef :=
  match BuildingRegistry type with
  | some d => Except.ok d
  | none => Except.error "No building definition found for type"


-- ===========================================================================
-- Edge snap transform (`calculateEdgeSnapTransform`, geometry.ts 985-1028)
-- ===========================================================================

/-- Result of an edge-snap transform solve: a position and a yaw-only Euler
rotation `(0, rotY, 0)`. -/
structure SnapTransform where
  position : Vec3
  rotation : Vec3

/-- The yaw solved by `calculateEdgeSnapTransform`:
`atan2` of the negated, normalized target direction minus `atan2` of the
normalized ghost (pending) edge direction. -/
def edgeSnapYaw (targetEdge : EdgeSocket) (ghostEdge : LocalEdgeSocket) : ℝ :=
  atan2 (vneg (vnormalize (vsub targetEdge.«end» targetEdge.start))).x
      (vneg (vnormalize (vsub targetEdge.«end» targetEdge.start))).z -
    atan2 (vnormalize (vsub ghostEdge.«end» ghostEdge.start)).x
      (vnormalize (vsub ghostEdge.«end» ghostEdge.start)).z

/-- Embeds `calculateEdgeSnapTransform`: solve the rigid transform that puts the
ghost edge onto the target edge in reversed orientation, then validate all
three reference points within tolerance `0.05`; reject with `none` if any
of the three errors exceeds the tolerance. -/
def calculateEdgeSnapTransform (targetEdge : EdgeSocket) (ghostEdge : LocalEdgeSocket) :
    Option SnapTransform :=
  let rotY := edgeSnapYaw targetEdge ghostEdge
  let rotatedGhostStart := rotYv rotY ghostEdge.start
  let position := vsub targetEdge.«end» rotatedGhostStart
  let rotatedGhostCenter := vadd (rotYv rotY ghostEdge.center) position
  let rotatedGhostEnd := vadd (rotYv rotY ghostEdge.«end») position
  let startError := dist3 (vadd rotatedGhostStart position) targetEdge.«end»
  let centerError := dist3 rotatedGhostCenter targetEdge.center
  let endError := dist3 rotatedGhostEnd targetEdge.start
  if startError > 0.05 ∨ centerError > 0.05 ∨ endError > 0.05 then none
  else some ⟨position, ⟨0, rotY, 0⟩⟩

-- ===========================================================================
-- `calculateSnap` (geometry.ts 1047-1362)
-- ===========================================================================

def SNAP_RADIUS : ℝ := 3.5

/-- The wall-like types excluded from the edge-snapping branch. -/
def isWallLike (t : BuildingType) : Prop :=
  t = .WALL ∨ t = .HALF_WALL ∨ t = .WINDOW_WALL ∨ t = .DOORWAY

/-- Collect world edges of all placed pieces whose registry def uses edge
sockets (in list order); `none` models the exception thrown by the registry
lookup for an unregistered placed-piece type. -/
def collectTargetEdges : List BuildingData → Option (List EdgeSocket)
  | [] => some []
  | b :: rest =>
    match BuildingRegistry b.type with
    | none => none
    | some bd =>
      match collectTargetEdges rest with
      | none => none
      | some acc =>
        some ((if bd.usesEdgeSockets then getWorldEdgeSockets b else []) ++ acc)

/-- The midpoint recomputed by the matcher: `(start + end) * 0.5`. -/
def edgeMid (e : EdgeSocket) : Vec3 := smul 0.5 (vadd e.start e.«end»)

/-- A target edge is occupied when some other placed piece has an edge whose
midpoint is within `0.5` of this edge's midpoint. -/
def IsOccupied (buildings : List BuildingData) (t : EdgeSocket) : Prop :=
  ∃ b ∈ buildings, ¬b.id = t.id ∧
    ∃ e ∈ getWorldEdgeSockets b, dist3 (edgeMid t) (edgeMid e) < 0.5

/-- Keep the target edges whose midpoint is within the snap radius of the
cursor and that are not occupied, preserving order. -/
def filterTargets (p : Vec3) (buildings : List BuildingData) :
    List EdgeSocket → List EdgeSocket
  | [] => []
  | t :: rest =>
    if dist3 (edgeMid t) p > SNAP_RADIUS then filterTargets p buildings rest
    else if IsOccupied buildings t then filterTargets p buildings rest
    else t :: filterTargets p buildings rest

/-- An edge-snap candidate (`EdgeSnapCandidate` in the source). -/
structure EdgeSnapCandidate where
  position : Vec3
  rotation : Vec3
  distToCursor : ℝ
  targetEdge : EdgeSocket
  ghostEdge : LocalEdgeSocket

/-- All surviving `(target, ghost)` candidates in iteration order: targets
outer, ghost edges inner; a pair is dropped when the edge lengths differ by
more than `0.01` or the three-point validation rejects the transform. -/
def candList (tgts : List EdgeSocket) (ghosts : List LocalEdgeSocket) (p : Vec3) :
    List EdgeSnapCandidate :=
  tgts.flatMap fun t =>
    ghosts.filterMap fun g =>
      if |g.edgeLength - t.edgeLength| > 0.01 then none
      else
        match calculateEdgeSnapTransform t g with
        | none => none
        | some tr => some ⟨tr.position, tr.rotation, dist3 tr.position p, t, g⟩

/-- The running-best fold of the matcher loop: a later candidate replaces
the current best only when its cursor distance is strictly smaller. -/
def pickBest : List EdgeSnapCandidate → Option EdgeSnapCandidate
  | [] => none
  | c :: rest =>
    some (rest.foldl (fun b c' => if c'.distToCursor < b.distToCursor then c' else b) c)

-- ---------------------------------------------------------------------------
-- Point-socket fallback (geometry.ts 1167-1265)
-- ---------------------------------------------------------------------------

/-- A point-snap candidate (`PointSnapCandidate` in the source). -/
structure PointSnapCandidate where
  position : Vec3
  rotation : Vec3
  distToCursor : ℝ
  score : ℝ
  targetSocketY : ℝ

/-- JavaScript truncating division used by `%`: round toward zero. -/
def jstrunc (r : ℝ) : ℤ := if 0 ≤ r then ⌊r⌋ else ⌈r⌉

/-- JavaScript `%` on numbers: `a - b * trunc (a / b)`. -/
def jsmod (a b : ℝ) : ℝ := a - b * (jstrunc (a / b) : ℤ)

/-- One point-snap candidate for a (target socket, ghost socket) pair:
yaw aligned or opposed depending on the socket-kind pair, position placing
the rotated ghost socket onto the target socket, and the score built from
cursor distance, rotation-mismatch penalty and wall-stacking bonus. -/
def mkPointCand (p : Vec3) (ts : Socket) (gs : LocalSocket) (activeType : BuildingType)
    (currentRotationY : ℝ) : PointSnapCandidate :=
  let isWallStack := ts.socketType = SocketType.WALL_TOP ∧ gs.socketType = SocketType.WALL_BOTTOM
  let rotY :=
    if isWallStack then
      atan2 ts.normal.x ts.normal.z - atan2 gs.normal.x gs.normal.z
    else
      let shouldAlignOutward :=
        ts.socketType = SocketType.FOUNDATION_TOP ∧ gs.socketType = SocketType.WALL_BOTTOM
      let tn := if shouldAlignOutward then ts.normal else vneg ts.normal
      atan2 tn.x tn.z - atan2 gs.normal.x gs.normal.z
  let candidatePos := vsub ts.position (rotYv rotY gs.position)
  let distToCursor := dist3 candidatePos p
  let normCandidateRot := jsmod (jsmod rotY (2 * π) + 2 * π) (2 * π)
  let normCurrentRot := jsmod (jsmod currentRotationY (2 * π) + 2 * π) (2 * π)
  let rotDiff := |normCandidateRot - normCurrentRot|
  let isMatch := rotDiff < 0.1 ∨ |rotDiff - 2 * π| < 0.1
  let rotationPenalty : ℝ := if ¬isWallStack ∧ ¬isMatch then 0.5 else 0
  let score0 := distToCursor + rotationPenalty
  let score :=
    if isWallLike activeType ∧ p.y > 0.25 ∧ ts.socketType = SocketType.WALL_TOP then
      score0 - 1
    else score0
  ⟨candidatePos, ⟨0, rotY, 0⟩, distToCursor, score, ts.position.y⟩

/-- All point-snap candidates in iteration order: compatible target sockets
within the snap radius, paired with each ghost socket whose kind the target
accepts per `SOCKET_COMPATIBILITY`. -/
def pointCandList (p : Vec3) (targets : List Socket) (ghostLocals : List LocalSocket)
    (activeType : BuildingType) (currentRotationY : ℝ) : List PointSnapCandidate :=
  targets.flatMap fun ts =>
    if dist3 ts.position p > SNAP_RADIUS then []
    else
      (ghostLocals.filter fun gs => decide (gs.socketType ∈ SOCKET_COMPATIBILITY ts.socketType)).map
        fun gs => mkPointCand p ts gs activeType currentRotationY

/-- The running-best fold of the point matcher: strictly smaller score wins. -/
def pickBestScore : List PointSnapCandidate → Option PointSnapCandidate
  | [] => none
  | c :: rest =>
    some (rest.foldl (fun b c' => if c'.score < b.score then c' else b) c)

-- ---------------------------------------------------------------------------
-- Grid fallback and resolve state
-- ---------------------------------------------------------------------------

/-- The position/rotation/snapped/referenceHeight state produced before
validation. -/
structure ResolveState where
  position : Vec3
  rotation : Vec3
  snapped : Bool
  socketWorldY : Option ℝ

/-- Grid fallback: X/Z snapped to a `UNIT_SIZE` grid offset by half a cell,
Y zero, yaw quantized to the registry rotation increment; no reference
height. -/
def gridFallback (p : Vec3) (activeDef : BuildingDef) (currentRotationY : ℝ) : ResolveState :=
  ⟨⟨((round ((p.x - UNIT_SIZE / 2) / UNIT_SIZE) : ℤ) : ℝ) * UNIT_SIZE + UNIT_SIZE / 2,
      0,
      ((round ((p.z - UNIT_SIZE / 2) / UNIT_SIZE) : ℤ) : ℝ) * UNIT_SIZE + UNIT_SIZE / 2⟩,
    ⟨0, ((round (currentRotationY / activeDef.rotationIncrement) : ℤ) : ℝ) * activeDef.rotationIncrement, 0⟩,
    false, none⟩

/-- Point-socket matching, falling back to the grid when no candidate is in
range. -/
def pointOrGrid (p : Vec3) (buildings : List BuildingData) (activeDef : BuildingDef)
    (activeType : BuildingType) (currentRotationY : ℝ) : ResolveState :=
  match pickBestScore (pointCandList p
      ((buildings.flatMap getWorldSockets).filter fun s =>
        decide (s.socketType ∈ activeDef.compatibleWith))
      (getLocalSockets activeType) activeType currentRotationY) with
  | some c => ⟨c.position, c.rotation, true, some c.targetSocketY⟩
  | none => gridFallback p activeDef currentRotationY

/-- Position/rotation resolution of `calculateSnap`: edge matcher for
edge-socketed non-wall shapes, then point matcher, then grid fallback.
`none` models a registry exception raised while collecting target edges. -/
def snapResolve (p : Vec3) (buildings : List BuildingData) (activeDef : BuildingDef)
    (activeType : BuildingType) (currentRotationY : ℝ) : Option ResolveState :=
  if activeDef.usesEdgeSockets = true ∧ ¬isWallLike activeType then
    match collectTargetEdges buildings with
    | none => none
    | some allEdges =>
      match pickBest (candList (filterTargets p buildings allEdges)
          (getLocalEdgeSockets activeType) p) with
      | some c => some ⟨c.position, c.rotation, true, some c.targetEdge.center.y⟩
      | none => some (pointOrGrid p buildings activeDef activeType currentRotationY)
  else some (pointOrGrid p buildings activeDef activeType currentRotationY)

-- ---------------------------------------------------------------------------
-- Validation (geometry.ts 1283-1346)
-- ---------------------------------------------------------------------------

/-- Global foundation collision check (runs even for snapped placements):
invalid when an edge-socketed foundation-category piece's center is within
`2.0` of the resolved position.  `none` models a registry exception for an
unregistered placed-piece type. -/
def foundationCheck : List BuildingData → Vec3 → Option Bool
  | [], _ => some true
  | b :: rest, pos =>
    match BuildingRegistry b.type with
    | none => none
    | some bd =>
      if bd.usesEdgeSockets = true ∧ bd.category = BuildingCategory.foundation then
        if dist3 b.position pos < 2.0 then some false
        else foundationCheck rest pos
      else foundationCheck rest pos

/-- Legacy distance check for non-snapped placements: foundation pieces keep
the `2.0` threshold against foundation-category pieces, everything else is
an exact-overlap check at `0.2`.  The registry is consulted for a placed
piece only when the active type is edge-socketed (mirrors the `&&`
short-circuit in the source). -/
def legacyCheck (isFoundation : Bool) : List BuildingData → Vec3 → Option Bool
  | [], _ => some true
  | b :: rest, pos =>
    if isFoundation then
      match BuildingRegistry b.type with
      | none => none
      | some bd =>
        if bd.usesEdgeSockets = true ∧ bd.category = BuildingCategory.foundation then
          if dist3 b.position pos < 2.0 then some false
          else legacyCheck isFoundation rest pos
        else
          if dist3 b.position pos < 0.2 then some false
          else legacyCheck isFoundation rest pos
    else
      if dist3 b.position pos < 0.2 then some false
      else legacyCheck isFoundation rest pos

/-- Final exact-duplicate check (`dist < 0.2` against any piece center). -/
def dupCheck : List BuildingData → Vec3 → Bool
  | [], _ => true
  | b :: rest, pos =>
    if dist3 b.position pos < 0.2 then false else dupCheck rest pos

/-- The validation phase of `calculateSnap`: foundation collision check,
legacy distance check for unsnapped placements, roof-requires-snap rule,
and the final exact-duplicate check. -/
def validate (buildings : List BuildingData) (activeDef : BuildingDef) (snapped : Bool)
    (finalPos : Vec3) : Option Bool :=
  match (if activeDef.usesEdgeSockets = true ∧ activeDef.category = BuildingCategory.foundation
      then foundationCheck buildings finalPos else some true) with
  | none => none
  | some v1 =>
    match (if snapped = false ∧ v1 = true
        then legacyCheck activeDef.usesEdgeSockets buildings finalPos else some v1) with
    | none => none
    | some v2 =>
      let v3 := if snapped = false ∧ activeDef.category = BuildingCategory.roof then false else v2
      some (if v3 = true then dupCheck buildings finalPos else v3)

/-- The result type of `calculateSnap` (`socketWorldY` is the reference
height, `null` when grid-resolved). -/
structure SnapResult where
  position : Vec3
  rotation : Vec3
  isValid : Bool
  socketWorldY : Option ℝ

/-- Embeds `calculateSnap`: the entry point.  An absent cursor point yields the
immediately-invalid zero result; otherwise resolve a placement (edge
matcher, point matcher, grid) and validate it.  The outer `none` models a
thrown registry exception for an unregistered type. -/
def calculateSnap (rayIntersectionPoint : Option Vec3) (buildings : List BuildingData)
    (activeType : BuildingType) (currentRotationY : ℝ) : Option SnapResult :=
  match rayIntersectionPoint with
  | none => some ⟨⟨0, 0, 0⟩, ⟨0, 0, 0⟩, false, none⟩
  | some p =>
    match BuildingRegistry activeType with
    | none => none
    | some activeDef =>
      match snapResolve p buildings activeDef activeType currentRotationY with
      | none => none
      | some st =>
        match validate buildings activeDef st.snapped st.position with
        | none => none
        | some v => some ⟨st.position, st.rotation, v, st.socketWorldY⟩


-- ===========================================================================
-- Concrete scenario data used by the theorems below
-- ===========================================================================

/-- A square foundation placed at the origin with yaw 0. -/
def bldgA : BuildingData := ⟨"a", .SQUARE_FOUNDATION, ⟨0, 0, 0⟩, ⟨0, 0, 0⟩⟩

/-- A second square foundation at `(4, 0, 1.9)` with yaw 0 (used to exhibit
the foundation-proximity rejection of a snapped placement). -/
def bldgB : BuildingData := ⟨"b", .SQUARE_FOUNDATION, ⟨4, 0, 1.9⟩, ⟨0, 0, 0⟩⟩

-- ===========================================================================
-- Helper lemmas: vectors, square roots and distances
-- ===========================================================================

theorem sqrt_eval {a b : ℝ} (hb : 0 ≤ b) (h : b ^ 2 = a) : Real.sqrt a = b := by
  rw [← h, Real.sqrt_sq hb]

theorem dist3_self (a : Vec3) : dist3 a a = 0 := by
  simp [dist3]

theorem dist3_eq_zero {a b : Vec3} (hx : a.x = b.x) (hy : a.y = b.y) (hz : a.z = b.z) :
    dist3 a b = 0 := by
  simp [dist3, hx, hy, hz]

theorem dist3_le_of {a b : Vec3} {r : ℝ} (hr : 0 ≤ r)
    (h : (a.x - b.x) ^ 2 + (a.y - b.y) ^ 2 + (a.z - b.z) ^ 2 ≤ r ^ 2) :
    dist3 a b ≤ r := by
  rw [dist3, show r = Real.sqrt (r ^ 2) from (Real.sqrt_sq hr).symm]
  exact Real.sqrt_le_sqrt h

theorem lt_dist3_of {a b : Vec3} {r : ℝ} (hr : 0 ≤ r)
    (h : r ^ 2 < (a.x - b.x) ^ 2 + (a.y - b.y) ^ 2 + (a.z - b.z) ^ 2) :
    r < dist3 a b := by
  rw [dist3]
  exact (Real.lt_sqrt hr).mpr h

theorem dist3_lt_of {a b : Vec3} {r : ℝ} (hr : 0 < r)
    (h : (a.x - b.x) ^ 2 + (a.y - b.y) ^ 2 + (a.z - b.z) ^ 2 < r ^ 2) :
    dist3 a b < r := by
  rw [dist3]
  exact (Real.sqrt_lt' hr).mpr h

theorem not_dist3_lt_of {a b : Vec3} {r : ℝ}
    (h : r ^ 2 ≤ (a.x - b.x) ^ 2 + (a.y - b.y) ^ 2 + (a.z - b.z) ^ 2) (hr : 0 ≤ r) :
    ¬dist3 a b < r := by
  rw [dist3, not_lt]
  calc r = Real.sqrt (r ^ 2) := (Real.sqrt_sq hr).symm
    _ ≤ _ := Real.sqrt_le_sqrt h

theorem dist3_eval {a b : Vec3} {r : ℝ} (hr : 0 ≤ r)
    (h : (a.x - b.x) ^ 2 + (a.y - b.y) ^ 2 + (a.z - b.z) ^ 2 = r ^ 2) :
    dist3 a b = r := by
  rw [dist3]
  exact sqrt_eval hr h.symm


-- ===========================================================================
-- Helper lemmas: atan2 and planar rotations
-- ===========================================================================

theorem cos_atan2_unit {x z : ℝ} (h : x ^ 2 + z ^ 2 = 1) :
    Real.cos (atan2 x z) = z := by
  have hz : (⟨z, x⟩ : ℂ) ≠ 0 := by
    intro h0
    have hre : z = 0 := congrArg Complex.re h0
    have him : x = 0 := congrArg Complex.im h0
    rw [hre, him] at h
    norm_num at h
  have habs : Complex.abs ⟨z, x⟩ = 1 := by
    rw [Complex.abs_apply, Complex.normSq_mk, show z * z + x * x = 1 by nlinarith]
    exact Real.sqrt_one
  rw [atan2, Complex.cos_arg hz, habs]
  simp

theorem sin_atan2_unit {x z : ℝ} (h : x ^ 2 + z ^ 2 = 1) :
    Real.sin (atan2 x z) = x := by
  have habs : Complex.abs ⟨z, x⟩ = 1 := by
    rw [Complex.abs_apply, Complex.normSq_mk, show z * z + x * x = 1 by nlinarith]
    exact Real.sqrt_one
  rw [atan2, Complex.sin_arg, habs]
  simp

theorem atan2_one_zero : atan2 1 0 = π / 2 := by
  rw [atan2, show (⟨0, 1⟩ : ℂ) = Complex.I by apply Complex.ext <;> simp]
  exact Complex.arg_I

theorem atan2_neg_one_zero : atan2 (-1) 0 = -(π / 2) := by
  rw [atan2, show (⟨0, -1⟩ : ℂ) = -Complex.I by apply Complex.ext <;> simp]
  exact Complex.arg_neg_I

theorem atan2_zero_one : atan2 0 1 = 0 := by
  rw [atan2, show (⟨1, 0⟩ : ℂ) = 1 by apply Complex.ext <;> simp]
  exact Complex.arg_one

theorem atan2_zero_neg_one : atan2 0 (-1) = π := by
  rw [atan2, show (⟨-1, 0⟩ : ℂ) = -1 by apply Complex.ext <;> simp]
  exact Complex.arg_neg_one

/-- Rotating by the difference of the two `atan2` angles of unit horizontal
directions is the rational planar rotation taking `(gx, gz)` to `(dx, dz)`. -/
theorem rotYv_atan2_sub {gx gz dx dz : ℝ} (hg : gx ^ 2 + gz ^ 2 = 1)
    (hd : dx ^ 2 + dz ^ 2 = 1) (v : Vec3) :
    rotYv (atan2 dx dz - atan2 gx gz) v =
      ⟨v.x * (dz * gz + dx * gx) + v.z * (dx * gz - dz * gx), v.y,
        -v.x * (dx * gz - dz * gx) + v.z * (dz * gz + dx * gx)⟩ := by
  rw [rotYv, Real.cos_sub, Real.sin_sub, cos_atan2_unit hd, sin_atan2_unit hd,
    cos_atan2_unit hg, sin_atan2_unit hg]


/-- If all three validation errors are within tolerance, the transform is
accepted with the solved position and yaw. -/
theorem edgeSnapTransform_some (t : EdgeSocket) (g : LocalEdgeSocket)
    (h1 : dist3 (vadd (rotYv (edgeSnapYaw t g) g.start)
        (vsub t.«end» (rotYv (edgeSnapYaw t g) g.start))) t.«end» ≤ 0.05)
    (h2 : dist3 (vadd (rotYv (edgeSnapYaw t g) g.center)
        (vsub t.«end» (rotYv (edgeSnapYaw t g) g.start))) t.center ≤ 0.05)
    (h3 : dist3 (vadd (rotYv (edgeSnapYaw t g) g.«end»)
        (vsub t.«end» (rotYv (edgeSnapYaw t g) g.start))) t.start ≤ 0.05) :
    calculateEdgeSnapTransform t g =
      some ⟨vsub t.«end» (rotYv (edgeSnapYaw t g) g.start), ⟨0, edgeSnapYaw t g, 0⟩⟩ := by
  have hcond : ¬(dist3 (vadd (rotYv (edgeSnapYaw t g) g.start)
        (vsub t.«end» (rotYv (edgeSnapYaw t g) g.start))) t.«end» > 0.05 ∨
      dist3 (vadd (rotYv (edgeSnapYaw t g) g.center)
        (vsub t.«end» (rotYv (edgeSnapYaw t g) g.start))) t.center > 0.05 ∨
      dist3 (vadd (rotYv (edgeSnapYaw t g) g.«end»)
        (vsub t.«end» (rotYv (edgeSnapYaw t g) g.start))) t.start > 0.05) := by
    push_neg
    exact ⟨h1, h2, h3⟩
  simp only [calculateEdgeSnapTransform]
  rw [if_neg hcond]

/-- Master evaluation lemma for the edge transform on a pair of horizontal
edges of the same positive length `L`, with unit ghost direction
`(gx, gz)` and unit desired direction `(dx, dz)` (the negated target
direction).  The transform always validates exactly, and both the yaw and
the rotated ghost start are given by rational expressions in the direction
components. -/
theorem edgeSnapTransform_eval (t : EdgeSocket) (g : LocalEdgeSocket)
    {gx gz dx dz L : ℝ} (hL : 0 < L)
    (hge : vsub g.«end» g.start = ⟨L * gx, 0, L * gz⟩)
    (hgu : gx ^ 2 + gz ^ 2 = 1)
    (hte : vsub t.«end» t.start = ⟨L * -dx, 0, L * -dz⟩)
    (hdu : dx ^ 2 + dz ^ 2 = 1)
    (hgc : g.center = smul 0.5 (vadd g.start g.«end»))
    (htc : t.center = smul 0.5 (vadd t.start t.«end»)) :
    calculateEdgeSnapTransform t g =
      some ⟨vsub t.«end»
          ⟨g.start.x * (dz * gz + dx * gx) + g.start.z * (dx * gz - dz * gx), g.start.y,
            -g.start.x * (dx * gz - dz * gx) + g.start.z * (dz * gz + dx * gx)⟩,
        ⟨0, atan2 dx dz - atan2 gx gz, 0⟩⟩ := by
  have hLne : L ≠ 0 := ne_of_gt hL
  have hvg : vlen (⟨L * gx, 0, L * gz⟩ : Vec3) = L := by
    rw [vlen]
    exact sqrt_eval hL.le (by linear_combination (-(L ^ 2)) * hgu)
  have hvt : vlen (⟨L * -dx, 0, L * -dz⟩ : Vec3) = L := by
    rw [vlen]
    exact sqrt_eval hL.le (by linear_combination (-(L ^ 2)) * hdu)
  have hng : vnormalize (vsub g.«end» g.start) = ⟨gx, 0, gz⟩ := by
    rw [hge, vnormalize, hvg, if_neg hLne, smul]
    ext <;> simp <;> field_simp
  have hnt : vnormalize (vsub t.«end» t.start) = ⟨-dx, 0, -dz⟩ := by
    rw [hte, vnormalize, hvt, if_neg hLne, smul]
    ext <;> simp <;> field_simp
  have hyaw : edgeSnapYaw t g = atan2 dx dz - atan2 gx gz := by
    rw [edgeSnapYaw, hng, hnt, vneg]
    simp
  have hrot : ∀ v : Vec3, rotYv (edgeSnapYaw t g) v =
      ⟨v.x * (dz * gz + dx * gx) + v.z * (dx * gz - dz * gx), v.y,
        -v.x * (dx * gz - dz * gx) + v.z * (dz * gz + dx * gx)⟩ := by
    intro v
    rw [hyaw]
    exact rotYv_atan2_sub hgu hdu v
  have hge1 : g.«end».x = g.start.x + L * gx := by
    have h := congrArg Vec3.x hge
    simp [vsub] at h
    linarith
  have hge2 : g.«end».y = g.start.y := by
    have h := congrArg Vec3.y hge
    simp [vsub] at h
    linarith
  have hge3 : g.«end».z = g.start.z + L * gz := by
    have h := congrArg Vec3.z hge
    simp [vsub] at h
    linarith
  have hte1 : t.«end».x = t.start.x + L * -dx := by
    have h := congrArg Vec3.x hte
    simp [vsub] at h
    linarith
  have hte2 : t.«end».y = t.start.y := by
    have h := congrArg Vec3.y hte
    simp [vsub] at h
    linarith
  have hte3 : t.«end».z = t.start.z + L * -dz := by
    have h := congrArg Vec3.z hte
    simp [vsub] at h
    linarith
  have hgc1 : g.center.x = 0.5 * (g.start.x + g.«end».x) := congrArg Vec3.x hgc
  have hgc2 : g.center.y = 0.5 * (g.start.y + g.«end».y) := congrArg Vec3.y hgc
  have hgc3 : g.center.z = 0.5 * (g.start.z + g.«end».z) := congrArg Vec3.z hgc
  have htc1 : t.center.x = 0.5 * (t.start.x + t.«end».x) := congrArg Vec3.x htc
  have htc2 : t.center.y = 0.5 * (t.start.y + t.«end».y) := congrArg Vec3.y htc
  have htc3 : t.center.z = 0.5 * (t.start.z + t.«end».z) := congrArg Vec3.z htc
  have e1 : vadd (rotYv (edgeSnapYaw t g) g.start)
      (vsub t.«end» (rotYv (edgeSnapYaw t g) g.start)) = t.«end» := by
    ext <;> simp [vadd, vsub]
  have e2 : vadd (rotYv (edgeSnapYaw t g) g.center)
      (vsub t.«end» (rotYv (edgeSnapYaw t g) g.start)) = t.center := by
    rw [hrot, hrot]
    ext
    · simp [vadd, vsub]
      rw [hgc1, hgc3, htc1, hge1, hge3, hte1]
      linear_combination (0.5 * L * dx) * hgu
    · simp [vadd, vsub]
      rw [hgc2, htc2, hge2, hte2]
      ring
    · simp [vadd, vsub]
      rw [hgc1, hgc3, htc3, hge1, hge3, hte3]
      linear_combination (0.5 * L * dz) * hgu
  have e3 : vadd (rotYv (edgeSnapYaw t g) g.«end»)
      (vsub t.«end» (rotYv (edgeSnapYaw t g) g.start)) = t.start := by
    rw [hrot, hrot]
    ext
    · simp [vadd, vsub]
      rw [hge1, hge3, hte1]
      linear_combination (L * dx) * hgu
    · simp [vadd, vsub]
      rw [hge2, hte2]
      ring
    · simp [vadd, vsub]
      rw [hge1, hge3, hte3]
      linear_combination (L * dz) * hgu
  have h1 : dist3 (vadd (rotYv (edgeSnapYaw t g) g.start)
      (vsub t.«end» (rotYv (edgeSnapYaw t g) g.start))) t.«end» ≤ 0.05 := by
    rw [e1, dist3_self]
    norm_num
  have h2 : dist3 (vadd (rotYv (edgeSnapYaw t g) g.center)
      (vsub t.«end» (rotYv (edgeSnapYaw t g) g.start))) t.center ≤ 0.05 := by
    rw [e2, dist3_self]
    norm_num
  have h3 : dist3 (vadd (rotYv (edgeSnapYaw t g) g.«end»)
      (vsub t.«end» (rotYv (edgeSnapYaw t g) g.start))) t.start ≤ 0.05 := by
    rw [e3, dist3_self]
    norm_num
  rw [edgeSnapTransform_some t g h1 h2 h3, hrot g.start, hyaw]


-- ===========================================================================
-- Helper lemmas: the running-best folds
-- ===========================================================================

theorem foldl_min (l : List EdgeSnapCandidate) :
    ∀ c : EdgeSnapCandidate,
      (l.foldl (fun b c' => if c'.distToCursor < b.distToCursor then c' else b) c = c ∨
        l.foldl (fun b c' => if c'.distToCursor < b.distToCursor then c' else b) c ∈ l) ∧
      (l.foldl (fun b c' => if c'.distToCursor < b.distToCursor then c' else b) c).distToCursor ≤
        c.distToCursor ∧
      ∀ x ∈ l, ¬x.distToCursor <
        (l.foldl (fun b c' => if c'.distToCursor < b.distToCursor then c' else b) c).distToCursor := by
  induction l with
  | nil =>
    intro c
    exact ⟨Or.inl rfl, le_refl _, by simp⟩
  | cons c' rest ih =>
    intro c
    rw [List.foldl_cons]
    obtain ⟨hmem, hle, hmin⟩ := ih (if c'.distToCursor < c.distToCursor then c' else c)
    have hled : (if c'.distToCursor < c.distToCursor then c' else c).distToCursor ≤
        c.distToCursor := by
      by_cases h : c'.distToCursor < c.distToCursor
      · rw [if_pos h]
        exact le_of_lt h
      · rw [if_neg h]
    have hledc : (if c'.distToCursor < c.distToCursor then c' else c).distToCursor ≤
        c'.distToCursor := by
      by_cases h : c'.distToCursor < c.distToCursor
      · rw [if_pos h]
      · rw [if_neg h]
        exact le_of_not_lt h
    refine ⟨?_, le_trans hle hled, ?_⟩
    · rcases hmem with h | h
      · rw [h]
        by_cases hc : c'.distToCursor < c.distToCursor
        · rw [if_pos hc]
          exact Or.inr (List.mem_cons_self _ _)
        · rw [if_neg hc]
          exact Or.inl rfl
      · exact Or.inr (List.mem_cons_of_mem _ h)
    · intro x hx
      rcases List.mem_cons.mp hx with rfl | hx'
      · exact not_lt.mpr (le_trans hle hledc)
      · exact hmin x hx'

/-- The matcher's running-best fold returns a candidate of the list with no
strictly closer candidate. -/
theorem pickBest_spec {l : List EdgeSnapCandidate} (h : l ≠ []) :
    ∃ c, pickBest l = some c ∧ c ∈ l ∧ ∀ x ∈ l, ¬x.distToCursor < c.distToCursor := by
  cases l with
  | nil => exact absurd rfl h
  | cons c rest =>
    obtain ⟨hmem, hle, hmin⟩ := foldl_min rest c
    refine ⟨_, rfl, ?_, ?_⟩
    · rcases hmem with h' | h'
      · rw [h']
        exact List.mem_cons_self _ _
      · exact List.mem_cons_of_mem _ h'
    · intro x hx
      rcases List.mem_cons.mp hx with rfl | hx'
      · exact not_lt.mpr hle
      · exact hmin x hx'

-- ===========================================================================
-- Helper lemmas: euler rotations
-- ===========================================================================

theorem rotXv_zero (v : Vec3) : rotXv 0 v = v := by
  simp [rotXv]

theorem rotYv_zero (v : Vec3) : rotYv 0 v = v := by
  simp [rotYv]

theorem rotZv_zero (v : Vec3) : rotZv 0 v = v := by
  simp [rotZv]

theorem applyEuler_zero (v : Vec3) : applyEuler ⟨0, 0, 0⟩ v = v := by
  simp [applyEuler, rotXv_zero, rotYv_zero, rotZv_zero]

/-- A yaw-only Euler triple acts as the Y rotation alone. -/
theorem applyEuler_yaw (y : ℝ) (v : Vec3) : applyEuler ⟨0, y, 0⟩ v = rotYv y v := by
  simp [applyEuler, rotXv_zero, rotZv_zero]

theorem rotYv_neg_rotYv (t : ℝ) (v : Vec3) : rotYv (-t) (rotYv t v) = v := by
  have h := Real.sin_sq_add_cos_sq t
  rw [rotYv, rotYv]
  ext
  · simp [Real.cos_neg, Real.sin_neg]
    linear_combination v.x * h
  · rfl
  · simp [Real.cos_neg, Real.sin_neg]
    linear_combination v.z * h

theorem applyEuler_vadd (e a b : Vec3) :
    applyEuler e (vadd a b) = vadd (applyEuler e a) (applyEuler e b) := by
  simp only [applyEuler, rotXv, rotYv, rotZv, vadd]
  ext <;> simp <;> ring

theorem applyEuler_vsub (e a b : Vec3) :
    vsub (applyEuler e a) (applyEuler e b) = applyEuler e (vsub a b) := by
  simp only [applyEuler, rotXv, rotYv, rotZv, vsub]
  ext <;> simp <;> ring

theorem applyEuler_smul (e : Vec3) (r : ℝ) (a : Vec3) :
    applyEuler e (smul r a) = smul r (applyEuler e a) := by
  simp only [applyEuler, rotXv, rotYv, rotZv, smul]
  ext <;> simp <;> ring

theorem vlen_rotXv (t : ℝ) (v : Vec3) : vlen (rotXv t v) = vlen v := by
  have h := Real.sin_sq_add_cos_sq t
  rw [vlen, vlen, rotXv]
  congr 1
  simp only
  linear_combination (v.y ^ 2 + v.z ^ 2) * h

theorem vlen_rotYv (t : ℝ) (v : Vec3) : vlen (rotYv t v) = vlen v := by
  have h := Real.sin_sq_add_cos_sq t
  rw [vlen, vlen, rotYv]
  congr 1
  simp only
  linear_combination (v.x ^ 2 + v.z ^ 2) * h

theorem vlen_rotZv (t : ℝ) (v : Vec3) : vlen (rotZv t v) = vlen v := by
  have h := Real.sin_sq_add_cos_sq t
  rw [vlen, vlen, rotZv]
  congr 1
  simp only
  linear_combination (v.x ^ 2 + v.y ^ 2) * h

theorem vlen_applyEuler (e v : Vec3) : vlen (applyEuler e v) = vlen v := by
  rw [applyEuler, vlen_rotXv, vlen_rotYv, vlen_rotZv]

theorem dist3_eq_vlen_vsub (a b : Vec3) : dist3 a b = vlen (vsub a b) := by
  simp [dist3, vlen, vsub]


-- ===========================================================================
-- Helper lemmas: local edge invariants and validation checks
-- ===========================================================================

/-- Every local edge is built by `createEdge`, so its center is the midpoint
of its endpoints and its stored length is the start-to-end distance. -/
theorem local_edge_inv (ty : BuildingType) {le : LocalEdgeSocket}
    (h : le ∈ getLocalEdgeSockets ty) :
    le.center = smul 0.5 (vadd le.start le.«end») ∧
      le.edgeLength = dist3 le.start le.«end» := by
  cases ty <;>
    simp only [getLocalEdgeSockets, List.mem_cons, List.not_mem_nil, or_false] at h <;>
    first
      | exact h.elim
      | (rcases h with rfl | rfl | rfl | rfl
         all_goals exact ⟨rfl, rfl⟩)

theorem dupCheck_true_iff (l : List BuildingData) (pos : Vec3) :
    dupCheck l pos = true ↔ ∀ b ∈ l, ¬dist3 b.position pos < 0.2 := by
  induction l with
  | nil => simp [dupCheck]
  | cons b rest ih =>
    by_cases h : dist3 b.position pos < 0.2
    · simp [dupCheck, if_pos h, h]
    · simp only [dupCheck, if_neg h, ih, List.mem_cons]
      constructor
      · intro hall x hx
        rcases hx with rfl | hx'
        · exact h
        · exact hall x hx'
      · intro hall x hx
        exact hall x (Or.inr hx)

theorem foundationCheck_isSome {l : List BuildingData} (pos : Vec3)
    (hreg : ∀ b ∈ l, ∃ bd, BuildingRegistry b.type = some bd) :
    ∃ v, foundationCheck l pos = some v := by
  induction l with
  | nil => exact ⟨true, rfl⟩
  | cons b rest ih =>
    obtain ⟨bd, hbd⟩ := hreg b (List.mem_cons_self _ _)
    obtain ⟨v, hv⟩ := ih fun x hx => hreg x (List.mem_cons_of_mem _ hx)
    by_cases hc : bd.usesEdgeSockets = true ∧ bd.category = BuildingCategory.foundation
    · by_cases hd : dist3 b.position pos < 2.0
      · exact ⟨false, by simp [foundationCheck, hbd, if_pos hc, if_pos hd]⟩
      · exact ⟨v, by simp [foundationCheck, hbd, if_pos hc, if_neg hd, hv]⟩
    · exact ⟨v, by simp [foundationCheck, hbd, if_neg hc, hv]⟩

theorem foundationCheck_true_iff {l : List BuildingData} (pos : Vec3)
    (hreg : ∀ b ∈ l, ∃ bd, BuildingRegistry b.type = some bd) :
    foundationCheck l pos = some true ↔
      ∀ b ∈ l, ∀ bd, BuildingRegistry b.type = some bd →
        bd.usesEdgeSockets = true → bd.category = BuildingCategory.foundation →
        ¬dist3 b.position pos < 2.0 := by
  induction l with
  | nil => simp [foundationCheck]
  | cons b rest ih =>
    obtain ⟨bd, hbd⟩ := hreg b (List.mem_cons_self _ _)
    have ih' := ih fun x hx => hreg x (List.mem_cons_of_mem _ hx)
    by_cases hc : bd.usesEdgeSockets = true ∧ bd.category = BuildingCategory.foundation
    · by_cases hd : dist3 b.position pos < 2.0
      · simp only [foundationCheck, hbd, if_pos hc, if_pos hd]
        constructor
        · intro hfalse
          exact absurd hfalse (by simp)
        · intro hall
          exact absurd hd (hall b (List.mem_cons_self _ _) bd hbd hc.1 hc.2)
      · simp only [foundationCheck, hbd, if_pos hc, if_neg hd]
        rw [ih']
        constructor
        · intro hall
          intro x hx bd' hbd'
          rcases List.mem_cons.mp hx with rfl | hx'
          · rw [hbd] at hbd'
            cases hbd'
            intro _ _
            exact hd
          · exact hall x hx' bd' hbd'
        · intro hall x hx bd' hbd'
          exact hall x (List.mem_cons_of_mem _ hx) bd' hbd'
    · simp only [foundationCheck, hbd, if_neg hc]
      rw [ih']
      constructor
      · intro hall x hx bd' hbd'
        rcases List.mem_cons.mp hx with rfl | hx'
        · rw [hbd] at hbd'
          cases hbd'
          intro h1 h2
          exact absurd ⟨h1, h2⟩ hc
        · exact hall x hx' bd' hbd'
      · intro hall x hx bd' hbd'
        exact hall x (List.mem_cons_of_mem _ hx) bd' hbd'

/-- For a snapped placement, validation reduces to the foundation collision
check followed by the exact-duplicate check; the legacy and roof rules are
skipped. -/
theorem validate_snapped_eq (buildings : List BuildingData) (activeDef : BuildingDef)
    (pos : Vec3) {v1 : Bool}
    (hfc : (if activeDef.usesEdgeSockets = true ∧ activeDef.category = BuildingCategory.foundation
        then foundationCheck buildings pos else some true) = some v1) :
    validate buildings activeDef true pos =
      some (if v1 = true then dupCheck buildings pos else v1) := by
  simp [validate, hfc]

/-- For an unsnapped placement of a roof-category shape, validation reports
`false` whenever it reports anything. -/
theorem validate_unsnapped_roof (buildings : List BuildingData) (activeDef : BuildingDef)
    (pos : Vec3) (hroof : activeDef.category = BuildingCategory.roof) :
    validate buildings activeDef false pos = none ∨
      validate buildings activeDef false pos = some false := by
  unfold validate
  split
  · exact Or.inl rfl
  · split
    · exact Or.inl rfl
    · right
      simp [hroof]

theorem validate_roof_unsnapped {buildings : List BuildingData} {activeDef : BuildingDef}
    {pos : Vec3} {v : Bool} (hroof : activeDef.category = BuildingCategory.roof)
    (h : validate buildings activeDef false pos = some v) : v = false := by
  rcases validate_unsnapped_roof buildings activeDef pos hroof with h0 | h0 <;> rw [h0] at h
  · exact absurd h (by simp)
  · exact (Option.some.inj h).symm


-- ===========================================================================
-- Concrete evaluation: the square foundation's edges
-- ===========================================================================

theorem localEdges_square :
    getLocalEdgeSockets .SQUARE_FOUNDATION = [⟨⟨-2, 0, 2⟩, ⟨0, 0, 2⟩, ⟨2, 0, 2⟩, .FOUNDATION_EDGE, 4, .SIDE⟩, ⟨⟨2, 0, 2⟩, ⟨2, 0, 0⟩, ⟨2, 0, -2⟩, .FOUNDATION_EDGE, 4, .SIDE⟩, ⟨⟨2, 0, -2⟩, ⟨0, 0, -2⟩, ⟨-2, 0, -2⟩, .FOUNDATION_EDGE, 4, .SIDE⟩, ⟨⟨-2, 0, -2⟩, ⟨-2, 0, 0⟩, ⟨-2, 0, 2⟩, .FOUNDATION_EDGE, 4, .SIDE⟩] := by
  have l1 : dist3 (⟨-2, 0, 2⟩ : Vec3) ⟨2, 0, 2⟩ = 4 := dist3_eval (by norm_num) (by norm_num)
  have l2 : dist3 (⟨2, 0, 2⟩ : Vec3) ⟨2, 0, -2⟩ = 4 := dist3_eval (by norm_num) (by norm_num)
  have l3 : dist3 (⟨2, 0, -2⟩ : Vec3) ⟨-2, 0, -2⟩ = 4 := dist3_eval (by norm_num) (by norm_num)
  have l4 : dist3 (⟨-2, 0, -2⟩ : Vec3) ⟨-2, 0, 2⟩ = 4 := dist3_eval (by norm_num) (by norm_num)
  norm_num [getLocalEdgeSockets, createEdge, UNIT_SIZE, smul, vadd, l1, l2, l3, l4]

theorem worldEdges_bldgA :
    getWorldEdgeSockets bldgA = [⟨⟨-2, 0, 2⟩, ⟨0, 0, 2⟩, ⟨2, 0, 2⟩, "a", .FOUNDATION_EDGE, 4, .SIDE⟩, ⟨⟨2, 0, 2⟩, ⟨2, 0, 0⟩, ⟨2, 0, -2⟩, "a", .FOUNDATION_EDGE, 4, .SIDE⟩, ⟨⟨2, 0, -2⟩, ⟨0, 0, -2⟩, ⟨-2, 0, -2⟩, "a", .FOUNDATION_EDGE, 4, .SIDE⟩, ⟨⟨-2, 0, -2⟩, ⟨-2, 0, 0⟩, ⟨-2, 0, 2⟩, "a", .FOUNDATION_EDGE, 4, .SIDE⟩] := by
  have ht : bldgA.type = .SQUARE_FOUNDATION := rfl
  have hr : bldgA.rotation = ⟨0, 0, 0⟩ := rfl
  have hp : bldgA.position = ⟨0, 0, 0⟩ := rfl
  have hid : bldgA.id = "a" := rfl
  rw [getWorldEdgeSockets, ht, hr, hp, hid, localEdges_square]
  norm_num [applyEuler_zero, vadd]

theorem collect_A : collectTargetEdges [bldgA] = some [⟨⟨-2, 0, 2⟩, ⟨0, 0, 2⟩, ⟨2, 0, 2⟩, "a", .FOUNDATION_EDGE, 4, .SIDE⟩, ⟨⟨2, 0, 2⟩, ⟨2, 0, 0⟩, ⟨2, 0, -2⟩, "a", .FOUNDATION_EDGE, 4, .SIDE⟩, ⟨⟨2, 0, -2⟩, ⟨0, 0, -2⟩, ⟨-2, 0, -2⟩, "a", .FOUNDATION_EDGE, 4, .SIDE⟩, ⟨⟨-2, 0, -2⟩, ⟨-2, 0, 0⟩, ⟨-2, 0, 2⟩, "a", .FOUNDATION_EDGE, 4, .SIDE⟩] := by
  have hreg : BuildingRegistry bldgA.type = some SQUARE_FOUNDATION_DEF := rfl
  have hue : SQUARE_FOUNDATION_DEF.usesEdgeSockets = true := rfl
  simp only [collectTargetEdges, hreg, hue, if_true, worldEdges_bldgA, List.append_nil]


-- ===========================================================================
-- Concrete evaluation: target filtering for the single-square scenario
-- ===========================================================================

theorem filterTargets_nil (p : Vec3) (bs : List BuildingData) :
    filterTargets p bs [] = [] := rfl

theorem filterTargets_cons_skip_range {p : Vec3} {bs : List BuildingData} {t : EdgeSocket}
    {rest : List EdgeSocket} (h : dist3 (edgeMid t) p > SNAP_RADIUS) :
    filterTargets p bs (t :: rest) = filterTargets p bs rest := by
  simp only [filterTargets]
  rw [if_pos h]

theorem filterTargets_cons_keep {p : Vec3} {bs : List BuildingData} {t : EdgeSocket}
    {rest : List EdgeSocket} (h1 : ¬dist3 (edgeMid t) p > SNAP_RADIUS)
    (h2 : ¬IsOccupied bs t) :
    filterTargets p bs (t :: rest) = t :: filterTargets p bs rest := by
  simp only [filterTargets]
  rw [if_neg h1, if_neg h2]

theorem filterTargets_cons_skip_occupied {p : Vec3} {bs : List BuildingData} {t : EdgeSocket}
    {rest : List EdgeSocket} (h1 : ¬dist3 (edgeMid t) p > SNAP_RADIUS)
    (h2 : IsOccupied bs t) :
    filterTargets p bs (t :: rest) = filterTargets p bs rest := by
  simp only [filterTargets]
  rw [if_neg h1, if_pos h2]

/-- No edge of the single placed square is occupied (there is no other
piece). -/
theorem not_occupied_single (t : EdgeSocket) (ht : t.id = "a") :
    ¬IsOccupied [bldgA] t := by
  rintro ⟨b, hb, hne, -⟩
  rcases List.mem_cons.mp hb with rfl | h0
  · exact hne (by rw [ht]; rfl)
  · exact absurd h0 (List.not_mem_nil _)

theorem filter_C5 :
    filterTargets ⟨0, 0, 4.5⟩ [bldgA] [⟨⟨-2, 0, 2⟩, ⟨0, 0, 2⟩, ⟨2, 0, 2⟩, "a", .FOUNDATION_EDGE, 4, .SIDE⟩, ⟨⟨2, 0, 2⟩, ⟨2, 0, 0⟩, ⟨2, 0, -2⟩, "a", .FOUNDATION_EDGE, 4, .SIDE⟩, ⟨⟨2, 0, -2⟩, ⟨0, 0, -2⟩, ⟨-2, 0, -2⟩, "a", .FOUNDATION_EDGE, 4, .SIDE⟩, ⟨⟨-2, 0, -2⟩, ⟨-2, 0, 0⟩, ⟨-2, 0, 2⟩, "a", .FOUNDATION_EDGE, 4, .SIDE⟩] = [⟨⟨-2, 0, 2⟩, ⟨0, 0, 2⟩, ⟨2, 0, 2⟩, "a", .FOUNDATION_EDGE, 4, .SIDE⟩] := by
  have m1 : edgeMid ⟨⟨-2, 0, 2⟩, ⟨0, 0, 2⟩, ⟨2, 0, 2⟩, "a", .FOUNDATION_EDGE, 4, .SIDE⟩ = ⟨0, 0, 2⟩ := by norm_num [edgeMid, smul, vadd]
  have m2 : edgeMid ⟨⟨2, 0, 2⟩, ⟨2, 0, 0⟩, ⟨2, 0, -2⟩, "a", .FOUNDATION_EDGE, 4, .SIDE⟩ = ⟨2, 0, 0⟩ := by norm_num [edgeMid, smul, vadd]
  have m3 : edgeMid ⟨⟨2, 0, -2⟩, ⟨0, 0, -2⟩, ⟨-2, 0, -2⟩, "a", .FOUNDATION_EDGE, 4, .SIDE⟩ = ⟨0, 0, -2⟩ := by norm_num [edgeMid, smul, vadd]
  have m4 : edgeMid ⟨⟨-2, 0, -2⟩, ⟨-2, 0, 0⟩, ⟨-2, 0, 2⟩, "a", .FOUNDATION_EDGE, 4, .SIDE⟩ = ⟨-2, 0, 0⟩ := by norm_num [edgeMid, smul, vadd]
  have r1 : ¬dist3 (edgeMid ⟨⟨-2, 0, 2⟩, ⟨0, 0, 2⟩, ⟨2, 0, 2⟩, "a", .FOUNDATION_EDGE, 4, .SIDE⟩) (⟨0, 0, 4.5⟩ : Vec3) > SNAP_RADIUS := by
    have d1 : dist3 (⟨0, 0, 2⟩ : Vec3) (⟨0, 0, 4.5⟩ : Vec3) = 2.5 :=
      dist3_eval (by norm_num) (by norm_num)
    rw [m1, d1, SNAP_RADIUS]
    norm_num
  have r2 : dist3 (edgeMid ⟨⟨2, 0, 2⟩, ⟨2, 0, 0⟩, ⟨2, 0, -2⟩, "a", .FOUNDATION_EDGE, 4, .SIDE⟩) (⟨0, 0, 4.5⟩ : Vec3) > SNAP_RADIUS := by
    rw [m2, SNAP_RADIUS]
    exact lt_dist3_of (by norm_num) (by norm_num)
  have r3 : dist3 (edgeMid ⟨⟨2, 0, -2⟩, ⟨0, 0, -2⟩, ⟨-2, 0, -2⟩, "a", .FOUNDATION_EDGE, 4, .SIDE⟩) (⟨0, 0, 4.5⟩ : Vec3) > SNAP_RADIUS := by
    rw [m3, SNAP_RADIUS]
    exact lt_dist3_of (by norm_num) (by norm_num)
  have r4 : dist3 (edgeMid ⟨⟨-2, 0, -2⟩, ⟨-2, 0, 0⟩, ⟨-2, 0, 2⟩, "a", .FOUNDATION_EDGE, 4, .SIDE⟩) (⟨0, 0, 4.5⟩ : Vec3) > SNAP_RADIUS := by
    rw [m4, SNAP_RADIUS]
    exact lt_dist3_of (by norm_num) (by norm_num)
  rw [filterTargets_cons_keep r1 (not_occupied_single _ rfl),
    filterTargets_cons_skip_range r2, filterTargets_cons_skip_range r3,
    filterTargets_cons_skip_range r4, filterTargets_nil]


-- ===========================================================================
-- Concrete evaluation: transforms and candidates, single-square scenario
-- ===========================================================================

theorem transform_C5_1 :
    calculateEdgeSnapTransform ⟨⟨-2, 0, 2⟩, ⟨0, 0, 2⟩, ⟨2, 0, 2⟩, "a", .FOUNDATION_EDGE, 4, .SIDE⟩ ⟨⟨-2, 0, 2⟩, ⟨0, 0, 2⟩, ⟨2, 0, 2⟩, .FOUNDATION_EDGE, 4, .SIDE⟩ = some ⟨⟨0, 0, 4⟩, ⟨0, atan2 (-1) 0 - atan2 1 0, 0⟩⟩ := by
  rw [edgeSnapTransform_eval ⟨⟨-2, 0, 2⟩, ⟨0, 0, 2⟩, ⟨2, 0, 2⟩, "a", .FOUNDATION_EDGE, 4, .SIDE⟩ ⟨⟨-2, 0, 2⟩, ⟨0, 0, 2⟩, ⟨2, 0, 2⟩, .FOUNDATION_EDGE, 4, .SIDE⟩
    (by norm_num : (0:ℝ) < 4)
    (by norm_num [vsub] : vsub (⟨⟨-2, 0, 2⟩, ⟨0, 0, 2⟩, ⟨2, 0, 2⟩, .FOUNDATION_EDGE, 4, .SIDE⟩ : LocalEdgeSocket).«end» (⟨⟨-2, 0, 2⟩, ⟨0, 0, 2⟩, ⟨2, 0, 2⟩, .FOUNDATION_EDGE, 4, .SIDE⟩ : LocalEdgeSocket).start = ⟨4 * 1, 0, 4 * 0⟩)
    (by norm_num)
    (by norm_num [vsub] : vsub (⟨⟨-2, 0, 2⟩, ⟨0, 0, 2⟩, ⟨2, 0, 2⟩, "a", .FOUNDATION_EDGE, 4, .SIDE⟩ : EdgeSocket).«end» (⟨⟨-2, 0, 2⟩, ⟨0, 0, 2⟩, ⟨2, 0, 2⟩, "a", .FOUNDATION_EDGE, 4, .SIDE⟩ : EdgeSocket).start = ⟨4 * -(-1), 0, 4 * -0⟩)
    (by norm_num)
    (by norm_num [smul, vadd])
    (by norm_num [smul, vadd])]
  norm_num [vsub]

theorem transform_C5_2 :
    calculateEdgeSnapTransform ⟨⟨-2, 0, 2⟩, ⟨0, 0, 2⟩, ⟨2, 0, 2⟩, "a", .FOUNDATION_EDGE, 4, .SIDE⟩ ⟨⟨2, 0, 2⟩, ⟨2, 0, 0⟩, ⟨2, 0, -2⟩, .FOUNDATION_EDGE, 4, .SIDE⟩ = some ⟨⟨0, 0, 4⟩, ⟨0, atan2 (-1) 0 - atan2 0 (-1), 0⟩⟩ := by
  rw [edgeSnapTransform_eval ⟨⟨-2, 0, 2⟩, ⟨0, 0, 2⟩, ⟨2, 0, 2⟩, "a", .FOUNDATION_EDGE, 4, .SIDE⟩ ⟨⟨2, 0, 2⟩, ⟨2, 0, 0⟩, ⟨2, 0, -2⟩, .FOUNDATION_EDGE, 4, .SIDE⟩
    (by norm_num : (0:ℝ) < 4)
    (by norm_num [vsub] : vsub (⟨⟨2, 0, 2⟩, ⟨2, 0, 0⟩, ⟨2, 0, -2⟩, .FOUNDATION_EDGE, 4, .SIDE⟩ : LocalEdgeSocket).«end» (⟨⟨2, 0, 2⟩, ⟨2, 0, 0⟩, ⟨2, 0, -2⟩, .FOUNDATION_EDGE, 4, .SIDE⟩ : LocalEdgeSocket).start = ⟨4 * 0, 0, 4 * (-1)⟩)
    (by norm_num)
    (by norm_num [vsub] : vsub (⟨⟨-2, 0, 2⟩, ⟨0, 0, 2⟩, ⟨2, 0, 2⟩, "a", .FOUNDATION_EDGE, 4, .SIDE⟩ : EdgeSocket).«end» (⟨⟨-2, 0, 2⟩, ⟨0, 0, 2⟩, ⟨2, 0, 2⟩, "a", .FOUNDATION_EDGE, 4, .SIDE⟩ : EdgeSocket).start = ⟨4 * -(-1), 0, 4 * -0⟩)
    (by norm_num)
    (by norm_num [smul, vadd])
    (by norm_num [smul, vadd])]
  norm_num [vsub]

theorem transform_C5_3 :
    calculateEdgeSnapTransform ⟨⟨-2, 0, 2⟩, ⟨0, 0, 2⟩, ⟨2, 0, 2⟩, "a", .FOUNDATION_EDGE, 4, .SIDE⟩ ⟨⟨2, 0, -2⟩, ⟨0, 0, -2⟩, ⟨-2, 0, -2⟩, .FOUNDATION_EDGE, 4, .SIDE⟩ = some ⟨⟨0, 0, 4⟩, ⟨0, atan2 (-1) 0 - atan2 (-1) 0, 0⟩⟩ := by
  rw [edgeSnapTransform_eval ⟨⟨-2, 0, 2⟩, ⟨0, 0, 2⟩, ⟨2, 0, 2⟩, "a", .FOUNDATION_EDGE, 4, .SIDE⟩ ⟨⟨2, 0, -2⟩, ⟨0, 0, -2⟩, ⟨-2, 0, -2⟩, .FOUNDATION_EDGE, 4, .SIDE⟩
    (by norm_num : (0:ℝ) < 4)
    (by norm_num [vsub] : vsub (⟨⟨2, 0, -2⟩, ⟨0, 0, -2⟩, ⟨-2, 0, -2⟩, .FOUNDATION_EDGE, 4, .SIDE⟩ : LocalEdgeSocket).«end» (⟨⟨2, 0, -2⟩, ⟨0, 0, -2⟩, ⟨-2, 0, -2⟩, .FOUNDATION_EDGE, 4, .SIDE⟩ : LocalEdgeSocket).start = ⟨4 * (-1), 0, 4 * 0⟩)
    (by norm_num)
    (by norm_num [vsub] : vsub (⟨⟨-2, 0, 2⟩, ⟨0, 0, 2⟩, ⟨2, 0, 2⟩, "a", .FOUNDATION_EDGE, 4, .SIDE⟩ : EdgeSocket).«end» (⟨⟨-2, 0, 2⟩, ⟨0, 0, 2⟩, ⟨2, 0, 2⟩, "a", .FOUNDATION_EDGE, 4, .SIDE⟩ : EdgeSocket).start = ⟨4 * -(-1), 0, 4 * -0⟩)
    (by norm_num)
    (by norm_num [smul, vadd])
    (by norm_num [smul, vadd])]
  norm_num [vsub]

theorem transform_C5_4 :
    calculateEdgeSnapTransform ⟨⟨-2, 0, 2⟩, ⟨0, 0, 2⟩, ⟨2, 0, 2⟩, "a", .FOUNDATION_EDGE, 4, .SIDE⟩ ⟨⟨-2, 0, -2⟩, ⟨-2, 0, 0⟩, ⟨-2, 0, 2⟩, .FOUNDATION_EDGE, 4, .SIDE⟩ = some ⟨⟨0, 0, 4⟩, ⟨0, atan2 (-1) 0 - atan2 0 1, 0⟩⟩ := by
  rw [edgeSnapTransform_eval ⟨⟨-2, 0, 2⟩, ⟨0, 0, 2⟩, ⟨2, 0, 2⟩, "a", .FOUNDATION_EDGE, 4, .SIDE⟩ ⟨⟨-2, 0, -2⟩, ⟨-2, 0, 0⟩, ⟨-2, 0, 2⟩, .FOUNDATION_EDGE, 4, .SIDE⟩
    (by norm_num : (0:ℝ) < 4)
    (by norm_num [vsub] : vsub (⟨⟨-2, 0, -2⟩, ⟨-2, 0, 0⟩, ⟨-2, 0, 2⟩, .FOUNDATION_EDGE, 4, .SIDE⟩ : LocalEdgeSocket).«end» (⟨⟨-2, 0, -2⟩, ⟨-2, 0, 0⟩, ⟨-2, 0, 2⟩, .FOUNDATION_EDGE, 4, .SIDE⟩ : LocalEdgeSocket).start = ⟨4 * 0, 0, 4 * 1⟩)
    (by norm_num)
    (by norm_num [vsub] : vsub (⟨⟨-2, 0, 2⟩, ⟨0, 0, 2⟩, ⟨2, 0, 2⟩, "a", .FOUNDATION_EDGE, 4, .SIDE⟩ : EdgeSocket).«end» (⟨⟨-2, 0, 2⟩, ⟨0, 0, 2⟩, ⟨2, 0, 2⟩, "a", .FOUNDATION_EDGE, 4, .SIDE⟩ : EdgeSocket).start = ⟨4 * -(-1), 0, 4 * -0⟩)
    (by norm_num)
    (by norm_num [smul, vadd])
    (by norm_num [smul, vadd])]
  norm_num [vsub]

theorem candList_C5 :
    candList [⟨⟨-2, 0, 2⟩, ⟨0, 0, 2⟩, ⟨2, 0, 2⟩, "a", .FOUNDATION_EDGE, 4, .SIDE⟩] (getLocalEdgeSockets .SQUARE_FOUNDATION) ⟨0, 0, 4.5⟩ =
      [⟨⟨0, 0, 4⟩, ⟨0, atan2 (-1) 0 - atan2 1 0, 0⟩, 0.5, ⟨⟨-2, 0, 2⟩, ⟨0, 0, 2⟩, ⟨2, 0, 2⟩, "a", .FOUNDATION_EDGE, 4, .SIDE⟩, ⟨⟨-2, 0, 2⟩, ⟨0, 0, 2⟩, ⟨2, 0, 2⟩, .FOUNDATION_EDGE, 4, .SIDE⟩⟩,
       ⟨⟨0, 0, 4⟩, ⟨0, atan2 (-1) 0 - atan2 0 (-1), 0⟩, 0.5, ⟨⟨-2, 0, 2⟩, ⟨0, 0, 2⟩, ⟨2, 0, 2⟩, "a", .FOUNDATION_EDGE, 4, .SIDE⟩, ⟨⟨2, 0, 2⟩, ⟨2, 0, 0⟩, ⟨2, 0, -2⟩, .FOUNDATION_EDGE, 4, .SIDE⟩⟩,
       ⟨⟨0, 0, 4⟩, ⟨0, atan2 (-1) 0 - atan2 (-1) 0, 0⟩, 0.5, ⟨⟨-2, 0, 2⟩, ⟨0, 0, 2⟩, ⟨2, 0, 2⟩, "a", .FOUNDATION_EDGE, 4, .SIDE⟩, ⟨⟨2, 0, -2⟩, ⟨0, 0, -2⟩, ⟨-2, 0, -2⟩, .FOUNDATION_EDGE, 4, .SIDE⟩⟩,
       ⟨⟨0, 0, 4⟩, ⟨0, atan2 (-1) 0 - atan2 0 1, 0⟩, 0.5, ⟨⟨-2, 0, 2⟩, ⟨0, 0, 2⟩, ⟨2, 0, 2⟩, "a", .FOUNDATION_EDGE, 4, .SIDE⟩, ⟨⟨-2, 0, -2⟩, ⟨-2, 0, 0⟩, ⟨-2, 0, 2⟩, .FOUNDATION_EDGE, 4, .SIDE⟩⟩] := by
  have d05 : dist3 (⟨0, 0, 4⟩ : Vec3) (⟨0, 0, 4.5⟩ : Vec3) = 0.5 :=
    dist3_eval (by norm_num) (by norm_num)
  simp only [candList, localEdges_square, List.flatMap_cons, List.flatMap_nil,
    List.filterMap_cons, List.filterMap_nil, transform_C5_1, transform_C5_2,
    transform_C5_3, transform_C5_4, List.append_nil, d05]
  norm_num

theorem pick_C5 :
    pickBest
      [⟨⟨0, 0, 4⟩, ⟨0, atan2 (-1) 0 - atan2 1 0, 0⟩, 0.5, ⟨⟨-2, 0, 2⟩, ⟨0, 0, 2⟩, ⟨2, 0, 2⟩, "a", .FOUNDATION_EDGE, 4, .SIDE⟩, ⟨⟨-2, 0, 2⟩, ⟨0, 0, 2⟩, ⟨2, 0, 2⟩, .FOUNDATION_EDGE, 4, .SIDE⟩⟩,
       ⟨⟨0, 0, 4⟩, ⟨0, atan2 (-1) 0 - atan2 0 (-1), 0⟩, 0.5, ⟨⟨-2, 0, 2⟩, ⟨0, 0, 2⟩, ⟨2, 0, 2⟩, "a", .FOUNDATION_EDGE, 4, .SIDE⟩, ⟨⟨2, 0, 2⟩, ⟨2, 0, 0⟩, ⟨2, 0, -2⟩, .FOUNDATION_EDGE, 4, .SIDE⟩⟩,
       ⟨⟨0, 0, 4⟩, ⟨0, atan2 (-1) 0 - atan2 (-1) 0, 0⟩, 0.5, ⟨⟨-2, 0, 2⟩, ⟨0, 0, 2⟩, ⟨2, 0, 2⟩, "a", .FOUNDATION_EDGE, 4, .SIDE⟩, ⟨⟨2, 0, -2⟩, ⟨0, 0, -2⟩, ⟨-2, 0, -2⟩, .FOUNDATION_EDGE, 4, .SIDE⟩⟩,
       ⟨⟨0, 0, 4⟩, ⟨0, atan2 (-1) 0 - atan2 0 1, 0⟩, 0.5, ⟨⟨-2, 0, 2⟩, ⟨0, 0, 2⟩, ⟨2, 0, 2⟩, "a", .FOUNDATION_EDGE, 4, .SIDE⟩, ⟨⟨-2, 0, -2⟩, ⟨-2, 0, 0⟩, ⟨-2, 0, 2⟩, .FOUNDATION_EDGE, 4, .SIDE⟩⟩] =
      some ⟨⟨0, 0, 4⟩, ⟨0, atan2 (-1) 0 - atan2 1 0, 0⟩, 0.5, ⟨⟨-2, 0, 2⟩, ⟨0, 0, 2⟩, ⟨2, 0, 2⟩, "a", .FOUNDATION_EDGE, 4, .SIDE⟩, ⟨⟨-2, 0, 2⟩, ⟨0, 0, 2⟩, ⟨2, 0, 2⟩, .FOUNDATION_EDGE, 4, .SIDE⟩⟩ := by
  simp only [pickBest, List.foldl_cons, List.foldl_nil]
  norm_num

theorem resolve_C5 :
    snapResolve ⟨0, 0, 4.5⟩ [bldgA] SQUARE_FOUNDATION_DEF .SQUARE_FOUNDATION 0 =
      some ⟨⟨0, 0, 4⟩, ⟨0, atan2 (-1) 0 - atan2 1 0, 0⟩, true, some 0⟩ := by
  have hcond : SQUARE_FOUNDATION_DEF.usesEdgeSockets = true ∧
      ¬isWallLike BuildingType.SQUARE_FOUNDATION := ⟨rfl, by simp [isWallLike]⟩
  simp only [snapResolve, if_pos hcond, collect_A, filter_C5, candList_C5, pick_C5]


theorem fc_C5 : foundationCheck [bldgA] ⟨0, 0, 4⟩ = some true := by
  have hreg : BuildingRegistry bldgA.type = some SQUARE_FOUNDATION_DEF := rfl
  have hnd : ¬dist3 bldgA.position (⟨0, 0, 4⟩ : Vec3) < 2.0 := by
    have h4 : dist3 (⟨0, 0, 0⟩ : Vec3) (⟨0, 0, 4⟩ : Vec3) = 4 :=
      dist3_eval (by norm_num) (by norm_num)
    rw [show bldgA.position = (⟨0, 0, 0⟩ : Vec3) from rfl, h4]
    norm_num
  have hcond : SQUARE_FOUNDATION_DEF.usesEdgeSockets = true ∧
      SQUARE_FOUNDATION_DEF.category = BuildingCategory.foundation := ⟨rfl, rfl⟩
  simp only [foundationCheck, hreg, if_pos hcond, if_neg hnd]

theorem dup_C5 : dupCheck [bldgA] ⟨0, 0, 4⟩ = true := by
  have hnd : ¬dist3 bldgA.position (⟨0, 0, 4⟩ : Vec3) < 0.2 := by
    have h4 : dist3 (⟨0, 0, 0⟩ : Vec3) (⟨0, 0, 4⟩ : Vec3) = 4 :=
      dist3_eval (by norm_num) (by norm_num)
    rw [show bldgA.position = (⟨0, 0, 0⟩ : Vec3) from rfl, h4]
    norm_num
  simp only [dupCheck, if_neg hnd]

theorem validate_C5 : validate [bldgA] SQUARE_FOUNDATION_DEF true ⟨0, 0, 4⟩ = some true := by
  have hfc : (if SQUARE_FOUNDATION_DEF.usesEdgeSockets = true ∧
      SQUARE_FOUNDATION_DEF.category = BuildingCategory.foundation
      then foundationCheck [bldgA] ⟨0, 0, 4⟩ else some true) = some true := by
    have hcond : SQUARE_FOUNDATION_DEF.usesEdgeSockets = true ∧
        SQUARE_FOUNDATION_DEF.category = BuildingCategory.foundation := ⟨rfl, rfl⟩
    rw [if_pos hcond, fc_C5]
  rw [validate_snapped_eq [bldgA] SQUARE_FOUNDATION_DEF ⟨0, 0, 4⟩ hfc,
    if_pos rfl, dup_C5]

/-- Full evaluation of the C5 scenario: one square foundation at the origin
with yaw 0, a second square requested at cursor `(0, 0, 4.5)`, manual
rotation 0. -/
theorem calcSnap_C5 :
    calculateSnap (some ⟨0, 0, 4.5⟩) [bldgA] .SQUARE_FOUNDATION 0 =
      some ⟨⟨0, 0, 4⟩, ⟨0, -π, 0⟩, true, some 0⟩ := by
  have hyaw : atan2 (-1) 0 - atan2 1 0 = -π := by
    rw [atan2_neg_one_zero, atan2_one_zero]
    ring
  simp only [calculateSnap, BuildingRegistry, resolve_C5, validate_C5, hyaw]


-- ===========================================================================
-- Concrete evaluation: the two-square scenario (snapped but rejected)
-- ===========================================================================

theorem worldEdges_bldgB :
    getWorldEdgeSockets bldgB = [⟨⟨2, 0, 3.9⟩, ⟨4, 0, 3.9⟩, ⟨6, 0, 3.9⟩, "b", .FOUNDATION_EDGE, 4, .SIDE⟩, ⟨⟨6, 0, 3.9⟩, ⟨6, 0, 1.9⟩, ⟨6, 0, -0.1⟩, "b", .FOUNDATION_EDGE, 4, .SIDE⟩, ⟨⟨6, 0, -0.1⟩, ⟨4, 0, -0.1⟩, ⟨2, 0, -0.1⟩, "b", .FOUNDATION_EDGE, 4, .SIDE⟩, ⟨⟨2, 0, -0.1⟩, ⟨2, 0, 1.9⟩, ⟨2, 0, 3.9⟩, "b", .FOUNDATION_EDGE, 4, .SIDE⟩] := by
  have ht : bldgB.type = .SQUARE_FOUNDATION := rfl
  have hr : bldgB.rotation = ⟨0, 0, 0⟩ := rfl
  have hp : bldgB.position = ⟨4, 0, 1.9⟩ := rfl
  have hid : bldgB.id = "b" := rfl
  rw [getWorldEdgeSockets, ht, hr, hp, hid, localEdges_square]
  norm_num [applyEuler_zero, vadd]

theorem collect_AB : collectTargetEdges [bldgA, bldgB] =
    some [⟨⟨-2, 0, 2⟩, ⟨0, 0, 2⟩, ⟨2, 0, 2⟩, "a", .FOUNDATION_EDGE, 4, .SIDE⟩, ⟨⟨2, 0, 2⟩, ⟨2, 0, 0⟩, ⟨2, 0, -2⟩, "a", .FOUNDATION_EDGE, 4, .SIDE⟩, ⟨⟨2, 0, -2⟩, ⟨0, 0, -2⟩, ⟨-2, 0, -2⟩, "a", .FOUNDATION_EDGE, 4, .SIDE⟩, ⟨⟨-2, 0, -2⟩, ⟨-2, 0, 0⟩, ⟨-2, 0, 2⟩, "a", .FOUNDATION_EDGE, 4, .SIDE⟩, ⟨⟨2, 0, 3.9⟩, ⟨4, 0, 3.9⟩, ⟨6, 0, 3.9⟩, "b", .FOUNDATION_EDGE, 4, .SIDE⟩, ⟨⟨6, 0, 3.9⟩, ⟨6, 0, 1.9⟩, ⟨6, 0, -0.1⟩, "b", .FOUNDATION_EDGE, 4, .SIDE⟩, ⟨⟨6, 0, -0.1⟩, ⟨4, 0, -0.1⟩, ⟨2, 0, -0.1⟩, "b", .FOUNDATION_EDGE, 4, .SIDE⟩, ⟨⟨2, 0, -0.1⟩, ⟨2, 0, 1.9⟩, ⟨2, 0, 3.9⟩, "b", .FOUNDATION_EDGE, 4, .SIDE⟩] := by
  have hregA : BuildingRegistry bldgA.type = some SQUARE_FOUNDATION_DEF := rfl
  have hregB : BuildingRegistry bldgB.type = some SQUARE_FOUNDATION_DEF := rfl
  have hue : SQUARE_FOUNDATION_DEF.usesEdgeSockets = true := rfl
  simp only [collectTargetEdges, hregA, hregB, hue, if_true, worldEdges_bldgA,
    worldEdges_bldgB, List.append_nil, List.cons_append, List.nil_append]

theorem filter_C3 :
    filterTargets ⟨3, 0, 0⟩ [bldgA, bldgB]
      [⟨⟨-2, 0, 2⟩, ⟨0, 0, 2⟩, ⟨2, 0, 2⟩, "a", .FOUNDATION_EDGE, 4, .SIDE⟩, ⟨⟨2, 0, 2⟩, ⟨2, 0, 0⟩, ⟨2, 0, -2⟩, "a", .FOUNDATION_EDGE, 4, .SIDE⟩, ⟨⟨2, 0, -2⟩, ⟨0, 0, -2⟩, ⟨-2, 0, -2⟩, "a", .FOUNDATION_EDGE, 4, .SIDE⟩, ⟨⟨-2, 0, -2⟩, ⟨-2, 0, 0⟩, ⟨-2, 0, 2⟩, "a", .FOUNDATION_EDGE, 4, .SIDE⟩, ⟨⟨2, 0, 3.9⟩, ⟨4, 0, 3.9⟩, ⟨6, 0, 3.9⟩, "b", .FOUNDATION_EDGE, 4, .SIDE⟩, ⟨⟨6, 0, 3.9⟩, ⟨6, 0, 1.9⟩, ⟨6, 0, -0.1⟩, "b", .FOUNDATION_EDGE, 4, .SIDE⟩, ⟨⟨6, 0, -0.1⟩, ⟨4, 0, -0.1⟩, ⟨2, 0, -0.1⟩, "b", .FOUNDATION_EDGE, 4, .SIDE⟩, ⟨⟨2, 0, -0.1⟩, ⟨2, 0, 1.9⟩, ⟨2, 0, 3.9⟩, "b", .FOUNDATION_EDGE, 4, .SIDE⟩] =
      [⟨⟨2, 0, 2⟩, ⟨2, 0, 0⟩, ⟨2, 0, -2⟩, "a", .FOUNDATION_EDGE, 4, .SIDE⟩, ⟨⟨6, 0, -0.1⟩, ⟨4, 0, -0.1⟩, ⟨2, 0, -0.1⟩, "b", .FOUNDATION_EDGE, 4, .SIDE⟩, ⟨⟨2, 0, -0.1⟩, ⟨2, 0, 1.9⟩, ⟨2, 0, 3.9⟩, "b", .FOUNDATION_EDGE, 4, .SIDE⟩] := by
  have mA1 : edgeMid ⟨⟨-2, 0, 2⟩, ⟨0, 0, 2⟩, ⟨2, 0, 2⟩, "a", .FOUNDATION_EDGE, 4, .SIDE⟩ = ⟨0, 0, 2⟩ := by norm_num [edgeMid, smul, vadd]
  have mA2 : edgeMid ⟨⟨2, 0, 2⟩, ⟨2, 0, 0⟩, ⟨2, 0, -2⟩, "a", .FOUNDATION_EDGE, 4, .SIDE⟩ = ⟨2, 0, 0⟩ := by norm_num [edgeMid, smul, vadd]
  have mA3 : edgeMid ⟨⟨2, 0, -2⟩, ⟨0, 0, -2⟩, ⟨-2, 0, -2⟩, "a", .FOUNDATION_EDGE, 4, .SIDE⟩ = ⟨0, 0, -2⟩ := by norm_num [edgeMid, smul, vadd]
  have mA4 : edgeMid ⟨⟨-2, 0, -2⟩, ⟨-2, 0, 0⟩, ⟨-2, 0, 2⟩, "a", .FOUNDATION_EDGE, 4, .SIDE⟩ = ⟨-2, 0, 0⟩ := by norm_num [edgeMid, smul, vadd]
  have mB1 : edgeMid ⟨⟨2, 0, 3.9⟩, ⟨4, 0, 3.9⟩, ⟨6, 0, 3.9⟩, "b", .FOUNDATION_EDGE, 4, .SIDE⟩ = ⟨4, 0, 3.9⟩ := by norm_num [edgeMid, smul, vadd]
  have mB2 : edgeMid ⟨⟨6, 0, 3.9⟩, ⟨6, 0, 1.9⟩, ⟨6, 0, -0.1⟩, "b", .FOUNDATION_EDGE, 4, .SIDE⟩ = ⟨6, 0, 1.9⟩ := by norm_num [edgeMid, smul, vadd]
  have rA1 : dist3 (edgeMid ⟨⟨-2, 0, 2⟩, ⟨0, 0, 2⟩, ⟨2, 0, 2⟩, "a", .FOUNDATION_EDGE, 4, .SIDE⟩) (⟨3, 0, 0⟩ : Vec3) > SNAP_RADIUS := by
    rw [mA1, SNAP_RADIUS]
    exact lt_dist3_of (by norm_num) (by norm_num)
  have rA2 : ¬dist3 (edgeMid ⟨⟨2, 0, 2⟩, ⟨2, 0, 0⟩, ⟨2, 0, -2⟩, "a", .FOUNDATION_EDGE, 4, .SIDE⟩) (⟨3, 0, 0⟩ : Vec3) > SNAP_RADIUS := by
    have d1 : dist3 (⟨2, 0, 0⟩ : Vec3) (⟨3, 0, 0⟩ : Vec3) = 1 :=
      dist3_eval (by norm_num) (by norm_num)
    rw [mA2, d1, SNAP_RADIUS]
    norm_num
  have rA3 : dist3 (edgeMid ⟨⟨2, 0, -2⟩, ⟨0, 0, -2⟩, ⟨-2, 0, -2⟩, "a", .FOUNDATION_EDGE, 4, .SIDE⟩) (⟨3, 0, 0⟩ : Vec3) > SNAP_RADIUS := by
    rw [mA3, SNAP_RADIUS]
    exact lt_dist3_of (by norm_num) (by norm_num)
  have rA4 : dist3 (edgeMid ⟨⟨-2, 0, -2⟩, ⟨-2, 0, 0⟩, ⟨-2, 0, 2⟩, "a", .FOUNDATION_EDGE, 4, .SIDE⟩) (⟨3, 0, 0⟩ : Vec3) > SNAP_RADIUS := by
    rw [mA4, SNAP_RADIUS]
    exact lt_dist3_of (by norm_num) (by norm_num)
  have rB1 : dist3 (edgeMid ⟨⟨2, 0, 3.9⟩, ⟨4, 0, 3.9⟩, ⟨6, 0, 3.9⟩, "b", .FOUNDATION_EDGE, 4, .SIDE⟩) (⟨3, 0, 0⟩ : Vec3) > SNAP_RADIUS := by
    rw [mB1, SNAP_RADIUS]
    exact lt_dist3_of (by norm_num) (by norm_num)
  have rB2 : dist3 (edgeMid ⟨⟨6, 0, 3.9⟩, ⟨6, 0, 1.9⟩, ⟨6, 0, -0.1⟩, "b", .FOUNDATION_EDGE, 4, .SIDE⟩) (⟨3, 0, 0⟩ : Vec3) > SNAP_RADIUS := by
    rw [mB2, SNAP_RADIUS]
    exact lt_dist3_of (by norm_num) (by norm_num)
  have rB3 : ¬dist3 (edgeMid ⟨⟨6, 0, -0.1⟩, ⟨4, 0, -0.1⟩, ⟨2, 0, -0.1⟩, "b", .FOUNDATION_EDGE, 4, .SIDE⟩) (⟨3, 0, 0⟩ : Vec3) > SNAP_RADIUS := by
    rw [not_lt, SNAP_RADIUS]
    refine le_trans ?_ (le_refl _)
    calc dist3 (edgeMid ⟨⟨6, 0, -0.1⟩, ⟨4, 0, -0.1⟩, ⟨2, 0, -0.1⟩, "b", .FOUNDATION_EDGE, 4, .SIDE⟩) (⟨3, 0, 0⟩ : Vec3) ≤ 3.5 := by
          apply dist3_le_of (by norm_num)
          norm_num [edgeMid, smul, vadd]
      _ = 3.5 := rfl
  have rB4 : ¬dist3 (edgeMid ⟨⟨2, 0, -0.1⟩, ⟨2, 0, 1.9⟩, ⟨2, 0, 3.9⟩, "b", .FOUNDATION_EDGE, 4, .SIDE⟩) (⟨3, 0, 0⟩ : Vec3) > SNAP_RADIUS := by
    rw [not_lt, SNAP_RADIUS]
    apply dist3_le_of (by norm_num)
    norm_num [edgeMid, smul, vadd]
  have oA2 : ¬IsOccupied [bldgA, bldgB] ⟨⟨2, 0, 2⟩, ⟨2, 0, 0⟩, ⟨2, 0, -2⟩, "a", .FOUNDATION_EDGE, 4, .SIDE⟩ := by
    rintro ⟨b, hb, hne, e, he, hd⟩
    rcases List.mem_cons.mp hb with rfl | hb2
    · exact hne rfl
    rcases List.mem_cons.mp hb2 with rfl | h0
    · rw [worldEdges_bldgB] at he
      simp only [List.mem_cons, List.not_mem_nil, or_false] at he
      rcases he with rfl | rfl | rfl | rfl
      all_goals exact absurd hd (not_dist3_lt_of (by norm_num [edgeMid, smul, vadd]) (by norm_num))
    · exact absurd h0 (List.not_mem_nil _)
  have oB3 : ¬IsOccupied [bldgA, bldgB] ⟨⟨6, 0, -0.1⟩, ⟨4, 0, -0.1⟩, ⟨2, 0, -0.1⟩, "b", .FOUNDATION_EDGE, 4, .SIDE⟩ := by
    rintro ⟨b, hb, hne, e, he, hd⟩
    rcases List.mem_cons.mp hb with rfl | hb2
    · rw [worldEdges_bldgA] at he
      simp only [List.mem_cons, List.not_mem_nil, or_false] at he
      rcases he with rfl | rfl | rfl | rfl
      all_goals exact absurd hd (not_dist3_lt_of (by norm_num [edgeMid, smul, vadd]) (by norm_num))
    rcases List.mem_cons.mp hb2 with rfl | h0
    · exact hne rfl
    · exact absurd h0 (List.not_mem_nil _)
  have oB4 : ¬IsOccupied [bldgA, bldgB] ⟨⟨2, 0, -0.1⟩, ⟨2, 0, 1.9⟩, ⟨2, 0, 3.9⟩, "b", .FOUNDATION_EDGE, 4, .SIDE⟩ := by
    rintro ⟨b, hb, hne, e, he, hd⟩
    rcases List.mem_cons.mp hb with rfl | hb2
    · rw [worldEdges_bldgA] at he
      simp only [List.mem_cons, List.not_mem_nil, or_false] at he
      rcases he with rfl | rfl | rfl | rfl
      all_goals exact absurd hd (not_dist3_lt_of (by norm_num [edgeMid, smul, vadd]) (by norm_num))
    rcases List.mem_cons.mp hb2 with rfl | h0
    · exact hne rfl
    · exact absurd h0 (List.not_mem_nil _)
  rw [filterTargets_cons_skip_range rA1, filterTargets_cons_keep rA2 oA2,
    filterTargets_cons_skip_range rA3, filterTargets_cons_skip_range rA4,
    filterTargets_cons_skip_range rB1, filterTargets_cons_skip_range rB2,
    filterTargets_cons_keep rB3 oB3, filterTargets_cons_keep rB4 oB4, filterTargets_nil]


-- ===========================================================================
-- Concrete evaluation: transforms for the two-square scenario
-- ===========================================================================

theorem transform_C3_A2_1 :
    calculateEdgeSnapTransform ⟨⟨2, 0, 2⟩, ⟨2, 0, 0⟩, ⟨2, 0, -2⟩, "a", .FOUNDATION_EDGE, 4, .SIDE⟩ ⟨⟨-2, 0, 2⟩, ⟨0, 0, 2⟩, ⟨2, 0, 2⟩, .FOUNDATION_EDGE, 4, .SIDE⟩ = some ⟨⟨4, 0, 0⟩, ⟨0, atan2 0 1 - atan2 1 0, 0⟩⟩ := by
  rw [edgeSnapTransform_eval ⟨⟨2, 0, 2⟩, ⟨2, 0, 0⟩, ⟨2, 0, -2⟩, "a", .FOUNDATION_EDGE, 4, .SIDE⟩ ⟨⟨-2, 0, 2⟩, ⟨0, 0, 2⟩, ⟨2, 0, 2⟩, .FOUNDATION_EDGE, 4, .SIDE⟩ (by norm_num : (0:ℝ) < 4) (by norm_num [vsub] : vsub (⟨⟨-2, 0, 2⟩, ⟨0, 0, 2⟩, ⟨2, 0, 2⟩, .FOUNDATION_EDGE, 4, .SIDE⟩ : LocalEdgeSocket).«end» (⟨⟨-2, 0, 2⟩, ⟨0, 0, 2⟩, ⟨2, 0, 2⟩, .FOUNDATION_EDGE, 4, .SIDE⟩ : LocalEdgeSocket).start = ⟨4 * 1, 0, 4 * 0⟩) (by norm_num) (by norm_num [vsub] : vsub (⟨⟨2, 0, 2⟩, ⟨2, 0, 0⟩, ⟨2, 0, -2⟩, "a", .FOUNDATION_EDGE, 4, .SIDE⟩ : EdgeSocket).«end» (⟨⟨2, 0, 2⟩, ⟨2, 0, 0⟩, ⟨2, 0, -2⟩, "a", .FOUNDATION_EDGE, 4, .SIDE⟩ : EdgeSocket).start = ⟨4 * -0, 0, 4 * -1⟩) (by norm_num) (by norm_num [smul, vadd]) (by norm_num [smul, vadd])]
  norm_num [vsub]

theorem transform_C3_A2_2 :
    calculateEdgeSnapTransform ⟨⟨2, 0, 2⟩, ⟨2, 0, 0⟩, ⟨2, 0, -2⟩, "a", .FOUNDATION_EDGE, 4, .SIDE⟩ ⟨⟨2, 0, 2⟩, ⟨2, 0, 0⟩, ⟨2, 0, -2⟩, .FOUNDATION_EDGE, 4, .SIDE⟩ = some ⟨⟨4, 0, 0⟩, ⟨0, atan2 0 1 - atan2 0 (-1), 0⟩⟩ := by
  rw [edgeSnapTransform_eval ⟨⟨2, 0, 2⟩, ⟨2, 0, 0⟩, ⟨2, 0, -2⟩, "a", .FOUNDATION_EDGE, 4, .SIDE⟩ ⟨⟨2, 0, 2⟩, ⟨2, 0, 0⟩, ⟨2, 0, -2⟩, .FOUNDATION_EDGE, 4, .SIDE⟩ (by norm_num : (0:ℝ) < 4) (by norm_num [vsub] : vsub (⟨⟨2, 0, 2⟩, ⟨2, 0, 0⟩, ⟨2, 0, -2⟩, .FOUNDATION_EDGE, 4, .SIDE⟩ : LocalEdgeSocket).«end» (⟨⟨2, 0, 2⟩, ⟨2, 0, 0⟩, ⟨2, 0, -2⟩, .FOUNDATION_EDGE, 4, .SIDE⟩ : LocalEdgeSocket).start = ⟨4 * 0, 0, 4 * (-1)⟩) (by norm_num) (by norm_num [vsub] : vsub (⟨⟨2, 0, 2⟩, ⟨2, 0, 0⟩, ⟨2, 0, -2⟩, "a", .FOUNDATION_EDGE, 4, .SIDE⟩ : EdgeSocket).«end» (⟨⟨2, 0, 2⟩, ⟨2, 0, 0⟩, ⟨2, 0, -2⟩, "a", .FOUNDATION_EDGE, 4, .SIDE⟩ : EdgeSocket).start = ⟨4 * -0, 0, 4 * -1⟩) (by norm_num) (by norm_num [smul, vadd]) (by norm_num [smul, vadd])]
  norm_num [vsub]

theorem transform_C3_A2_3 :
    calculateEdgeSnapTransform ⟨⟨2, 0, 2⟩, ⟨2, 0, 0⟩, ⟨2, 0, -2⟩, "a", .FOUNDATION_EDGE, 4, .SIDE⟩ ⟨⟨2, 0, -2⟩, ⟨0, 0, -2⟩, ⟨-2, 0, -2⟩, .FOUNDATION_EDGE, 4, .SIDE⟩ = some ⟨⟨4, 0, 0⟩, ⟨0, atan2 0 1 - atan2 (-1) 0, 0⟩⟩ := by
  rw [edgeSnapTransform_eval ⟨⟨2, 0, 2⟩, ⟨2, 0, 0⟩, ⟨2, 0, -2⟩, "a", .FOUNDATION_EDGE, 4, .SIDE⟩ ⟨⟨2, 0, -2⟩, ⟨0, 0, -2⟩, ⟨-2, 0, -2⟩, .FOUNDATION_EDGE, 4, .SIDE⟩ (by norm_num : (0:ℝ) < 4) (by norm_num [vsub] : vsub (⟨⟨2, 0, -2⟩, ⟨0, 0, -2⟩, ⟨-2, 0, -2⟩, .FOUNDATION_EDGE, 4, .SIDE⟩ : LocalEdgeSocket).«end» (⟨⟨2, 0, -2⟩, ⟨0, 0, -2⟩, ⟨-2, 0, -2⟩, .FOUNDATION_EDGE, 4, .SIDE⟩ : LocalEdgeSocket).start = ⟨4 * (-1), 0, 4 * 0⟩) (by norm_num) (by norm_num [vsub] : vsub (⟨⟨2, 0, 2⟩, ⟨2, 0, 0⟩, ⟨2, 0, -2⟩, "a", .FOUNDATION_EDGE, 4, .SIDE⟩ : EdgeSocket).«end» (⟨⟨2, 0, 2⟩, ⟨2, 0, 0⟩, ⟨2, 0, -2⟩, "a", .FOUNDATION_EDGE, 4, .SIDE⟩ : EdgeSocket).start = ⟨4 * -0, 0, 4 * -1⟩) (by norm_num) (by norm_num [smul, vadd]) (by norm_num [smul, vadd])]
  norm_num [vsub]

theorem transform_C3_A2_4 :
    calculateEdgeSnapTransform ⟨⟨2, 0, 2⟩, ⟨2, 0, 0⟩, ⟨2, 0, -2⟩, "a", .FOUNDATION_EDGE, 4, .SIDE⟩ ⟨⟨-2, 0, -2⟩, ⟨-2, 0, 0⟩, ⟨-2, 0, 2⟩, .FOUNDATION_EDGE, 4, .SIDE⟩ = some ⟨⟨4, 0, 0⟩, ⟨0, atan2 0 1 - atan2 0 1, 0⟩⟩ := by
  rw [edgeSnapTransform_eval ⟨⟨2, 0, 2⟩, ⟨2, 0, 0⟩, ⟨2, 0, -2⟩, "a", .FOUNDATION_EDGE, 4, .SIDE⟩ ⟨⟨-2, 0, -2⟩, ⟨-2, 0, 0⟩, ⟨-2, 0, 2⟩, .FOUNDATION_EDGE, 4, .SIDE⟩ (by norm_num : (0:ℝ) < 4) (by norm_num [vsub] : vsub (⟨⟨-2, 0, -2⟩, ⟨-2, 0, 0⟩, ⟨-2, 0, 2⟩, .FOUNDATION_EDGE, 4, .SIDE⟩ : LocalEdgeSocket).«end» (⟨⟨-2, 0, -2⟩, ⟨-2, 0, 0⟩, ⟨-2, 0, 2⟩, .FOUNDATION_EDGE, 4, .SIDE⟩ : LocalEdgeSocket).start = ⟨4 * 0, 0, 4 * 1⟩) (by norm_num) (by norm_num [vsub] : vsub (⟨⟨2, 0, 2⟩, ⟨2, 0, 0⟩, ⟨2, 0, -2⟩, "a", .FOUNDATION_EDGE, 4, .SIDE⟩ : EdgeSocket).«end» (⟨⟨2, 0, 2⟩, ⟨2, 0, 0⟩, ⟨2, 0, -2⟩, "a", .FOUNDATION_EDGE, 4, .SIDE⟩ : EdgeSocket).start = ⟨4 * -0, 0, 4 * -1⟩) (by norm_num) (by norm_num [smul, vadd]) (by norm_num [smul, vadd])]
  norm_num [vsub]

theorem transform_C3_B3_1 :
    calculateEdgeSnapTransform ⟨⟨6, 0, -0.1⟩, ⟨4, 0, -0.1⟩, ⟨2, 0, -0.1⟩, "b", .FOUNDATION_EDGE, 4, .SIDE⟩ ⟨⟨-2, 0, 2⟩, ⟨0, 0, 2⟩, ⟨2, 0, 2⟩, .FOUNDATION_EDGE, 4, .SIDE⟩ = some ⟨⟨4, 0, -2.1⟩, ⟨0, atan2 1 0 - atan2 1 0, 0⟩⟩ := by
  rw [edgeSnapTransform_eval ⟨⟨6, 0, -0.1⟩, ⟨4, 0, -0.1⟩, ⟨2, 0, -0.1⟩, "b", .FOUNDATION_EDGE, 4, .SIDE⟩ ⟨⟨-2, 0, 2⟩, ⟨0, 0, 2⟩, ⟨2, 0, 2⟩, .FOUNDATION_EDGE, 4, .SIDE⟩ (by norm_num : (0:ℝ) < 4) (by norm_num [vsub] : vsub (⟨⟨-2, 0, 2⟩, ⟨0, 0, 2⟩, ⟨2, 0, 2⟩, .FOUNDATION_EDGE, 4, .SIDE⟩ : LocalEdgeSocket).«end» (⟨⟨-2, 0, 2⟩, ⟨0, 0, 2⟩, ⟨2, 0, 2⟩, .FOUNDATION_EDGE, 4, .SIDE⟩ : LocalEdgeSocket).start = ⟨4 * 1, 0, 4 * 0⟩) (by norm_num) (by norm_num [vsub] : vsub (⟨⟨6, 0, -0.1⟩, ⟨4, 0, -0.1⟩, ⟨2, 0, -0.1⟩, "b", .FOUNDATION_EDGE, 4, .SIDE⟩ : EdgeSocket).«end» (⟨⟨6, 0, -0.1⟩, ⟨4, 0, -0.1⟩, ⟨2, 0, -0.1⟩, "b", .FOUNDATION_EDGE, 4, .SIDE⟩ : EdgeSocket).start = ⟨4 * -1, 0, 4 * -0⟩) (by norm_num) (by norm_num [smul, vadd]) (by norm_num [smul, vadd])]
  norm_num [vsub]

theorem transform_C3_B3_2 :
    calculateEdgeSnapTransform ⟨⟨6, 0, -0.1⟩, ⟨4, 0, -0.1⟩, ⟨2, 0, -0.1⟩, "b", .FOUNDATION_EDGE, 4, .SIDE⟩ ⟨⟨2, 0, 2⟩, ⟨2, 0, 0⟩, ⟨2, 0, -2⟩, .FOUNDATION_EDGE, 4, .SIDE⟩ = some ⟨⟨4, 0, -2.1⟩, ⟨0, atan2 1 0 - atan2 0 (-1), 0⟩⟩ := by
  rw [edgeSnapTransform_eval ⟨⟨6, 0, -0.1⟩, ⟨4, 0, -0.1⟩, ⟨2, 0, -0.1⟩, "b", .FOUNDATION_EDGE, 4, .SIDE⟩ ⟨⟨2, 0, 2⟩, ⟨2, 0, 0⟩, ⟨2, 0, -2⟩, .FOUNDATION_EDGE, 4, .SIDE⟩ (by norm_num : (0:ℝ) < 4) (by norm_num [vsub] : vsub (⟨⟨2, 0, 2⟩, ⟨2, 0, 0⟩, ⟨2, 0, -2⟩, .FOUNDATION_EDGE, 4, .SIDE⟩ : LocalEdgeSocket).«end» (⟨⟨2, 0, 2⟩, ⟨2, 0, 0⟩, ⟨2, 0, -2⟩, .FOUNDATION_EDGE, 4, .SIDE⟩ : LocalEdgeSocket).start = ⟨4 * 0, 0, 4 * (-1)⟩) (by norm_num) (by norm_num [vsub] : vsub (⟨⟨6, 0, -0.1⟩, ⟨4, 0, -0.1⟩, ⟨2, 0, -0.1⟩, "b", .FOUNDATION_EDGE, 4, .SIDE⟩ : EdgeSocket).«end» (⟨⟨6, 0, -0.1⟩, ⟨4, 0, -0.1⟩, ⟨2, 0, -0.1⟩, "b", .FOUNDATION_EDGE, 4, .SIDE⟩ : EdgeSocket).start = ⟨4 * -1, 0, 4 * -0⟩) (by norm_num) (by norm_num [smul, vadd]) (by norm_num [smul, vadd])]
  norm_num [vsub]

theorem transform_C3_B3_3 :
    calculateEdgeSnapTransform ⟨⟨6, 0, -0.1⟩, ⟨4, 0, -0.1⟩, ⟨2, 0, -0.1⟩, "b", .FOUNDATION_EDGE, 4, .SIDE⟩ ⟨⟨2, 0, -2⟩, ⟨0, 0, -2⟩, ⟨-2, 0, -2⟩, .FOUNDATION_EDGE, 4, .SIDE⟩ = some ⟨⟨4, 0, -2.1⟩, ⟨0, atan2 1 0 - atan2 (-1) 0, 0⟩⟩ := by
  rw [edgeSnapTransform_eval ⟨⟨6, 0, -0.1⟩, ⟨4, 0, -0.1⟩, ⟨2, 0, -0.1⟩, "b", .FOUNDATION_EDGE, 4, .SIDE⟩ ⟨⟨2, 0, -2⟩, ⟨0, 0, -2⟩, ⟨-2, 0, -2⟩, .FOUNDATION_EDGE, 4, .SIDE⟩ (by norm_num : (0:ℝ) < 4) (by norm_num [vsub] : vsub (⟨⟨2, 0, -2⟩, ⟨0, 0, -2⟩, ⟨-2, 0, -2⟩, .FOUNDATION_EDGE, 4, .SIDE⟩ : LocalEdgeSocket).«end» (⟨⟨2, 0, -2⟩, ⟨0, 0, -2⟩, ⟨-2, 0, -2⟩, .FOUNDATION_EDGE, 4, .SIDE⟩ : LocalEdgeSocket).start = ⟨4 * (-1), 0, 4 * 0⟩) (by norm_num) (by norm_num [vsub] : vsub (⟨⟨6, 0, -0.1⟩, ⟨4, 0, -0.1⟩, ⟨2, 0, -0.1⟩, "b", .FOUNDATION_EDGE, 4, .SIDE⟩ : EdgeSocket).«end» (⟨⟨6, 0, -0.1⟩, ⟨4, 0, -0.1⟩, ⟨2, 0, -0.1⟩, "b", .FOUNDATION_EDGE, 4, .SIDE⟩ : EdgeSocket).start = ⟨4 * -1, 0, 4 * -0⟩) (by norm_num) (by norm_num [smul, vadd]) (by norm_num [smul, vadd])]
  norm_num [vsub]

theorem transform_C3_B3_4 :
    calculateEdgeSnapTransform ⟨⟨6, 0, -0.1⟩, ⟨4, 0, -0.1⟩, ⟨2, 0, -0.1⟩, "b", .FOUNDATION_EDGE, 4, .SIDE⟩ ⟨⟨-2, 0, -2⟩, ⟨-2, 0, 0⟩, ⟨-2, 0, 2⟩, .FOUNDATION_EDGE, 4, .SIDE⟩ = some ⟨⟨4, 0, -2.1⟩, ⟨0, atan2 1 0 - atan2 0 1, 0⟩⟩ := by
  rw [edgeSnapTransform_eval ⟨⟨6, 0, -0.1⟩, ⟨4, 0, -0.1⟩, ⟨2, 0, -0.1⟩, "b", .FOUNDATION_EDGE, 4, .SIDE⟩ ⟨⟨-2, 0, -2⟩, ⟨-2, 0, 0⟩, ⟨-2, 0, 2⟩, .FOUNDATION_EDGE, 4, .SIDE⟩ (by norm_num : (0:ℝ) < 4) (by norm_num [vsub] : vsub (⟨⟨-2, 0, -2⟩, ⟨-2, 0, 0⟩, ⟨-2, 0, 2⟩, .FOUNDATION_EDGE, 4, .SIDE⟩ : LocalEdgeSocket).«end» (⟨⟨-2, 0, -2⟩, ⟨-2, 0, 0⟩, ⟨-2, 0, 2⟩, .FOUNDATION_EDGE, 4, .SIDE⟩ : LocalEdgeSocket).start = ⟨4 * 0, 0, 4 * 1⟩) (by norm_num) (by norm_num [vsub] : vsub (⟨⟨6, 0, -0.1⟩, ⟨4, 0, -0.1⟩, ⟨2, 0, -0.1⟩, "b", .FOUNDATION_EDGE, 4, .SIDE⟩ : EdgeSocket).«end» (⟨⟨6, 0, -0.1⟩, ⟨4, 0, -0.1⟩, ⟨2, 0, -0.1⟩, "b", .FOUNDATION_EDGE, 4, .SIDE⟩ : EdgeSocket).start = ⟨4 * -1, 0, 4 * -0⟩) (by norm_num) (by norm_num [smul, vadd]) (by norm_num [smul, vadd])]
  norm_num [vsub]

theorem transform_C3_B4_1 :
    calculateEdgeSnapTransform ⟨⟨2, 0, -0.1⟩, ⟨2, 0, 1.9⟩, ⟨2, 0, 3.9⟩, "b", .FOUNDATION_EDGE, 4, .SIDE⟩ ⟨⟨-2, 0, 2⟩, ⟨0, 0, 2⟩, ⟨2, 0, 2⟩, .FOUNDATION_EDGE, 4, .SIDE⟩ = some ⟨⟨0, 0, 1.9⟩, ⟨0, atan2 0 (-1) - atan2 1 0, 0⟩⟩ := by
  rw [edgeSnapTransform_eval ⟨⟨2, 0, -0.1⟩, ⟨2, 0, 1.9⟩, ⟨2, 0, 3.9⟩, "b", .FOUNDATION_EDGE, 4, .SIDE⟩ ⟨⟨-2, 0, 2⟩, ⟨0, 0, 2⟩, ⟨2, 0, 2⟩, .FOUNDATION_EDGE, 4, .SIDE⟩ (by norm_num : (0:ℝ) < 4) (by norm_num [vsub] : vsub (⟨⟨-2, 0, 2⟩, ⟨0, 0, 2⟩, ⟨2, 0, 2⟩, .FOUNDATION_EDGE, 4, .SIDE⟩ : LocalEdgeSocket).«end» (⟨⟨-2, 0, 2⟩, ⟨0, 0, 2⟩, ⟨2, 0, 2⟩, .FOUNDATION_EDGE, 4, .SIDE⟩ : LocalEdgeSocket).start = ⟨4 * 1, 0, 4 * 0⟩) (by norm_num) (by norm_num [vsub] : vsub (⟨⟨2, 0, -0.1⟩, ⟨2, 0, 1.9⟩, ⟨2, 0, 3.9⟩, "b", .FOUNDATION_EDGE, 4, .SIDE⟩ : EdgeSocket).«end» (⟨⟨2, 0, -0.1⟩, ⟨2, 0, 1.9⟩, ⟨2, 0, 3.9⟩, "b", .FOUNDATION_EDGE, 4, .SIDE⟩ : EdgeSocket).start = ⟨4 * -0, 0, 4 * -(-1)⟩) (by norm_num) (by norm_num [smul, vadd]) (by norm_num [smul, vadd])]
  norm_num [vsub]

theorem transform_C3_B4_2 :
    calculateEdgeSnapTransform ⟨⟨2, 0, -0.1⟩, ⟨2, 0, 1.9⟩, ⟨2, 0, 3.9⟩, "b", .FOUNDATION_EDGE, 4, .SIDE⟩ ⟨⟨2, 0, 2⟩, ⟨2, 0, 0⟩, ⟨2, 0, -2⟩, .FOUNDATION_EDGE, 4, .SIDE⟩ = some ⟨⟨0, 0, 1.9⟩, ⟨0, atan2 0 (-1) - atan2 0 (-1), 0⟩⟩ := by
  rw [edgeSnapTransform_eval ⟨⟨2, 0, -0.1⟩, ⟨2, 0, 1.9⟩, ⟨2, 0, 3.9⟩, "b", .FOUNDATION_EDGE, 4, .SIDE⟩ ⟨⟨2, 0, 2⟩, ⟨2, 0, 0⟩, ⟨2, 0, -2⟩, .FOUNDATION_EDGE, 4, .SIDE⟩ (by norm_num : (0:ℝ) < 4) (by norm_num [vsub] : vsub (⟨⟨2, 0, 2⟩, ⟨2, 0, 0⟩, ⟨2, 0, -2⟩, .FOUNDATION_EDGE, 4, .SIDE⟩ : LocalEdgeSocket).«end» (⟨⟨2, 0, 2⟩, ⟨2, 0, 0⟩, ⟨2, 0, -2⟩, .FOUNDATION_EDGE, 4, .SIDE⟩ : LocalEdgeSocket).start = ⟨4 * 0, 0, 4 * (-1)⟩) (by norm_num) (by norm_num [vsub] : vsub (⟨⟨2, 0, -0.1⟩, ⟨2, 0, 1.9⟩, ⟨2, 0, 3.9⟩, "b", .FOUNDATION_EDGE, 4, .SIDE⟩ : EdgeSocket).«end» (⟨⟨2, 0, -0.1⟩, ⟨2, 0, 1.9⟩, ⟨2, 0, 3.9⟩, "b", .FOUNDATION_EDGE, 4, .SIDE⟩ : EdgeSocket).start = ⟨4 * -0, 0, 4 * -(-1)⟩) (by norm_num) (by norm_num [smul, vadd]) (by norm_num [smul, vadd])]
  norm_num [vsub]

theorem transform_C3_B4_3 :
    calculateEdgeSnapTransform ⟨⟨2, 0, -0.1⟩, ⟨2, 0, 1.9⟩, ⟨2, 0, 3.9⟩, "b", .FOUNDATION_EDGE, 4, .SIDE⟩ ⟨⟨2, 0, -2⟩, ⟨0, 0, -2⟩, ⟨-2, 0, -2⟩, .FOUNDATION_EDGE, 4, .SIDE⟩ = some ⟨⟨0, 0, 1.9⟩, ⟨0, atan2 0 (-1) - atan2 (-1) 0, 0⟩⟩ := by
  rw [edgeSnapTransform_eval ⟨⟨2, 0, -0.1⟩, ⟨2, 0, 1.9⟩, ⟨2, 0, 3.9⟩, "b", .FOUNDATION_EDGE, 4, .SIDE⟩ ⟨⟨2, 0, -2⟩, ⟨0, 0, -2⟩, ⟨-2, 0, -2⟩, .FOUNDATION_EDGE, 4, .SIDE⟩ (by norm_num : (0:ℝ) < 4) (by norm_num [vsub] : vsub (⟨⟨2, 0, -2⟩, ⟨0, 0, -2⟩, ⟨-2, 0, -2⟩, .FOUNDATION_EDGE, 4, .SIDE⟩ : LocalEdgeSocket).«end» (⟨⟨2, 0, -2⟩, ⟨0, 0, -2⟩, ⟨-2, 0, -2⟩, .FOUNDATION_EDGE, 4, .SIDE⟩ : LocalEdgeSocket).start = ⟨4 * (-1), 0, 4 * 0⟩) (by norm_num) (by norm_num [vsub] : vsub (⟨⟨2, 0, -0.1⟩, ⟨2, 0, 1.9⟩, ⟨2, 0, 3.9⟩, "b", .FOUNDATION_EDGE, 4, .SIDE⟩ : EdgeSocket).«end» (⟨⟨2, 0, -0.1⟩, ⟨2, 0, 1.9⟩, ⟨2, 0, 3.9⟩, "b", .FOUNDATION_EDGE, 4, .SIDE⟩ : EdgeSocket).start = ⟨4 * -0, 0, 4 * -(-1)⟩) (by norm_num) (by norm_num [smul, vadd]) (by norm_num [smul, vadd])]
  norm_num [vsub]

theorem transform_C3_B4_4 :
    calculateEdgeSnapTransform ⟨⟨2, 0, -0.1⟩, ⟨2, 0, 1.9⟩, ⟨2, 0, 3.9⟩, "b", .FOUNDATION_EDGE, 4, .SIDE⟩ ⟨⟨-2, 0, -2⟩, ⟨-2, 0, 0⟩, ⟨-2, 0, 2⟩, .FOUNDATION_EDGE, 4, .SIDE⟩ = some ⟨⟨0, 0, 1.9⟩, ⟨0, atan2 0 (-1) - atan2 0 1, 0⟩⟩ := by
  rw [edgeSnapTransform_eval ⟨⟨2, 0, -0.1⟩, ⟨2, 0, 1.9⟩, ⟨2, 0, 3.9⟩, "b", .FOUNDATION_EDGE, 4, .SIDE⟩ ⟨⟨-2, 0, -2⟩, ⟨-2, 0, 0⟩, ⟨-2, 0, 2⟩, .FOUNDATION_EDGE, 4, .SIDE⟩ (by norm_num : (0:ℝ) < 4) (by norm_num [vsub] : vsub (⟨⟨-2, 0, -2⟩, ⟨-2, 0, 0⟩, ⟨-2, 0, 2⟩, .FOUNDATION_EDGE, 4, .SIDE⟩ : LocalEdgeSocket).«end» (⟨⟨-2, 0, -2⟩, ⟨-2, 0, 0⟩, ⟨-2, 0, 2⟩, .FOUNDATION_EDGE, 4, .SIDE⟩ : LocalEdgeSocket).start = ⟨4 * 0, 0, 4 * 1⟩) (by norm_num) (by norm_num [vsub] : vsub (⟨⟨2, 0, -0.1⟩, ⟨2, 0, 1.9⟩, ⟨2, 0, 3.9⟩, "b", .FOUNDATION_EDGE, 4, .SIDE⟩ : EdgeSocket).«end» (⟨⟨2, 0, -0.1⟩, ⟨2, 0, 1.9⟩, ⟨2, 0, 3.9⟩, "b", .FOUNDATION_EDGE, 4, .SIDE⟩ : EdgeSocket).start = ⟨4 * -0, 0, 4 * -(-1)⟩) (by norm_num) (by norm_num [smul, vadd]) (by norm_num [smul, vadd])]
  norm_num [vsub]

theorem candList_C3 :
    candList [⟨⟨2, 0, 2⟩, ⟨2, 0, 0⟩, ⟨2, 0, -2⟩, "a", .FOUNDATION_EDGE, 4, .SIDE⟩, ⟨⟨6, 0, -0.1⟩, ⟨4, 0, -0.1⟩, ⟨2, 0, -0.1⟩, "b", .FOUNDATION_EDGE, 4, .SIDE⟩, ⟨⟨2, 0, -0.1⟩, ⟨2, 0, 1.9⟩, ⟨2, 0, 3.9⟩, "b", .FOUNDATION_EDGE, 4, .SIDE⟩] (getLocalEdgeSockets .SQUARE_FOUNDATION) ⟨3, 0, 0⟩ =
      [⟨⟨4, 0, 0⟩, ⟨0, atan2 0 1 - atan2 1 0, 0⟩, 1, ⟨⟨2, 0, 2⟩, ⟨2, 0, 0⟩, ⟨2, 0, -2⟩, "a", .FOUNDATION_EDGE, 4, .SIDE⟩, ⟨⟨-2, 0, 2⟩, ⟨0, 0, 2⟩, ⟨2, 0, 2⟩, .FOUNDATION_EDGE, 4, .SIDE⟩⟩,
       ⟨⟨4, 0, 0⟩, ⟨0, atan2 0 1 - atan2 0 (-1), 0⟩, 1, ⟨⟨2, 0, 2⟩, ⟨2, 0, 0⟩, ⟨2, 0, -2⟩, "a", .FOUNDATION_EDGE, 4, .SIDE⟩, ⟨⟨2, 0, 2⟩, ⟨2, 0, 0⟩, ⟨2, 0, -2⟩, .FOUNDATION_EDGE, 4, .SIDE⟩⟩,
       ⟨⟨4, 0, 0⟩, ⟨0, atan2 0 1 - atan2 (-1) 0, 0⟩, 1, ⟨⟨2, 0, 2⟩, ⟨2, 0, 0⟩, ⟨2, 0, -2⟩, "a", .FOUNDATION_EDGE, 4, .SIDE⟩, ⟨⟨2, 0, -2⟩, ⟨0, 0, -2⟩, ⟨-2, 0, -2⟩, .FOUNDATION_EDGE, 4, .SIDE⟩⟩,
       ⟨⟨4, 0, 0⟩, ⟨0, atan2 0 1 - atan2 0 1, 0⟩, 1, ⟨⟨2, 0, 2⟩, ⟨2, 0, 0⟩, ⟨2, 0, -2⟩, "a", .FOUNDATION_EDGE, 4, .SIDE⟩, ⟨⟨-2, 0, -2⟩, ⟨-2, 0, 0⟩, ⟨-2, 0, 2⟩, .FOUNDATION_EDGE, 4, .SIDE⟩⟩,
       ⟨⟨4, 0, -2.1⟩, ⟨0, atan2 1 0 - atan2 1 0, 0⟩, Real.sqrt 5.41, ⟨⟨6, 0, -0.1⟩, ⟨4, 0, -0.1⟩, ⟨2, 0, -0.1⟩, "b", .FOUNDATION_EDGE, 4, .SIDE⟩, ⟨⟨-2, 0, 2⟩, ⟨0, 0, 2⟩, ⟨2, 0, 2⟩, .FOUNDATION_EDGE, 4, .SIDE⟩⟩,
       ⟨⟨4, 0, -2.1⟩, ⟨0, atan2 1 0 - atan2 0 (-1), 0⟩, Real.sqrt 5.41, ⟨⟨6, 0, -0.1⟩, ⟨4, 0, -0.1⟩, ⟨2, 0, -0.1⟩, "b", .FOUNDATION_EDGE, 4, .SIDE⟩, ⟨⟨2, 0, 2⟩, ⟨2, 0, 0⟩, ⟨2, 0, -2⟩, .FOUNDATION_EDGE, 4, .SIDE⟩⟩,
       ⟨⟨4, 0, -2.1⟩, ⟨0, atan2 1 0 - atan2 (-1) 0, 0⟩, Real.sqrt 5.41, ⟨⟨6, 0, -0.1⟩, ⟨4, 0, -0.1⟩, ⟨2, 0, -0.1⟩, "b", .FOUNDATION_EDGE, 4, .SIDE⟩, ⟨⟨2, 0, -2⟩, ⟨0, 0, -2⟩, ⟨-2, 0, -2⟩, .FOUNDATION_EDGE, 4, .SIDE⟩⟩,
       ⟨⟨4, 0, -2.1⟩, ⟨0, atan2 1 0 - atan2 0 1, 0⟩, Real.sqrt 5.41, ⟨⟨6, 0, -0.1⟩, ⟨4, 0, -0.1⟩, ⟨2, 0, -0.1⟩, "b", .FOUNDATION_EDGE, 4, .SIDE⟩, ⟨⟨-2, 0, -2⟩, ⟨-2, 0, 0⟩, ⟨-2, 0, 2⟩, .FOUNDATION_EDGE, 4, .SIDE⟩⟩,
       ⟨⟨0, 0, 1.9⟩, ⟨0, atan2 0 (-1) - atan2 1 0, 0⟩, Real.sqrt 12.61, ⟨⟨2, 0, -0.1⟩, ⟨2, 0, 1.9⟩, ⟨2, 0, 3.9⟩, "b", .FOUNDATION_EDGE, 4, .SIDE⟩, ⟨⟨-2, 0, 2⟩, ⟨0, 0, 2⟩, ⟨2, 0, 2⟩, .FOUNDATION_EDGE, 4, .SIDE⟩⟩,
       ⟨⟨0, 0, 1.9⟩, ⟨0, atan2 0 (-1) - atan2 0 (-1), 0⟩, Real.sqrt 12.61, ⟨⟨2, 0, -0.1⟩, ⟨2, 0, 1.9⟩, ⟨2, 0, 3.9⟩, "b", .FOUNDATION_EDGE, 4, .SIDE⟩, ⟨⟨2, 0, 2⟩, ⟨2, 0, 0⟩, ⟨2, 0, -2⟩, .FOUNDATION_EDGE, 4, .SIDE⟩⟩,
       ⟨⟨0, 0, 1.9⟩, ⟨0, atan2 0 (-1) - atan2 (-1) 0, 0⟩, Real.sqrt 12.61, ⟨⟨2, 0, -0.1⟩, ⟨2, 0, 1.9⟩, ⟨2, 0, 3.9⟩, "b", .FOUNDATION_EDGE, 4, .SIDE⟩, ⟨⟨2, 0, -2⟩, ⟨0, 0, -2⟩, ⟨-2, 0, -2⟩, .FOUNDATION_EDGE, 4, .SIDE⟩⟩,
       ⟨⟨0, 0, 1.9⟩, ⟨0, atan2 0 (-1) - atan2 0 1, 0⟩, Real.sqrt 12.61, ⟨⟨2, 0, -0.1⟩, ⟨2, 0, 1.9⟩, ⟨2, 0, 3.9⟩, "b", .FOUNDATION_EDGE, 4, .SIDE⟩, ⟨⟨-2, 0, -2⟩, ⟨-2, 0, 0⟩, ⟨-2, 0, 2⟩, .FOUNDATION_EDGE, 4, .SIDE⟩⟩] := by
  have dA : dist3 (⟨4, 0, 0⟩ : Vec3) (⟨3, 0, 0⟩ : Vec3) = 1 :=
    dist3_eval (by norm_num) (by norm_num)
  have dB3 : dist3 (⟨4, 0, -2.1⟩ : Vec3) (⟨3, 0, 0⟩ : Vec3) = Real.sqrt 5.41 := by
    rw [dist3]
    norm_num
  have dB4 : dist3 (⟨0, 0, 1.9⟩ : Vec3) (⟨3, 0, 0⟩ : Vec3) = Real.sqrt 12.61 := by
    rw [dist3]
    norm_num
  simp only [candList, localEdges_square, List.flatMap_cons, List.flatMap_nil,
    List.filterMap_cons, List.filterMap_nil,
    transform_C3_A2_1, transform_C3_A2_2, transform_C3_A2_3, transform_C3_A2_4,
    transform_C3_B3_1, transform_C3_B3_2, transform_C3_B3_3, transform_C3_B3_4,
    transform_C3_B4_1, transform_C3_B4_2, transform_C3_B4_3, transform_C3_B4_4,
    List.append_nil, List.cons_append, List.nil_append, dA, dB3, dB4]
  norm_num

theorem pick_C3 :
    pickBest
      [⟨⟨4, 0, 0⟩, ⟨0, atan2 0 1 - atan2 1 0, 0⟩, 1, ⟨⟨2, 0, 2⟩, ⟨2, 0, 0⟩, ⟨2, 0, -2⟩, "a", .FOUNDATION_EDGE, 4, .SIDE⟩, ⟨⟨-2, 0, 2⟩, ⟨0, 0, 2⟩, ⟨2, 0, 2⟩, .FOUNDATION_EDGE, 4, .SIDE⟩⟩,
       ⟨⟨4, 0, 0⟩, ⟨0, atan2 0 1 - atan2 0 (-1), 0⟩, 1, ⟨⟨2, 0, 2⟩, ⟨2, 0, 0⟩, ⟨2, 0, -2⟩, "a", .FOUNDATION_EDGE, 4, .SIDE⟩, ⟨⟨2, 0, 2⟩, ⟨2, 0, 0⟩, ⟨2, 0, -2⟩, .FOUNDATION_EDGE, 4, .SIDE⟩⟩,
       ⟨⟨4, 0, 0⟩, ⟨0, atan2 0 1 - atan2 (-1) 0, 0⟩, 1, ⟨⟨2, 0, 2⟩, ⟨2, 0, 0⟩, ⟨2, 0, -2⟩, "a", .FOUNDATION_EDGE, 4, .SIDE⟩, ⟨⟨2, 0, -2⟩, ⟨0, 0, -2⟩, ⟨-2, 0, -2⟩, .FOUNDATION_EDGE, 4, .SIDE⟩⟩,
       ⟨⟨4, 0, 0⟩, ⟨0, atan2 0 1 - atan2 0 1, 0⟩, 1, ⟨⟨2, 0, 2⟩, ⟨2, 0, 0⟩, ⟨2, 0, -2⟩, "a", .FOUNDATION_EDGE, 4, .SIDE⟩, ⟨⟨-2, 0, -2⟩, ⟨-2, 0, 0⟩, ⟨-2, 0, 2⟩, .FOUNDATION_EDGE, 4, .SIDE⟩⟩,
       ⟨⟨4, 0, -2.1⟩, ⟨0, atan2 1 0 - atan2 1 0, 0⟩, Real.sqrt 5.41, ⟨⟨6, 0, -0.1⟩, ⟨4, 0, -0.1⟩, ⟨2, 0, -0.1⟩, "b", .FOUNDATION_EDGE, 4, .SIDE⟩, ⟨⟨-2, 0, 2⟩, ⟨0, 0, 2⟩, ⟨2, 0, 2⟩, .FOUNDATION_EDGE, 4, .SIDE⟩⟩,
       ⟨⟨4, 0, -2.1⟩, ⟨0, atan2 1 0 - atan2 0 (-1), 0⟩, Real.sqrt 5.41, ⟨⟨6, 0, -0.1⟩, ⟨4, 0, -0.1⟩, ⟨2, 0, -0.1⟩, "b", .FOUNDATION_EDGE, 4, .SIDE⟩, ⟨⟨2, 0, 2⟩, ⟨2, 0, 0⟩, ⟨2, 0, -2⟩, .FOUNDATION_EDGE, 4, .SIDE⟩⟩,
       ⟨⟨4, 0, -2.1⟩, ⟨0, atan2 1 0 - atan2 (-1) 0, 0⟩, Real.sqrt 5.41, ⟨⟨6, 0, -0.1⟩, ⟨4, 0, -0.1⟩, ⟨2, 0, -0.1⟩, "b", .FOUNDATION_EDGE, 4, .SIDE⟩, ⟨⟨2, 0, -2⟩, ⟨0, 0, -2⟩, ⟨-2, 0, -2⟩, .FOUNDATION_EDGE, 4, .SIDE⟩⟩,
       ⟨⟨4, 0, -2.1⟩, ⟨0, atan2 1 0 - atan2 0 1, 0⟩, Real.sqrt 5.41, ⟨⟨6, 0, -0.1⟩, ⟨4, 0, -0.1⟩, ⟨2, 0, -0.1⟩, "b", .FOUNDATION_EDGE, 4, .SIDE⟩, ⟨⟨-2, 0, -2⟩, ⟨-2, 0, 0⟩, ⟨-2, 0, 2⟩, .FOUNDATION_EDGE, 4, .SIDE⟩⟩,
       ⟨⟨0, 0, 1.9⟩, ⟨0, atan2 0 (-1) - atan2 1 0, 0⟩, Real.sqrt 12.61, ⟨⟨2, 0, -0.1⟩, ⟨2, 0, 1.9⟩, ⟨2, 0, 3.9⟩, "b", .FOUNDATION_EDGE, 4, .SIDE⟩, ⟨⟨-2, 0, 2⟩, ⟨0, 0, 2⟩, ⟨2, 0, 2⟩, .FOUNDATION_EDGE, 4, .SIDE⟩⟩,
       ⟨⟨0, 0, 1.9⟩, ⟨0, atan2 0 (-1) - atan2 0 (-1), 0⟩, Real.sqrt 12.61, ⟨⟨2, 0, -0.1⟩, ⟨2, 0, 1.9⟩, ⟨2, 0, 3.9⟩, "b", .FOUNDATION_EDGE, 4, .SIDE⟩, ⟨⟨2, 0, 2⟩, ⟨2, 0, 0⟩, ⟨2, 0, -2⟩, .FOUNDATION_EDGE, 4, .SIDE⟩⟩,
       ⟨⟨0, 0, 1.9⟩, ⟨0, atan2 0 (-1) - atan2 (-1) 0, 0⟩, Real.sqrt 12.61, ⟨⟨2, 0, -0.1⟩, ⟨2, 0, 1.9⟩, ⟨2, 0, 3.9⟩, "b", .FOUNDATION_EDGE, 4, .SIDE⟩, ⟨⟨2, 0, -2⟩, ⟨0, 0, -2⟩, ⟨-2, 0, -2⟩, .FOUNDATION_EDGE, 4, .SIDE⟩⟩,
       ⟨⟨0, 0, 1.9⟩, ⟨0, atan2 0 (-1) - atan2 0 1, 0⟩, Real.sqrt 12.61, ⟨⟨2, 0, -0.1⟩, ⟨2, 0, 1.9⟩, ⟨2, 0, 3.9⟩, "b", .FOUNDATION_EDGE, 4, .SIDE⟩, ⟨⟨-2, 0, -2⟩, ⟨-2, 0, 0⟩, ⟨-2, 0, 2⟩, .FOUNDATION_EDGE, 4, .SIDE⟩⟩] =
      some ⟨⟨4, 0, 0⟩, ⟨0, atan2 0 1 - atan2 1 0, 0⟩, 1, ⟨⟨2, 0, 2⟩, ⟨2, 0, 0⟩, ⟨2, 0, -2⟩, "a", .FOUNDATION_EDGE, 4, .SIDE⟩, ⟨⟨-2, 0, 2⟩, ⟨0, 0, 2⟩, ⟨2, 0, 2⟩, .FOUNDATION_EDGE, 4, .SIDE⟩⟩ := by
  have hn1 : ¬((1:ℝ) < 1) := lt_irrefl 1
  have hs3 : (1:ℝ) ≤ Real.sqrt 5.41 := by
    rw [show (1:ℝ) = Real.sqrt 1 from Real.sqrt_one.symm]
    exact Real.sqrt_le_sqrt (by norm_num)
  have hs4 : (1:ℝ) ≤ Real.sqrt 12.61 := by
    rw [show (1:ℝ) = Real.sqrt 1 from Real.sqrt_one.symm]
    exact Real.sqrt_le_sqrt (by norm_num)
  have hn2 : ¬(Real.sqrt 5.41 < 1) := not_lt.mpr hs3
  have hn3 : ¬(Real.sqrt 12.61 < 1) := not_lt.mpr hs4
  simp only [pickBest, List.foldl_cons, List.foldl_nil, if_neg hn1, if_neg hn2, if_neg hn3]

theorem resolve_C3 :
    snapResolve ⟨3, 0, 0⟩ [bldgA, bldgB] SQUARE_FOUNDATION_DEF .SQUARE_FOUNDATION 0 =
      some ⟨⟨4, 0, 0⟩, ⟨0, atan2 0 1 - atan2 1 0, 0⟩, true, some 0⟩ := by
  have hcond : SQUARE_FOUNDATION_DEF.usesEdgeSockets = true ∧
      ¬isWallLike BuildingType.SQUARE_FOUNDATION := ⟨rfl, by simp [isWallLike]⟩
  simp only [snapResolve, if_pos hcond, collect_AB, filter_C3, candList_C3, pick_C3]

theorem fc_C3 : foundationCheck [bldgA, bldgB] ⟨4, 0, 0⟩ = some false := by
  have hregA : BuildingRegistry bldgA.type = some SQUARE_FOUNDATION_DEF := rfl
  have hregB : BuildingRegistry bldgB.type = some SQUARE_FOUNDATION_DEF := rfl
  have hcond : SQUARE_FOUNDATION_DEF.usesEdgeSockets = true ∧
      SQUARE_FOUNDATION_DEF.category = BuildingCategory.foundation := ⟨rfl, rfl⟩
  have hndA : ¬dist3 bldgA.position (⟨4, 0, 0⟩ : Vec3) < 2.0 := by
    have h4 : dist3 (⟨0, 0, 0⟩ : Vec3) (⟨4, 0, 0⟩ : Vec3) = 4 :=
      dist3_eval (by norm_num) (by norm_num)
    rw [show bldgA.position = (⟨0, 0, 0⟩ : Vec3) from rfl, h4]
    norm_num
  have hdB : dist3 bldgB.position (⟨4, 0, 0⟩ : Vec3) < 2.0 := by
    have h19 : dist3 (⟨4, 0, 1.9⟩ : Vec3) (⟨4, 0, 0⟩ : Vec3) = 1.9 :=
      dist3_eval (by norm_num) (by norm_num)
    rw [show bldgB.position = (⟨4, 0, 1.9⟩ : Vec3) from rfl, h19]
    norm_num
  simp only [foundationCheck, hregA, hregB, if_pos hcond, if_neg hndA, if_pos hdB]

theorem validate_C3 :
    validate [bldgA, bldgB] SQUARE_FOUNDATION_DEF true ⟨4, 0, 0⟩ = some false := by
  have hcond : SQUARE_FOUNDATION_DEF.usesEdgeSockets = true ∧
      SQUARE_FOUNDATION_DEF.category = BuildingCategory.foundation := ⟨rfl, rfl⟩
  have hfc : (if SQUARE_FOUNDATION_DEF.usesEdgeSockets = true ∧
      SQUARE_FOUNDATION_DEF.category = BuildingCategory.foundation
      then foundationCheck [bldgA, bldgB] ⟨4, 0, 0⟩ else some true) = some false := by
    rw [if_pos hcond, fc_C3]
  rw [validate_snapped_eq [bldgA, bldgB] SQUARE_FOUNDATION_DEF ⟨4, 0, 0⟩ hfc]
  simp

/-- Full evaluation of the two-square scenario: the placement is
edge-resolved onto A's +X edge at `(4, 0, 0)` but rejected because B's
center `(4, 0, 1.9)` is within `2.0` of it. -/
theorem calcSnap_C3 :
    calculateSnap (some ⟨3, 0, 0⟩) [bldgA, bldgB] .SQUARE_FOUNDATION 0 =
      some ⟨⟨4, 0, 0⟩, ⟨0, -(π / 2), 0⟩, false, some 0⟩ := by
  have hyaw : atan2 0 1 - atan2 1 0 = -(π / 2) := by
    rw [atan2_zero_one, atan2_one_zero]
    ring
  simp only [calculateSnap, BuildingRegistry, resolve_C3, validate_C3, hyaw]


-- ===========================================================================
-- Concrete evaluation: the empty-scene (grid fallback) path
-- ===========================================================================

theorem pointOrGrid_empty (p : Vec3) (d : BuildingDef) (t : BuildingType) (rot : ℝ) :
    pointOrGrid p [] d t rot = gridFallback p d rot := rfl

theorem resolve_empty (p : Vec3) (d : BuildingDef) (t : BuildingType) (rot : ℝ) :
    snapResolve p [] d t rot = some (gridFallback p d rot) := by
  by_cases hc : d.usesEdgeSockets = true ∧ ¬isWallLike t
  · simp only [snapResolve]
    rw [if_pos hc]
    rfl
  · simp only [snapResolve]
    rw [if_neg hc]
    rfl

theorem validate_empty (d : BuildingDef) (snapped : Bool) (pos : Vec3) :
    validate [] d snapped pos =
      some (if snapped = false ∧ d.category = BuildingCategory.roof then false else true) := by
  simp only [validate, show foundationCheck [] pos = some true from rfl,
    show legacyCheck d.usesEdgeSockets [] pos = some true from rfl, ite_self]
  by_cases hr : snapped = false ∧ d.category = BuildingCategory.roof
  · rw [if_pos hr]
    simp
  · rw [if_neg hr]
    simp [dupCheck]

theorem calcSnap_empty (p : Vec3) (rot : ℝ) (t : BuildingType) (d : BuildingDef)
    (h : BuildingRegistry t = some d) :
    calculateSnap (some p) [] t rot =
      some ⟨(gridFallback p d rot).position, (gridFallback p d rot).rotation,
        if d.category = BuildingCategory.roof then false else true, none⟩ := by
  simp only [calculateSnap, h, resolve_empty p d t rot]
  rw [show (gridFallback p d rot).snapped = false from rfl]
  rw [validate_empty]
  simp only [show (gridFallback p d rot).socketWorldY = none from rfl]
  norm_num


-- ===========================================================================
-- Claim theorems
-- ===========================================================================

/-- C1: For every target world edge and every pending local edge whose
lengths match within the `0.01` tolerance, the edge matcher's transform has
yaw equal to the angle of the negated target direction minus the angle of
the pending direction, its translation puts the rotated pending start
exactly on the target end, and the pair is accepted as a candidate if and
only if the transformed start, center and end land within the `0.05`
tolerance of the target end, center and start respectively; otherwise the
pair yields no candidate. -/
theorem C1_edge_transform (t : EdgeSocket) (g : LocalEdgeSocket)
    (hlen : |g.edgeLength - t.edgeLength| ≤ 0.01) :
    (calculateEdgeSnapTransform t g = none ∨
      calculateEdgeSnapTransform t g =
        some ⟨vsub t.«end» (rotYv (edgeSnapYaw t g) g.start), ⟨0, edgeSnapYaw t g, 0⟩⟩) ∧
    (calculateEdgeSnapTransform t g =
        some ⟨vsub t.«end» (rotYv (edgeSnapYaw t g) g.start), ⟨0, edgeSnapYaw t g, 0⟩⟩ ↔
      dist3 (vadd (rotYv (edgeSnapYaw t g) g.start)
          (vsub t.«end» (rotYv (edgeSnapYaw t g) g.start))) t.«end» ≤ 0.05 ∧
      dist3 (vadd (rotYv (edgeSnapYaw t g) g.center)
          (vsub t.«end» (rotYv (edgeSnapYaw t g) g.start))) t.center ≤ 0.05 ∧
      dist3 (vadd (rotYv (edgeSnapYaw t g) g.«end»)
          (vsub t.«end» (rotYv (edgeSnapYaw t g) g.start))) t.start ≤ 0.05) := by
  simp only [calculateEdgeSnapTransform]
  by_cases hc : dist3 (vadd (rotYv (edgeSnapYaw t g) g.start)
      (vsub t.«end» (rotYv (edgeSnapYaw t g) g.start))) t.«end» > 0.05 ∨
    dist3 (vadd (rotYv (edgeSnapYaw t g) g.center)
      (vsub t.«end» (rotYv (edgeSnapYaw t g) g.start))) t.center > 0.05 ∨
    dist3 (vadd (rotYv (edgeSnapYaw t g) g.«end»)
      (vsub t.«end» (rotYv (edgeSnapYaw t g) g.start))) t.start > 0.05
  · rw [if_pos hc]
    refine ⟨Or.inl rfl, ?_, ?_⟩
    · intro h
      exact absurd h (by simp)
    · intro h
      exact absurd hc (by push_neg; exact h)
  · rw [if_neg hc]
    push_neg at hc
    exact ⟨Or.inr rfl, fun _ => hc, fun _ => rfl⟩

/-- Witness for C1 at the square's world +Z edge and the square's first
local edge. -/
theorem C1_edge_transform_witness :
    |(⟨⟨-2, 0, 2⟩, ⟨0, 0, 2⟩, ⟨2, 0, 2⟩, .FOUNDATION_EDGE, 4, .SIDE⟩ : LocalEdgeSocket).edgeLength - (⟨⟨-2, 0, 2⟩, ⟨0, 0, 2⟩, ⟨2, 0, 2⟩, "a", .FOUNDATION_EDGE, 4, .SIDE⟩ : EdgeSocket).edgeLength| ≤ 0.01 ∧
    (calculateEdgeSnapTransform ⟨⟨-2, 0, 2⟩, ⟨0, 0, 2⟩, ⟨2, 0, 2⟩, "a", .FOUNDATION_EDGE, 4, .SIDE⟩ ⟨⟨-2, 0, 2⟩, ⟨0, 0, 2⟩, ⟨2, 0, 2⟩, .FOUNDATION_EDGE, 4, .SIDE⟩ = none ∨
      calculateEdgeSnapTransform ⟨⟨-2, 0, 2⟩, ⟨0, 0, 2⟩, ⟨2, 0, 2⟩, "a", .FOUNDATION_EDGE, 4, .SIDE⟩ ⟨⟨-2, 0, 2⟩, ⟨0, 0, 2⟩, ⟨2, 0, 2⟩, .FOUNDATION_EDGE, 4, .SIDE⟩ =
        some ⟨vsub (⟨⟨-2, 0, 2⟩, ⟨0, 0, 2⟩, ⟨2, 0, 2⟩, "a", .FOUNDATION_EDGE, 4, .SIDE⟩ : EdgeSocket).«end»
            (rotYv (edgeSnapYaw ⟨⟨-2, 0, 2⟩, ⟨0, 0, 2⟩, ⟨2, 0, 2⟩, "a", .FOUNDATION_EDGE, 4, .SIDE⟩ ⟨⟨-2, 0, 2⟩, ⟨0, 0, 2⟩, ⟨2, 0, 2⟩, .FOUNDATION_EDGE, 4, .SIDE⟩) (⟨⟨-2, 0, 2⟩, ⟨0, 0, 2⟩, ⟨2, 0, 2⟩, .FOUNDATION_EDGE, 4, .SIDE⟩ : LocalEdgeSocket).start),
          ⟨0, edgeSnapYaw ⟨⟨-2, 0, 2⟩, ⟨0, 0, 2⟩, ⟨2, 0, 2⟩, "a", .FOUNDATION_EDGE, 4, .SIDE⟩ ⟨⟨-2, 0, 2⟩, ⟨0, 0, 2⟩, ⟨2, 0, 2⟩, .FOUNDATION_EDGE, 4, .SIDE⟩, 0⟩⟩) :=
  ⟨by norm_num, (C1_edge_transform ⟨⟨-2, 0, 2⟩, ⟨0, 0, 2⟩, ⟨2, 0, 2⟩, "a", .FOUNDATION_EDGE, 4, .SIDE⟩ ⟨⟨-2, 0, 2⟩, ⟨0, 0, 2⟩, ⟨2, 0, 2⟩, .FOUNDATION_EDGE, 4, .SIDE⟩ (by norm_num)).1⟩

/-- C2: when the edge matcher has at least one validated candidate, the
resolved placement is one of the candidates and no candidate's
piece-center distance to the cursor is strictly smaller. -/
theorem C2_closest_candidate (p : Vec3) (buildings : List BuildingData)
    (activeType : BuildingType) (activeDef : BuildingDef) (rot : ℝ)
    (allEdges : List EdgeSocket) (cands : List EdgeSnapCandidate)
    (hreg : BuildingRegistry activeType = some activeDef)
    (hue : activeDef.usesEdgeSockets = true)
    (hwl : ¬isWallLike activeType)
    (hcollect : collectTargetEdges buildings = some allEdges)
    (hcands : candList (filterTargets p buildings allEdges)
      (getLocalEdgeSockets activeType) p = cands)
    (hne : cands ≠ []) :
    ∃ st c, snapResolve p buildings activeDef activeType rot = some st ∧
      c ∈ cands ∧ st.position = c.position ∧ st.rotation = c.rotation ∧ st.snapped = true ∧
      (∀ c' ∈ cands, ¬c'.distToCursor < c.distToCursor) ∧
      ∀ res, calculateSnap (some p) buildings activeType rot = some res →
        res.position = c.position ∧ res.rotation = c.rotation := by
  obtain ⟨c, hpick, hmem, hmin⟩ := pickBest_spec hne
  have hst : snapResolve p buildings activeDef activeType rot =
      some ⟨c.position, c.rotation, true, some c.targetEdge.center.y⟩ := by
    simp only [snapResolve]
    rw [if_pos ⟨hue, hwl⟩]
    simp only [hcollect, hcands, hpick]
  refine ⟨_, c, hst, hmem, rfl, rfl, rfl, hmin, ?_⟩
  intro res hres
  simp only [calculateSnap, hreg, hst] at hres
  rcases hval : validate buildings activeDef true c.position with _ | v
  · rw [hval] at hres
    exact absurd hres (by simp)
  · rw [hval] at hres
    have heq := Option.some.inj hres
    rw [← heq]
    exact ⟨rfl, rfl⟩


/-- Witness for C2 at the single-square scenario, where the candidate list
has four validated entries. -/
theorem C2_closest_candidate_witness :
    BuildingRegistry .SQUARE_FOUNDATION = some SQUARE_FOUNDATION_DEF ∧
    SQUARE_FOUNDATION_DEF.usesEdgeSockets = true ∧
    ¬isWallLike .SQUARE_FOUNDATION ∧
    collectTargetEdges [bldgA] = some [⟨⟨-2, 0, 2⟩, ⟨0, 0, 2⟩, ⟨2, 0, 2⟩, "a", .FOUNDATION_EDGE, 4, .SIDE⟩, ⟨⟨2, 0, 2⟩, ⟨2, 0, 0⟩, ⟨2, 0, -2⟩, "a", .FOUNDATION_EDGE, 4, .SIDE⟩, ⟨⟨2, 0, -2⟩, ⟨0, 0, -2⟩, ⟨-2, 0, -2⟩, "a", .FOUNDATION_EDGE, 4, .SIDE⟩, ⟨⟨-2, 0, -2⟩, ⟨-2, 0, 0⟩, ⟨-2, 0, 2⟩, "a", .FOUNDATION_EDGE, 4, .SIDE⟩] ∧
    candList (filterTargets ⟨0, 0, 4.5⟩ [bldgA] [⟨⟨-2, 0, 2⟩, ⟨0, 0, 2⟩, ⟨2, 0, 2⟩, "a", .FOUNDATION_EDGE, 4, .SIDE⟩, ⟨⟨2, 0, 2⟩, ⟨2, 0, 0⟩, ⟨2, 0, -2⟩, "a", .FOUNDATION_EDGE, 4, .SIDE⟩, ⟨⟨2, 0, -2⟩, ⟨0, 0, -2⟩, ⟨-2, 0, -2⟩, "a", .FOUNDATION_EDGE, 4, .SIDE⟩, ⟨⟨-2, 0, -2⟩, ⟨-2, 0, 0⟩, ⟨-2, 0, 2⟩, "a", .FOUNDATION_EDGE, 4, .SIDE⟩])
      (getLocalEdgeSockets .SQUARE_FOUNDATION) ⟨0, 0, 4.5⟩ =
      [⟨⟨0, 0, 4⟩, ⟨0, atan2 (-1) 0 - atan2 1 0, 0⟩, 0.5, ⟨⟨-2, 0, 2⟩, ⟨0, 0, 2⟩, ⟨2, 0, 2⟩, "a", .FOUNDATION_EDGE, 4, .SIDE⟩, ⟨⟨-2, 0, 2⟩, ⟨0, 0, 2⟩, ⟨2, 0, 2⟩, .FOUNDATION_EDGE, 4, .SIDE⟩⟩,
       ⟨⟨0, 0, 4⟩, ⟨0, atan2 (-1) 0 - atan2 0 (-1), 0⟩, 0.5, ⟨⟨-2, 0, 2⟩, ⟨0, 0, 2⟩, ⟨2, 0, 2⟩, "a", .FOUNDATION_EDGE, 4, .SIDE⟩, ⟨⟨2, 0, 2⟩, ⟨2, 0, 0⟩, ⟨2, 0, -2⟩, .FOUNDATION_EDGE, 4, .SIDE⟩⟩,
       ⟨⟨0, 0, 4⟩, ⟨0, atan2 (-1) 0 - atan2 (-1) 0, 0⟩, 0.5, ⟨⟨-2, 0, 2⟩, ⟨0, 0, 2⟩, ⟨2, 0, 2⟩, "a", .FOUNDATION_EDGE, 4, .SIDE⟩, ⟨⟨2, 0, -2⟩, ⟨0, 0, -2⟩, ⟨-2, 0, -2⟩, .FOUNDATION_EDGE, 4, .SIDE⟩⟩,
       ⟨⟨0, 0, 4⟩, ⟨0, atan2 (-1) 0 - atan2 0 1, 0⟩, 0.5, ⟨⟨-2, 0, 2⟩, ⟨0, 0, 2⟩, ⟨2, 0, 2⟩, "a", .FOUNDATION_EDGE, 4, .SIDE⟩, ⟨⟨-2, 0, -2⟩, ⟨-2, 0, 0⟩, ⟨-2, 0, 2⟩, .FOUNDATION_EDGE, 4, .SIDE⟩⟩] ∧
    ([⟨⟨0, 0, 4⟩, ⟨0, atan2 (-1) 0 - atan2 1 0, 0⟩, 0.5, ⟨⟨-2, 0, 2⟩, ⟨0, 0, 2⟩, ⟨2, 0, 2⟩, "a", .FOUNDATION_EDGE, 4, .SIDE⟩, ⟨⟨-2, 0, 2⟩, ⟨0, 0, 2⟩, ⟨2, 0, 2⟩, .FOUNDATION_EDGE, 4, .SIDE⟩⟩,
       ⟨⟨0, 0, 4⟩, ⟨0, atan2 (-1) 0 - atan2 0 (-1), 0⟩, 0.5, ⟨⟨-2, 0, 2⟩, ⟨0, 0, 2⟩, ⟨2, 0, 2⟩, "a", .FOUNDATION_EDGE, 4, .SIDE⟩, ⟨⟨2, 0, 2⟩, ⟨2, 0, 0⟩, ⟨2, 0, -2⟩, .FOUNDATION_EDGE, 4, .SIDE⟩⟩,
       ⟨⟨0, 0, 4⟩, ⟨0, atan2 (-1) 0 - atan2 (-1) 0, 0⟩, 0.5, ⟨⟨-2, 0, 2⟩, ⟨0, 0, 2⟩, ⟨2, 0, 2⟩, "a", .FOUNDATION_EDGE, 4, .SIDE⟩, ⟨⟨2, 0, -2⟩, ⟨0, 0, -2⟩, ⟨-2, 0, -2⟩, .FOUNDATION_EDGE, 4, .SIDE⟩⟩,
       ⟨⟨0, 0, 4⟩, ⟨0, atan2 (-1) 0 - atan2 0 1, 0⟩, 0.5, ⟨⟨-2, 0, 2⟩, ⟨0, 0, 2⟩, ⟨2, 0, 2⟩, "a", .FOUNDATION_EDGE, 4, .SIDE⟩, ⟨⟨-2, 0, -2⟩, ⟨-2, 0, 0⟩, ⟨-2, 0, 2⟩, .FOUNDATION_EDGE, 4, .SIDE⟩⟩] : List EdgeSnapCandidate) ≠ [] ∧
    ∃ st c, snapResolve ⟨0, 0, 4.5⟩ [bldgA] SQUARE_FOUNDATION_DEF .SQUARE_FOUNDATION 0 = some st ∧
      c ∈ ([⟨⟨0, 0, 4⟩, ⟨0, atan2 (-1) 0 - atan2 1 0, 0⟩, 0.5, ⟨⟨-2, 0, 2⟩, ⟨0, 0, 2⟩, ⟨2, 0, 2⟩, "a", .FOUNDATION_EDGE, 4, .SIDE⟩, ⟨⟨-2, 0, 2⟩, ⟨0, 0, 2⟩, ⟨2, 0, 2⟩, .FOUNDATION_EDGE, 4, .SIDE⟩⟩,
       ⟨⟨0, 0, 4⟩, ⟨0, atan2 (-1) 0 - atan2 0 (-1), 0⟩, 0.5, ⟨⟨-2, 0, 2⟩, ⟨0, 0, 2⟩, ⟨2, 0, 2⟩, "a", .FOUNDATION_EDGE, 4, .SIDE⟩, ⟨⟨2, 0, 2⟩, ⟨2, 0, 0⟩, ⟨2, 0, -2⟩, .FOUNDATION_EDGE, 4, .SIDE⟩⟩,
       ⟨⟨0, 0, 4⟩, ⟨0, atan2 (-1) 0 - atan2 (-1) 0, 0⟩, 0.5, ⟨⟨-2, 0, 2⟩, ⟨0, 0, 2⟩, ⟨2, 0, 2⟩, "a", .FOUNDATION_EDGE, 4, .SIDE⟩, ⟨⟨2, 0, -2⟩, ⟨0, 0, -2⟩, ⟨-2, 0, -2⟩, .FOUNDATION_EDGE, 4, .SIDE⟩⟩,
       ⟨⟨0, 0, 4⟩, ⟨0, atan2 (-1) 0 - atan2 0 1, 0⟩, 0.5, ⟨⟨-2, 0, 2⟩, ⟨0, 0, 2⟩, ⟨2, 0, 2⟩, "a", .FOUNDATION_EDGE, 4, .SIDE⟩, ⟨⟨-2, 0, -2⟩, ⟨-2, 0, 0⟩, ⟨-2, 0, 2⟩, .FOUNDATION_EDGE, 4, .SIDE⟩⟩] : List EdgeSnapCandidate) ∧
      st.position = c.position ∧ st.rotation = c.rotation ∧ st.snapped = true ∧
      (∀ c' ∈ ([⟨⟨0, 0, 4⟩, ⟨0, atan2 (-1) 0 - atan2 1 0, 0⟩, 0.5, ⟨⟨-2, 0, 2⟩, ⟨0, 0, 2⟩, ⟨2, 0, 2⟩, "a", .FOUNDATION_EDGE, 4, .SIDE⟩, ⟨⟨-2, 0, 2⟩, ⟨0, 0, 2⟩, ⟨2, 0, 2⟩, .FOUNDATION_EDGE, 4, .SIDE⟩⟩,
       ⟨⟨0, 0, 4⟩, ⟨0, atan2 (-1) 0 - atan2 0 (-1), 0⟩, 0.5, ⟨⟨-2, 0, 2⟩, ⟨0, 0, 2⟩, ⟨2, 0, 2⟩, "a", .FOUNDATION_EDGE, 4, .SIDE⟩, ⟨⟨2, 0, 2⟩, ⟨2, 0, 0⟩, ⟨2, 0, -2⟩, .FOUNDATION_EDGE, 4, .SIDE⟩⟩,
       ⟨⟨0, 0, 4⟩, ⟨0, atan2 (-1) 0 - atan2 (-1) 0, 0⟩, 0.5, ⟨⟨-2, 0, 2⟩, ⟨0, 0, 2⟩, ⟨2, 0, 2⟩, "a", .FOUNDATION_EDGE, 4, .SIDE⟩, ⟨⟨2, 0, -2⟩, ⟨0, 0, -2⟩, ⟨-2, 0, -2⟩, .FOUNDATION_EDGE, 4, .SIDE⟩⟩,
       ⟨⟨0, 0, 4⟩, ⟨0, atan2 (-1) 0 - atan2 0 1, 0⟩, 0.5, ⟨⟨-2, 0, 2⟩, ⟨0, 0, 2⟩, ⟨2, 0, 2⟩, "a", .FOUNDATION_EDGE, 4, .SIDE⟩, ⟨⟨-2, 0, -2⟩, ⟨-2, 0, 0⟩, ⟨-2, 0, 2⟩, .FOUNDATION_EDGE, 4, .SIDE⟩⟩] : List EdgeSnapCandidate), ¬c'.distToCursor < c.distToCursor) ∧
      ∀ res, calculateSnap (some ⟨0, 0, 4.5⟩) [bldgA] .SQUARE_FOUNDATION 0 = some res →
        res.position = c.position ∧ res.rotation = c.rotation := by
  have hcands : candList (filterTargets ⟨0, 0, 4.5⟩ [bldgA] [⟨⟨-2, 0, 2⟩, ⟨0, 0, 2⟩, ⟨2, 0, 2⟩, "a", .FOUNDATION_EDGE, 4, .SIDE⟩, ⟨⟨2, 0, 2⟩, ⟨2, 0, 0⟩, ⟨2, 0, -2⟩, "a", .FOUNDATION_EDGE, 4, .SIDE⟩, ⟨⟨2, 0, -2⟩, ⟨0, 0, -2⟩, ⟨-2, 0, -2⟩, "a", .FOUNDATION_EDGE, 4, .SIDE⟩, ⟨⟨-2, 0, -2⟩, ⟨-2, 0, 0⟩, ⟨-2, 0, 2⟩, "a", .FOUNDATION_EDGE, 4, .SIDE⟩])
      (getLocalEdgeSockets .SQUARE_FOUNDATION) ⟨0, 0, 4.5⟩ =
      [⟨⟨0, 0, 4⟩, ⟨0, atan2 (-1) 0 - atan2 1 0, 0⟩, 0.5, ⟨⟨-2, 0, 2⟩, ⟨0, 0, 2⟩, ⟨2, 0, 2⟩, "a", .FOUNDATION_EDGE, 4, .SIDE⟩, ⟨⟨-2, 0, 2⟩, ⟨0, 0, 2⟩, ⟨2, 0, 2⟩, .FOUNDATION_EDGE, 4, .SIDE⟩⟩,
       ⟨⟨0, 0, 4⟩, ⟨0, atan2 (-1) 0 - atan2 0 (-1), 0⟩, 0.5, ⟨⟨-2, 0, 2⟩, ⟨0, 0, 2⟩, ⟨2, 0, 2⟩, "a", .FOUNDATION_EDGE, 4, .SIDE⟩, ⟨⟨2, 0, 2⟩, ⟨2, 0, 0⟩, ⟨2, 0, -2⟩, .FOUNDATION_EDGE, 4, .SIDE⟩⟩,
       ⟨⟨0, 0, 4⟩, ⟨0, atan2 (-1) 0 - atan2 (-1) 0, 0⟩, 0.5, ⟨⟨-2, 0, 2⟩, ⟨0, 0, 2⟩, ⟨2, 0, 2⟩, "a", .FOUNDATION_EDGE, 4, .SIDE⟩, ⟨⟨2, 0, -2⟩, ⟨0, 0, -2⟩, ⟨-2, 0, -2⟩, .FOUNDATION_EDGE, 4, .SIDE⟩⟩,
       ⟨⟨0, 0, 4⟩, ⟨0, atan2 (-1) 0 - atan2 0 1, 0⟩, 0.5, ⟨⟨-2, 0, 2⟩, ⟨0, 0, 2⟩, ⟨2, 0, 2⟩, "a", .FOUNDATION_EDGE, 4, .SIDE⟩, ⟨⟨-2, 0, -2⟩, ⟨-2, 0, 0⟩, ⟨-2, 0, 2⟩, .FOUNDATION_EDGE, 4, .SIDE⟩⟩] := by
    rw [filter_C5]
    exact candList_C5
  exact ⟨rfl, rfl, by simp [isWallLike], collect_A, hcands, by simp,
    C2_closest_candidate ⟨0, 0, 4.5⟩ [bldgA] .SQUARE_FOUNDATION SQUARE_FOUNDATION_DEF 0
      _ _ rfl rfl (by simp [isWallLike]) collect_A hcands (by simp)⟩

/-- C3 counterexample: with the square A at the origin and the square B at
`(4, 0, 1.9)`, the cursor at `(3, 0, 0)` produces an edge-resolved
placement at `(4, 0, 0)` that is not an exact duplicate of any piece
(distances 4 and 1.9), yet the validator reports it invalid (B's center is
within the 2.0 foundation-separation threshold). -/
theorem C3_skip_overlap_cex :
    (∃ st, snapResolve ⟨3, 0, 0⟩ [bldgA, bldgB] SQUARE_FOUNDATION_DEF .SQUARE_FOUNDATION 0 =
        some st ∧ st.snapped = true ∧ st.position = ⟨4, 0, 0⟩) ∧
    (∀ b ∈ [bldgA, bldgB], ¬dist3 b.position (⟨4, 0, 0⟩ : Vec3) < 0.2) ∧
    calculateSnap (some ⟨3, 0, 0⟩) [bldgA, bldgB] .SQUARE_FOUNDATION 0 =
      some ⟨⟨4, 0, 0⟩, ⟨0, -(π / 2), 0⟩, false, some 0⟩ := by
  refine ⟨⟨_, resolve_C3, rfl, rfl⟩, ?_, calcSnap_C3⟩
  intro b hb
  rcases List.mem_cons.mp hb with rfl | hb2
  · have h4 : dist3 (⟨0, 0, 0⟩ : Vec3) (⟨4, 0, 0⟩ : Vec3) = 4 :=
      dist3_eval (by norm_num) (by norm_num)
    rw [show bldgA.position = (⟨0, 0, 0⟩ : Vec3) from rfl, h4]
    norm_num
  rcases List.mem_cons.mp hb2 with rfl | h0
  · have h19 : dist3 (⟨4, 0, 1.9⟩ : Vec3) (⟨4, 0, 0⟩ : Vec3) = 1.9 :=
      dist3_eval (by norm_num) (by norm_num)
    rw [show bldgB.position = (⟨4, 0, 1.9⟩ : Vec3) from rfl, h19]
    norm_num
  · exact absurd h0 (List.not_mem_nil _)

/-- C3 amended: for an edge/socket-resolved placement the validator skips
the grid-fallback checks and the roof rule, but it is valid iff the
placement is no exact duplicate (no piece center within `0.2`) and, when
the pending shape is an edge-socketed foundation-category shape,
additionally no edge-socketed foundation-category piece's center lies
within `2.0` of the resolved position. -/
theorem C3_skip_overlap_amended (p : Vec3) (buildings : List BuildingData)
    (activeType : BuildingType) (activeDef : BuildingDef) (rot : ℝ)
    (st : ResolveState) (res : SnapResult)
    (hreg : BuildingRegistry activeType = some activeDef)
    (hbreg : ∀ b ∈ buildings, ∃ bd, BuildingRegistry b.type = some bd)
    (hst : snapResolve p buildings activeDef activeType rot = some st)
    (hsnap : st.snapped = true)
    (hres : calculateSnap (some p) buildings activeType rot = some res) :
    res.position = st.position ∧
    (res.isValid = true ↔
      ((activeDef.usesEdgeSockets = true ∧ activeDef.category = BuildingCategory.foundation) →
        ∀ b ∈ buildings, ∀ bd, BuildingRegistry b.type = some bd →
          bd.usesEdgeSockets = true → bd.category = BuildingCategory.foundation →
          ¬dist3 b.position st.position < 2.0) ∧
      ∀ b ∈ buildings, ¬dist3 b.position st.position < 0.2) := by
  simp only [calculateSnap, hreg, hst, hsnap] at hres
  by_cases hc : activeDef.usesEdgeSockets = true ∧
      activeDef.category = BuildingCategory.foundation
  · obtain ⟨v1, hv1⟩ := foundationCheck_isSome st.position hbreg
    have hfc : (if activeDef.usesEdgeSockets = true ∧
        activeDef.category = BuildingCategory.foundation
        then foundationCheck buildings st.position else some true) = some v1 := by
      rw [if_pos hc, hv1]
    rw [validate_snapped_eq buildings activeDef st.position hfc] at hres
    have heq := Option.some.inj hres
    refine ⟨by rw [← heq], ?_⟩
    rw [← heq]
    cases v1 with
    | false =>
      simp only [show (false = true) = False by simp, if_false]
      constructor
      · intro hfalse
        exact absurd hfalse (by simp)
      · rintro ⟨hfound, -⟩
        have htrue : foundationCheck buildings st.position = some true :=
          (foundationCheck_true_iff st.position hbreg).mpr (hfound hc)
        rw [hv1] at htrue
        exact absurd (Option.some.inj htrue) (by simp)
    | true =>
      simp only [eq_self_iff_true, if_true]
      rw [dupCheck_true_iff]
      have hfound := (foundationCheck_true_iff st.position hbreg).mp hv1
      constructor
      · intro hd
        exact ⟨fun _ => hfound, hd⟩
      · rintro ⟨-, hd⟩
        exact hd
  · have hfc : (if activeDef.usesEdgeSockets = true ∧
        activeDef.category = BuildingCategory.foundation
        then foundationCheck buildings st.position else some true) = some true := by
      rw [if_neg hc]
    rw [validate_snapped_eq buildings activeDef st.position hfc] at hres
    have heq := Option.some.inj hres
    refine ⟨by rw [← heq], ?_⟩
    rw [← heq]
    simp only [eq_self_iff_true, if_true]
    rw [dupCheck_true_iff]
    constructor
    · intro hd
      exact ⟨fun hcc => absurd hcc hc, hd⟩
    · rintro ⟨-, hd⟩
      exact hd


/-- Witness for the amended C3 at the single-square scenario (snapped,
non-duplicate, valid). -/
theorem C3_skip_overlap_witness :
    BuildingRegistry .SQUARE_FOUNDATION = some SQUARE_FOUNDATION_DEF ∧
    (∀ b ∈ [bldgA], ∃ bd, BuildingRegistry b.type = some bd) ∧
    snapResolve ⟨0, 0, 4.5⟩ [bldgA] SQUARE_FOUNDATION_DEF .SQUARE_FOUNDATION 0 =
      some (⟨⟨0, 0, 4⟩, ⟨0, atan2 (-1) 0 - atan2 1 0, 0⟩, true, some 0⟩ : ResolveState) ∧
    ((⟨⟨0, 0, 4⟩, ⟨0, atan2 (-1) 0 - atan2 1 0, 0⟩, true, some 0⟩ : ResolveState)).snapped = true ∧
    calculateSnap (some ⟨0, 0, 4.5⟩) [bldgA] .SQUARE_FOUNDATION 0 = some (⟨⟨0, 0, 4⟩, ⟨0, -π, 0⟩, true, some 0⟩ : SnapResult) ∧
    (((⟨⟨0, 0, 4⟩, ⟨0, -π, 0⟩, true, some 0⟩ : SnapResult)).position = ((⟨⟨0, 0, 4⟩, ⟨0, atan2 (-1) 0 - atan2 1 0, 0⟩, true, some 0⟩ : ResolveState)).position ∧
      (((⟨⟨0, 0, 4⟩, ⟨0, -π, 0⟩, true, some 0⟩ : SnapResult)).isValid = true ↔
        ((SQUARE_FOUNDATION_DEF.usesEdgeSockets = true ∧
            SQUARE_FOUNDATION_DEF.category = BuildingCategory.foundation) →
          ∀ b ∈ [bldgA], ∀ bd, BuildingRegistry b.type = some bd →
            bd.usesEdgeSockets = true → bd.category = BuildingCategory.foundation →
            ¬dist3 b.position ((⟨⟨0, 0, 4⟩, ⟨0, atan2 (-1) 0 - atan2 1 0, 0⟩, true, some 0⟩ : ResolveState)).position < 2.0) ∧
        ∀ b ∈ [bldgA], ¬dist3 b.position ((⟨⟨0, 0, 4⟩, ⟨0, atan2 (-1) 0 - atan2 1 0, 0⟩, true, some 0⟩ : ResolveState)).position < 0.2)) := by
  have hbreg : ∀ b ∈ [bldgA], ∃ bd, BuildingRegistry b.type = some bd := by
    intro b hb
    rcases List.mem_cons.mp hb with rfl | h0
    · exact ⟨SQUARE_FOUNDATION_DEF, rfl⟩
    · exact absurd h0 (List.not_mem_nil _)
  exact ⟨rfl, hbreg, resolve_C5, rfl, calcSnap_C5,
    C3_skip_overlap_amended ⟨0, 0, 4.5⟩ [bldgA] .SQUARE_FOUNDATION SQUARE_FOUNDATION_DEF 0
      _ _ rfl hbreg resolve_C5 rfl calcSnap_C5⟩

/-- C4 counterexample: `CURVED_WALL`, `CURVED_HALF_WALL` and `STAIRS_2` are
members of the `BuildingType` enumeration with no registered definition,
and the registry lookup throws for them. -/
theorem C4_registry_cex :
    BuildingRegistry .CURVED_WALL = none ∧
    getBuildingDef .CURVED_WALL = Except.error "No building definition found for type" ∧
    getBuildingDef .CURVED_HALF_WALL = Except.error "No building definition found for type" ∧
    getBuildingDef .STAIRS_2 = Except.error "No building definition found for type" :=
  ⟨rfl, rfl, rfl, rfl⟩

/-- C4 amended: the registry lookup throws exactly for the three
unregistered kinds `CURVED_WALL`, `CURVED_HALF_WALL` and `STAIRS_2`, and
for every other kind it returns precisely the registered definition (it
fails iff the kind has no registered definition). -/
theorem C4_registry_amended (t : BuildingType) :
    ((∃ msg, getBuildingDef t = Except.error msg) ↔
      (t = .CURVED_WALL ∨ t = .CURVED_HALF_WALL ∨ t = .STAIRS_2)) ∧
    (∀ d, getBuildingDef t = Except.ok d ↔ BuildingRegistry t = some d) := by
  cases t <;> simp [getBuildingDef, BuildingRegistry]

/-- C5 counterexample: in the spec's concrete scenario the engine returns
isValid true and position `(0, 0, 4)` as claimed, but the yaw is `-π`, not
`0`. -/
theorem C5_scenario_cex :
    calculateSnap (some ⟨0, 0, 4.5⟩) [bldgA] .SQUARE_FOUNDATION 0 =
      some ⟨⟨0, 0, 4⟩, ⟨0, -π, 0⟩, true, some 0⟩ ∧ (-π : ℝ) ≠ 0 :=
  ⟨calcSnap_C5, neg_ne_zero.mpr Real.pi_ne_zero⟩

/-- C5 amended: one square foundation at the origin with yaw 0 and the
cursor at `(0, 0, UNIT_SIZE + 0.5)` yield isValid true, a resolved
position with X = 0, Y = 0 and Z equal to the unit size, and yaw `-π`
(a half turn, which is geometrically equivalent to yaw 0 for the 4-fold
symmetric square footprint, but not the number 0). -/
theorem C5_scenario_amended :
    ∃ res, calculateSnap (some ⟨0, 0, UNIT_SIZE + 0.5⟩) [bldgA] .SQUARE_FOUNDATION 0 =
        some res ∧
      res.isValid = true ∧ res.position = ⟨0, 0, UNIT_SIZE⟩ ∧
      res.rotation = ⟨0, -π, 0⟩ := by
  have h : calculateSnap (some ⟨0, 0, UNIT_SIZE + 0.5⟩) [bldgA] .SQUARE_FOUNDATION 0 =
      some ⟨⟨0, 0, 4⟩, ⟨0, -π, 0⟩, true, some 0⟩ := by
    rw [show (⟨0, 0, UNIT_SIZE + 0.5⟩ : Vec3) = ⟨0, 0, 4.5⟩ from by norm_num [UNIT_SIZE]]
    exact calcSnap_C5
  exact ⟨_, h, rfl, by norm_num [UNIT_SIZE], rfl⟩

/-- C6: with no placed pieces, the result for any registered shape kind and
any cursor point is the grid fallback, never a socket-resolved placement:
X and Z snapped to the half-offset `UNIT_SIZE` grid, Y zero, yaw quantized
to the registered rotation increment, and no reference height. -/
theorem C6_empty_grid_fallback (t : BuildingType) (d : BuildingDef) (p : Vec3) (rot : ℝ)
    (hreg : BuildingRegistry t = some d) :
    snapResolve p [] d t rot = some (gridFallback p d rot) ∧
    (gridFallback p d rot).snapped = false ∧
    ∃ res, calculateSnap (some p) [] t rot = some res ∧
      res.position = ⟨((round ((p.x - 2) / 4) : ℤ) : ℝ) * 4 + 2, 0,
        ((round ((p.z - 2) / 4) : ℤ) : ℝ) * 4 + 2⟩ ∧
      res.rotation = ⟨0, ((round (rot / d.rotationIncrement) : ℤ) : ℝ) * d.rotationIncrement, 0⟩ ∧
      res.socketWorldY = none := by
  refine ⟨resolve_empty p d t rot, rfl, _, calcSnap_empty p rot t d hreg, ?_, rfl, rfl⟩
  show (gridFallback p d rot).position = _
  rw [gridFallback]
  norm_num [UNIT_SIZE]

/-- Witness for C6 at a square foundation with cursor `(1, 0, -3)`. -/
theorem C6_empty_grid_fallback_witness :
    BuildingRegistry .SQUARE_FOUNDATION = some SQUARE_FOUNDATION_DEF ∧
    (snapResolve ⟨1, 0, -3⟩ [] SQUARE_FOUNDATION_DEF .SQUARE_FOUNDATION 0 =
        some (gridFallback ⟨1, 0, -3⟩ SQUARE_FOUNDATION_DEF 0) ∧
      (gridFallback ⟨1, 0, -3⟩ SQUARE_FOUNDATION_DEF 0).snapped = false ∧
      ∃ res, calculateSnap (some ⟨1, 0, -3⟩) [] .SQUARE_FOUNDATION 0 = some res ∧
        res.position = ⟨((round (((1:ℝ) - 2) / 4) : ℤ) : ℝ) * 4 + 2, 0,
          ((round (((-3:ℝ) - 2) / 4) : ℤ) : ℝ) * 4 + 2⟩ ∧
        res.rotation = ⟨0, ((round ((0:ℝ) / SQUARE_FOUNDATION_DEF.rotationIncrement) : ℤ) : ℝ) *
          SQUARE_FOUNDATION_DEF.rotationIncrement, 0⟩ ∧
        res.socketWorldY = none) :=
  ⟨rfl, C6_empty_grid_fallback .SQUARE_FOUNDATION SQUARE_FOUNDATION_DEF ⟨1, 0, -3⟩ 0 rfl⟩


/-- C7: for a roof-category shape, whenever no socket/edge match occurred
(the resolve state is unsnapped) the result is invalid; in particular with
an empty placed-piece list the result is invalid for every cursor point
and manual rotation. -/
theorem C7_roof_requires_snap (t : BuildingType) (d : BuildingDef)
    (hreg : BuildingRegistry t = some d) (hroof : d.category = BuildingCategory.roof) :
    (∀ (buildings : List BuildingData) (p : Vec3) (rot : ℝ) (st : ResolveState)
        (res : SnapResult),
      snapResolve p buildings d t rot = some st → st.snapped = false →
      calculateSnap (some p) buildings t rot = some res → res.isValid = false) ∧
    (∀ (p : Vec3) (rot : ℝ) (res : SnapResult),
      calculateSnap (some p) [] t rot = some res → res.isValid = false) := by
  constructor
  · intro buildings p rot st res hst hsnap hres
    simp only [calculateSnap, hreg, hst, hsnap] at hres
    rcases hval : validate buildings d false st.position with _ | v
    · rw [hval] at hres
      exact absurd hres (by simp)
    · rw [hval] at hres
      have hv := validate_roof_unsnapped hroof hval
      have heq := Option.some.inj hres
      rw [← heq, hv]
  · intro p rot res hres
    rw [calcSnap_empty p rot t d hreg] at hres
    have heq := Option.some.inj hres
    rw [← heq]
    simp [hroof]

/-- Witness for C7 at the square roof with an empty scene. -/
theorem C7_roof_requires_snap_witness :
    BuildingRegistry .SQUARE_ROOF = some SQUARE_ROOF_DEF ∧
    SQUARE_ROOF_DEF.category = BuildingCategory.roof ∧
    ∃ res, calculateSnap (some ⟨0, 0, 0⟩) [] .SQUARE_ROOF 0 = some res ∧
      res.isValid = false := by
  refine ⟨rfl, rfl, _, calcSnap_empty ⟨0, 0, 0⟩ 0 .SQUARE_ROOF SQUARE_ROOF_DEF rfl, ?_⟩
  exact (C7_roof_requires_snap .SQUARE_ROOF SQUARE_ROOF_DEF rfl rfl).2 ⟨0, 0, 0⟩ 0 _
    (calcSnap_empty ⟨0, 0, 0⟩ 0 .SQUARE_ROOF SQUARE_ROOF_DEF rfl)

/-- C8: for a placed piece with yaw-only rotation, every world edge
inverse-transforms (subtract the position, rotate by the negated yaw) back
onto one of the piece's local edges, exactly recovering start, center and
end. -/
theorem C8_roundtrip (b : BuildingData) (hx : b.rotation.x = 0) (hz : b.rotation.z = 0) :
    ∀ e ∈ getWorldEdgeSockets b, ∃ le ∈ getLocalEdgeSockets b.type,
      rotYv (-b.rotation.y) (vsub e.start b.position) = le.start ∧
      rotYv (-b.rotation.y) (vsub e.center b.position) = le.center ∧
      rotYv (-b.rotation.y) (vsub e.«end» b.position) = le.«end» := by
  intro e he
  rw [getWorldEdgeSockets] at he
  obtain ⟨le, hle, rfl⟩ := List.mem_map.mp he
  have happ : ∀ v, applyEuler b.rotation v = rotYv b.rotation.y v := by
    intro v
    rw [applyEuler, hx, hz, rotZv_zero, rotXv_zero]
  have hcancel : ∀ a : Vec3, vsub (vadd a b.position) b.position = a := by
    intro a
    ext <;> simp [vadd, vsub]
  refine ⟨le, hle, ?_, ?_, ?_⟩
  · show rotYv (-b.rotation.y)
      (vsub (vadd (applyEuler b.rotation le.start) b.position) b.position) = le.start
    rw [happ, hcancel, rotYv_neg_rotYv]
  · show rotYv (-b.rotation.y)
      (vsub (vadd (applyEuler b.rotation le.center) b.position) b.position) = le.center
    rw [happ, hcancel, rotYv_neg_rotYv]
  · show rotYv (-b.rotation.y)
      (vsub (vadd (applyEuler b.rotation le.«end») b.position) b.position) = le.«end»
    rw [happ, hcancel, rotYv_neg_rotYv]

/-- Witness for C8 at the square foundation at the origin and its first
world edge. -/
theorem C8_roundtrip_witness :
    bldgA.rotation.x = 0 ∧ bldgA.rotation.z = 0 ∧
    (⟨⟨-2, 0, 2⟩, ⟨0, 0, 2⟩, ⟨2, 0, 2⟩, "a", .FOUNDATION_EDGE, 4, .SIDE⟩ : EdgeSocket) ∈ getWorldEdgeSockets bldgA ∧
    ∃ le ∈ getLocalEdgeSockets bldgA.type,
      rotYv (-bldgA.rotation.y) (vsub (⟨⟨-2, 0, 2⟩, ⟨0, 0, 2⟩, ⟨2, 0, 2⟩, "a", .FOUNDATION_EDGE, 4, .SIDE⟩ : EdgeSocket).start bldgA.position) = le.start ∧
      rotYv (-bldgA.rotation.y) (vsub (⟨⟨-2, 0, 2⟩, ⟨0, 0, 2⟩, ⟨2, 0, 2⟩, "a", .FOUNDATION_EDGE, 4, .SIDE⟩ : EdgeSocket).center bldgA.position) = le.center ∧
      rotYv (-bldgA.rotation.y) (vsub (⟨⟨-2, 0, 2⟩, ⟨0, 0, 2⟩, ⟨2, 0, 2⟩, "a", .FOUNDATION_EDGE, 4, .SIDE⟩ : EdgeSocket).«end» bldgA.position) = le.«end» := by
  have hmem : (⟨⟨-2, 0, 2⟩, ⟨0, 0, 2⟩, ⟨2, 0, 2⟩, "a", .FOUNDATION_EDGE, 4, .SIDE⟩ : EdgeSocket) ∈ getWorldEdgeSockets bldgA := by
    rw [worldEdges_bldgA]
    simp
  exact ⟨rfl, rfl, hmem, C8_roundtrip bldgA rfl rfl _ hmem⟩

/-- C9: an absent cursor point yields the immediately-invalid zero result
regardless of the placed pieces, the pending kind and the manual
rotation. -/
theorem C9_absent_cursor (buildings : List BuildingData) (t : BuildingType) (rot : ℝ) :
    calculateSnap none buildings t rot =
      some ⟨⟨0, 0, 0⟩, ⟨0, 0, 0⟩, false, none⟩ := rfl

/-- C10: every world edge's center is the midpoint of its world start and
end, and the world start-to-end distance equals the stored edge length. -/
theorem C10_world_edge_invariants (b : BuildingData) :
    ∀ e ∈ getWorldEdgeSockets b,
      e.center = smul 0.5 (vadd e.start e.«end») ∧ dist3 e.start e.«end» = e.edgeLength := by
  intro e he
  rw [getWorldEdgeSockets] at he
  obtain ⟨le, hle, rfl⟩ := List.mem_map.mp he
  obtain ⟨hc, hl⟩ := local_edge_inv b.type hle
  constructor
  · show vadd (applyEuler b.rotation le.center) b.position =
      smul 0.5 (vadd (vadd (applyEuler b.rotation le.start) b.position)
        (vadd (applyEuler b.rotation le.«end») b.position))
    rw [hc, applyEuler_smul, applyEuler_vadd]
    ext <;> simp [vadd, smul] <;> ring
  · show dist3 (vadd (applyEuler b.rotation le.start) b.position)
      (vadd (applyEuler b.rotation le.«end») b.position) = le.edgeLength
    rw [dist3_eq_vlen_vsub]
    have hv : vsub (vadd (applyEuler b.rotation le.start) b.position)
        (vadd (applyEuler b.rotation le.«end») b.position) =
        applyEuler b.rotation (vsub le.start le.«end») := by
      rw [← applyEuler_vsub]
      ext <;> simp [vadd, vsub]
    rw [hv, vlen_applyEuler, ← dist3_eq_vlen_vsub, hl]

/-- Witness for C10 at the square foundation at the origin and its first
world edge. -/
theorem C10_world_edge_invariants_witness :
    (⟨⟨-2, 0, 2⟩, ⟨0, 0, 2⟩, ⟨2, 0, 2⟩, "a", .FOUNDATION_EDGE, 4, .SIDE⟩ : EdgeSocket) ∈ getWorldEdgeSockets bldgA ∧
    ((⟨⟨-2, 0, 2⟩, ⟨0, 0, 2⟩, ⟨2, 0, 2⟩, "a", .FOUNDATION_EDGE, 4, .SIDE⟩ : EdgeSocket).center =
        smul 0.5 (vadd (⟨⟨-2, 0, 2⟩, ⟨0, 0, 2⟩, ⟨2, 0, 2⟩, "a", .FOUNDATION_EDGE, 4, .SIDE⟩ : EdgeSocket).start (⟨⟨-2, 0, 2⟩, ⟨0, 0, 2⟩, ⟨2, 0, 2⟩, "a", .FOUNDATION_EDGE, 4, .SIDE⟩ : EdgeSocket).«end») ∧
      dist3 (⟨⟨-2, 0, 2⟩, ⟨0, 0, 2⟩, ⟨2, 0, 2⟩, "a", .FOUNDATION_EDGE, 4, .SIDE⟩ : EdgeSocket).start (⟨⟨-2, 0, 2⟩, ⟨0, 0, 2⟩, ⟨2, 0, 2⟩, "a", .FOUNDATION_EDGE, 4, .SIDE⟩ : EdgeSocket).«end» =
        (⟨⟨-2, 0, 2⟩, ⟨0, 0, 2⟩, ⟨2, 0, 2⟩, "a", .FOUNDATION_EDGE, 4, .SIDE⟩ : EdgeSocket).edgeLength) := by
  have hmem : (⟨⟨-2, 0, 2⟩, ⟨0, 0, 2⟩, ⟨2, 0, 2⟩, "a", .FOUNDATION_EDGE, 4, .SIDE⟩ : EdgeSocket) ∈ getWorldEdgeSockets bldgA := by
    rw [worldEdges_bldgA]
    simp
  exact ⟨hmem, C10_world_edge_invariants bldgA _ hmem⟩

end
